import Mathlib

/-! Verification of the tile-layer loader, the contact listener and the script bridge.

Shallow embedding of `TmxLayer::deserialize` (src/framework/tmxparser/tmxlayer.cpp), of
`GameContactListener` (src/game/gamecontactlistener.cpp) and of the native operations of
`LuaNode` (src/game/luanode.cpp).

Conventions of the embedding
* `int32_t` values are integers, `uint32_t` values are naturals. The `uint32_t` arithmetic of the
  tile-layer loader is modelled: the width and the height of a layer, the number of cells of its
  buffer and the indices written are taken modulo `2^32`.
* A heap buffer (`int32_t*`) is a `List Int`; cell `i` of the buffer is `buf[i]?`.
* A C++ exception or a null dereference is an `Except` error; a native operation of the script
  bridge ends in an `Outcome`, which also covers `exit`.
* A `float` or `double` is the rational number it stands for. The rounding to `float` is the
  function `f32`; it is applied to the `float` constants of the contact listener, to the gravity
  scale of `setGravityScale` and in `damageRadius`.
-/

set_option autoImplicit false
set_option maxRecDepth 8000

section Machine

/-! ## Machine numbers -/

/-- The quotient `A / B` of two naturals rounded to the nearest natural, a tie to the even
one. -/
def roundHalfEven (A B : Nat) : Nat :=
  let f := A / B
  let r := A % B
  if 2 * r < B then f else if B < 2 * r then f + 1 else if f % 2 = 0 then f else f + 1

/-- The position of the leading binary digit of `n`, 0 for `n < 2`; the first argument bounds
the number of steps. -/
def log2Loop : Nat → Nat → Nat
  | 0, _ => 0
  | fuel + 1, n => if n < 2 then 0 else log2Loop fuel (n / 2) + 1

/-- The conversion of a number to `float` (IEEE 754 binary32) with the rounding of the
arithmetic of C++: to the nearest `float`, a tie to the one with the even significand. A `float`
has 24 significant binary digits and the quantum of the smallest ones is `2^-149`; the number is
scaled by `2^149`, cut to 24 digits and scaled back. The overflow to an infinity beyond the
largest `float` is not modelled. -/
def f32 (q : Rat) : Rat :=
  let A := q.num.natAbs * 2 ^ 149
  let shift := log2Loop (A / q.den) (A / q.den) - 23
  let k := roundHalfEven A (q.den * 2 ^ shift)
  let magnitude : Rat := mkRat (k * 2 ^ shift : Nat) (2 ^ 149)
  if q.num < 0 then -magnitude else magnitude

/-- The conversion of an integer to `int32_t`: the value modulo `2^32` between `-2^31` and
`2^31 - 1`. -/
def int32 (z : Int) : Int :=
  (z + 2147483648) % 4294967296 - 2147483648

end Machine

namespace Tmx

/-! ## Data model -/

/-- Modelled from the spec: `TmxChunk` (tmxchunk.h is not part of the sources at hand). A chunk is
a rectangular tile patch with an origin, a size and a dense row-major array of tile ids. The field
names are the ones `TmxLayer::deserialize` reads. -/
structure TmxChunk where
  _x_px : Int
  _y_px : Int
  _width_px : Nat
  _height_px : Nat
  _data : List Int
deriving Repr, DecidableEq

/-- The grid related members of `TmxLayer` (tmxlayer.h). `_data = nullptr` is the empty list. The
members `_width_px` and `_height_px` are `uint32_t` (tmxlayer.h, lines 15-16): naturals below
`2^32`, every assignment to them is reduced modulo `2^32`. -/
structure TmxLayer where
  _width_px : Nat
  _height_px : Nat
  _offset_x_px : Int
  _offset_y_px : Int
  _data : List Int
deriving Repr, DecidableEq

/-- The four running extrema of the chunk origins (`xMin`, `xMax`, `yMin`, `yMax`). -/
structure Bounds where
  xMin : Int
  xMax : Int
  yMin : Int
  yMax : Int
deriving Repr, DecidableEq

/-! ## Chunk merge (tmxlayer.cpp, lines 116-189) -/

/-- Initial extrema, lines 122-125: all four start at the origin of `chunks.at(0)`. -/
def initBounds (c : TmxChunk) : Bounds :=
  ⟨c._x_px, c._x_px, c._y_px, c._y_px⟩

/-- Body of the loop of lines 127-150: four independent `if`s, executed in the source order. -/
def updateBounds (b : Bounds) (c : TmxChunk) : Bounds :=
  let xMin := if c._x_px < b.xMin then c._x_px else b.xMin
  let yMin := if c._y_px < b.yMin then c._y_px else b.yMin
  let xMax := if c._x_px > b.xMax then c._x_px else b.xMax
  let yMax := if c._y_px > b.yMax then c._y_px else b.yMax
  ⟨xMin, xMax, yMin, yMax⟩

/-- Lines 122-150: the loop starts at index 1, the first chunk seeds the extrema. -/
def computeBounds (first : TmxChunk) (rest : List TmxChunk) : Bounds :=
  rest.foldl updateBounds (initBounds first)

/-- The assignment `_data[idx] = v`. The index is an integer expression in the source; an index
outside the buffer (undefined behaviour in C++) leaves the modelled buffer unchanged. -/
def writeCell (data : List Int) (idx : Int) (v : Int) : List Int :=
  if 0 ≤ idx then data.set idx.toNat v else data

/-- The read `c->_data[i]`; an index outside the chunk buffer (undefined behaviour in C++) reads
`0` in the model. -/
def readCell (data : List Int) (i : Nat) : Int :=
  data.getD i 0

/-- Lines 182-185: the layer index written for local cell `(x, y)` of chunk `c`. The operands
`xl` and `yl` are `int`, `_width_px` is `uint32_t`: the index `yl * _width_px + xl` is computed
in `uint32_t`, that is modulo `2^32`. -/
def layerIndex (b : Bounds) (width : Nat) (c : TmxChunk) (x y : Nat) : Int :=
  let xl := c._x_px + x - b.xMin
  let yl := c._y_px + y - b.yMin
  (yl * width + xl) % 4294967296

/-- Lines 179-186: the inner loop over `x` for a fixed row `y` of chunk `c`. -/
def mergeRow (b : Bounds) (width chunkWidth : Nat) (c : TmxChunk) (data : List Int) (y : Nat) :
    List Int :=
  (List.range chunkWidth).foldl
    (fun d x => writeCell d (layerIndex b width c x y) (readCell c._data (y * chunkWidth + x)))
    data

/-- Lines 177-187: the loop over the rows `y` of chunk `c`. -/
def mergeChunk (b : Bounds) (width chunkWidth chunkHeight : Nat) (data : List Int)
    (c : TmxChunk) : List Int :=
  (List.range chunkHeight).foldl (mergeRow b width chunkWidth c) data

/-- Lines 116-189 of `TmxLayer::deserialize`: when chunks were collected, the layer gets the
smallest chunk offset, the dimensions spanned by the chunk origins plus the size of the first
chunk, a zero filled buffer, and every chunk is copied into it in list order. Without chunks the
layer is left as it is. The dimensions are stored in `uint32_t` members (lines 160-161) and the
number of cells `_width_px * _height_px` is a `uint32_t` product (lines 163 and 166): all three
are taken modulo `2^32`. Where the `int` difference of the extrema overflows, the value is the
one the conversion to `uint32_t` leaves of the wrapped difference. -/
def mergeChunks (layer : TmxLayer) (chunks : List TmxChunk) : TmxLayer :=
  match chunks with
  | [] => layer
  | first :: rest =>
    let b := computeBounds first rest
    let chunkWidth := first._width_px
    let chunkHeight := first._height_px
    let width := (((b.xMax - b.xMin) + chunkWidth) % 4294967296).toNat
    let height := (((b.yMax - b.yMin) + chunkHeight) % 4294967296).toNat
    let zeroed := List.replicate (width * height % 4294967296) (0 : Int)
    let data := chunks.foldl (mergeChunk b width chunkWidth chunkHeight) zeroed
    ⟨width, height, b.xMin, b.yMin, data⟩

/-! ## Vocabulary of the specification -/

/-- The integer `m` is the smallest x origin of the chunk list. -/
def IsMinX (chunks : List TmxChunk) (m : Int) : Prop :=
  (∃ c ∈ chunks, c._x_px = m) ∧ ∀ c ∈ chunks, m ≤ c._x_px

/-- The integer `m` is the largest x origin of the chunk list. -/
def IsMaxX (chunks : List TmxChunk) (m : Int) : Prop :=
  (∃ c ∈ chunks, c._x_px = m) ∧ ∀ c ∈ chunks, c._x_px ≤ m

/-- The integer `m` is the smallest y origin of the chunk list. -/
def IsMinY (chunks : List TmxChunk) (m : Int) : Prop :=
  (∃ c ∈ chunks, c._y_px = m) ∧ ∀ c ∈ chunks, m ≤ c._y_px

/-- The integer `m` is the largest y origin of the chunk list. -/
def IsMaxY (chunks : List TmxChunk) (m : Int) : Prop :=
  (∃ c ∈ chunks, c._y_px = m) ∧ ∀ c ∈ chunks, c._y_px ≤ m

/-- All chunks of the list have width `w` and height `h`. -/
def Uniform (chunks : List TmxChunk) (w h : Nat) : Prop :=
  ∀ c ∈ chunks, c._width_px = w ∧ c._height_px = h

/-- The world cell `(wx, wy)` lies in the rectangle of chunk `c`. -/
def Covers (c : TmxChunk) (wx wy : Int) : Prop :=
  c._x_px ≤ wx ∧ wx < c._x_px + c._width_px ∧ c._y_px ≤ wy ∧ wy < c._y_px + c._height_px

instance (c : TmxChunk) (wx wy : Int) : Decidable (Covers c wx wy) := by
  unfold Covers; infer_instance

/-- What the extrema loop maintains: every visited origin lies between the extrema, and each
extremum is the origin of a visited chunk. -/
def BoundsOf (seen : List TmxChunk) (b : Bounds) : Prop :=
  IsMinX seen b.xMin ∧ IsMaxX seen b.xMax ∧ IsMinY seen b.yMin ∧ IsMaxY seen b.yMax

/-- The grid spanned by the extrema `b` for chunks of size `w x h` fits the 32 bit arithmetic of
the merge: its width, its height and its number of cells are below `2^32`. -/
def Fits (b : Bounds) (w h : Nat) : Prop :=
  (b.xMax - b.xMin) + w < 4294967296 ∧ (b.yMax - b.yMin) + h < 4294967296 ∧
  ((b.xMax - b.xMin) + w) * ((b.yMax - b.yMin) + h) < 4294967296

instance (b : Bounds) (w h : Nat) : Decidable (Fits b w h) := by
  unfold Fits; infer_instance

/-- Geometry of a merge without wrap: the buffer is `W x H`, `W` and `H` are the extents of the
bounds plus the chunk size, and the number of cells is below `2^32`. -/
structure Frame (b : Bounds) (W H cw ch : Nat) : Prop where
  hW : (W : Int) = (b.xMax - b.xMin) + cw
  hH : (H : Int) = (b.yMax - b.yMin) + ch
  hS : W * H < 4294967296

/-- The origin of chunk `k` lies between the extrema `b`. -/
def InBounds (b : Bounds) (k : TmxChunk) : Prop :=
  b.xMin ≤ k._x_px ∧ k._x_px ≤ b.xMax ∧ b.yMin ≤ k._y_px ∧ k._y_px ≤ b.yMax

/-- The rectangles of two chunks are disjoint: no world cell lies in both. -/
def Apart (a b : TmxChunk) : Prop :=
  ∀ wx wy : Int, ¬ (Covers a wx wy ∧ Covers b wx wy)

/-! ## Raw CSV layer data (tmxlayer.cpp, lines 73-101) -/

/-- The exceptions of `std::stoi`. -/
inductive ParseError where
  | invalid_argument
  | out_of_range
deriving Repr, DecidableEq

/-- The characters `std::isspace` accepts in the C locale. -/
def isSpace (c : Char) : Bool :=
  c = ' ' || c = '\t' || c = '\n' || c = '\x0b' || c = '\x0c' || c = '\r'

/-- Value of a run of decimal digits, most significant digit first. -/
def digitsValue (ds : List Char) : Nat :=
  ds.foldl (fun acc d => acc * 10 + (d.toNat - '0'.toNat)) 0

/-- The optional sign read by `std::stoi`: whether it is a minus, and the rest of the text. -/
def stripSign : List Char → Bool × List Char
  | '-' :: rest => (true, rest)
  | '+' :: rest => (false, rest)
  | s => (false, s)

/-- The call `std::stoi(str)` of line 94 (base 10, C++ standard library): leading white space is
skipped, an optional sign is read, then the longest run of decimal digits; what follows the digits
is ignored. Without any digit the call throws `std::invalid_argument`, with a value outside the
range of `int` it throws `std::out_of_range`. -/
def stoi (str : List Char) : Except ParseError Int :=
  let signed := stripSign (str.dropWhile isSpace)
  let digits := signed.2.takeWhile Char.isDigit
  if digits = [] then .error .invalid_argument
  else
    let magnitude : Int := digitsValue digits
    let val : Int := if signed.1 then -magnitude else magnitude
    if val < -2147483648 ∨ 2147483647 < val then .error .out_of_range else .ok val

/-- The loop `while (std::getline(stream, line, delim))` (C++ standard library): the pieces of the
text between delimiters; at the end of the text a piece is produced only if it has at least one
character. `cur` is the piece being read, last character first. -/
def getlineLoop (delim : Char) : List Char → List Char → List (List Char)
  | [], cur => if cur = [] then [] else [cur.reverse]
  | c :: cs, cur =>
    if c = delim then cur.reverse :: getlineLoop delim cs [] else getlineLoop delim cs (c :: cur)

/-- The lines read by the loop of line 84. -/
def getlines (text : List Char) (delim : Char) : List (List Char) :=
  getlineLoop delim text []

/-- Modelled from the spec: `TmxTools::trim` (tmxtools is not part of the sources at hand). The
spec has blank lines tolerated and white space ignored: leading and trailing white space of the
line is removed. -/
def trim (line : List Char) : List Char :=
  ((line.dropWhile isSpace).reverse.dropWhile isSpace).reverse

/-- Modelled from the spec: `TmxTools::split` (tmxtools is not part of the sources at hand). The
spec has rows comma-separated with trailing commas tolerated: the pieces between delimiters, no
empty piece after a trailing delimiter. -/
def split (line : List Char) (delim : Char) : List (List Char) :=
  getlineLoop delim line []

/-- The allocation `new int32_t[n]` of line 76: `n` cells of indeterminate content; `junk` stands
for whatever the memory held. -/
def allocate (junk : Nat → Int) (n : Nat) : List Int :=
  (List.range n).map junk

/-- Lines 92-97: the loop over the tokens of row `y`; `x` is the running column. A token that
`std::stoi` rejects ends the loop with the exception. The index `y * _width_px + x` of line 95 is
computed in `uint32_t`, that is modulo `2^32`. -/
def storeRow (width y : Nat) : List (List Char) → Nat → List Int → Except ParseError (List Int)
  | [], _, data => .ok data
  | valStr :: rowContent, x, data =>
    match stoi valStr with
    | .error e => .error e
    | .ok val =>
      storeRow width y rowContent (x + 1)
        (writeCell data (((y * width + x) % 4294967296 : Nat) : Int) val)

/-- Lines 84-100: the loop over the lines of the text; `y` is the running row, blank lines are
skipped without advancing it. -/
def parseRows (width : Nat) : List (List Char) → Nat → List Int → Except ParseError (List Int)
  | [], _, data => .ok data
  | line :: rest, y, data =>
    if trim line = [] then parseRows width rest y data
    else
      match storeRow width y (split (trim line) ',') 0 data with
      | .error e => .error e
      | .ok data1 => parseRows width rest (y + 1) data1

/-- A child node of the `data` element: a `chunk` element, or any other node (the text of raw
layer data) with its `Value()`. -/
inductive DataNode where
  | chunk (c : TmxChunk)
  | other (value : List Char)
deriving Repr, DecidableEq

/-- The result of `XMLNode::Value()`: the tag name of an element, the text of a text node. -/
def DataNode.Value : DataNode → List Char
  | .chunk _ => ['c', 'h', 'u', 'n', 'k']
  | .other value => value

/-- The loader state while the children of `data` are visited: the layer and the chunks collected
so far. -/
structure LoadState where
  layer : TmxLayer
  chunks : List TmxChunk
deriving Repr, DecidableEq

/-- Lines 57-101, one iteration of the loop over the children of `data`: a `chunk` element is
collected; for any other node the buffer is allocated anew and the `Value()` of the first child
of `data` is parsed as CSV into it. The number of cells allocated in line 76 is the `uint32_t`
product `_width_px * _height_px`, taken modulo `2^32`. -/
def processDataNode (firstValue : List Char) (junk : Nat → Int) (st : LoadState) :
    DataNode → Except ParseError LoadState
  | .chunk c => .ok ⟨st.layer, st.chunks ++ [c]⟩
  | .other _ =>
    match parseRows st.layer._width_px (getlines firstValue '\n') 0
        (allocate junk (st.layer._width_px * st.layer._height_px % 4294967296)) with
    | .error e => .error e
    | .ok data =>
      .ok ⟨⟨st.layer._width_px, st.layer._height_px, st.layer._offset_x_px,
            st.layer._offset_y_px, data⟩, st.chunks⟩

/-- Lines 53-104: the loop over the children of `data`. -/
def processDataNodes (firstValue : List Char) (junk : Nat → Int) :
    List DataNode → LoadState → Except ParseError LoadState
  | [], st => .ok st
  | node :: rest, st =>
    match processDataNode firstValue junk st node with
    | .error e => .error e
    | .ok st1 => processDataNodes firstValue junk rest st1

/-- The function `TmxLayer::deserialize` for a layer element with the attributes `width` and
`height` and one `data` element with the given children: the attributes are stored in the
`uint32_t` members (lines 29-30), the other members start at their defaults (offset `(0,0)`, no
buffer), the children of `data` are visited, and collected chunks are merged at the end. -/
def deserialize (width height : Nat) (children : List DataNode) (junk : Nat → Int) :
    Except ParseError TmxLayer :=
  let firstValue := match children with
    | [] => []
    | node :: _ => node.Value
  match processDataNodes firstValue junk children
      ⟨⟨width % 4294967296, height % 4294967296, 0, 0, []⟩, []⟩ with
  | .error e => .error e
  | .ok st => .ok (mergeChunks st.layer st.chunks)

/-- The trimmed non-blank lines of a raw CSV body, each cut into its tokens. -/
def tokenRows (body : List Char) : List (List (List Char)) :=
  (((getlines body '\n').map trim).filter (fun line => line ≠ [])).map (fun line => split line ',')

/-- An integer in decimal notation: an optional sign followed by one or more decimal digits and
nothing else. -/
def IsInteger (tok : List Char) : Prop :=
  (stripSign tok).2 ≠ [] ∧ ∀ c ∈ (stripSign tok).2, c.isDigit = true

instance (tok : List Char) : Decidable (IsInteger tok) := by
  unfold IsInteger; infer_instance

/-- The decimal notation of an integer: a minus sign for a negative value, then the digits,
without leading zeros. -/
def decimal (v : Int) : List Char :=
  (toString v).toList

/-- A token without its white space. -/
def stripSpace (tok : List Char) : List Char :=
  tok.filter (fun c => !isSpace c)

/-- Modelled from the spec: the grid re-serialized row-major (the sources at hand hold no
serializer): one token per cell of the buffer, in the order of the buffer, each the decimal
notation of the tile id. -/
def reserialize (layer : TmxLayer) : List (List Char) :=
  layer._data.map decimal

/-- A raw CSV body of `height` lines of `width` tokens `0`, every token followed by a comma and
every line by a line feed. -/
def zeroBody (width height : Nat) : List Char :=
  ((List.replicate height
    ((List.replicate width ['0']).map (fun tok => tok ++ [','])).flatten).map
      (fun line => line ++ ['\n'])).flatten

/-- The two chunks of the example layer quoted at the end of tmxlayer.cpp (lines 197-232). -/
def exampleChunk0 : TmxChunk :=
  ⟨0, -32, 16, 16,
   [0,0,0,0,0,0,0,0,0,0,0,0,0,0,0,0,
    0,0,0,0,0,0,0,0,0,0,0,0,0,0,0,0,
    0,0,0,0,0,0,0,0,0,0,0,0,0,0,0,0,
    0,0,0,0,0,0,0,0,0,0,0,0,0,0,0,0,
    0,0,0,0,0,0,0,0,0,0,0,0,0,0,0,0,
    0,0,0,0,0,0,0,0,0,0,0,0,0,0,0,0,
    0,0,0,0,0,0,0,0,0,0,0,0,0,0,0,0,
    0,0,0,0,0,0,0,0,0,0,0,0,0,0,0,0,
    0,0,0,0,0,0,0,0,0,0,0,0,0,0,0,0,
    0,0,0,0,0,0,0,0,0,0,0,0,0,0,7226,0,
    0,0,0,0,0,0,0,0,0,0,0,0,0,0,7226,0,
    0,0,0,0,0,0,0,0,0,0,0,0,0,0,7226,7226,
    0,0,0,0,0,0,0,0,0,0,0,0,0,0,0,0,
    0,0,0,0,0,0,0,0,0,0,0,0,0,0,0,0,
    0,0,0,0,0,0,0,0,0,0,0,0,0,0,0,0,
    0,0,0,0,0,0,0,0,0,0,0,0,0,0,0,0]⟩

/-- Second chunk of the example layer (lines 215-232). -/
def exampleChunk1 : TmxChunk :=
  ⟨16, -32, 16, 16,
   [0,0,0,0,0,0,0,0,0,0,0,0,0,0,0,0,
    0,0,0,0,0,0,0,0,0,0,0,0,0,0,0,0,
    0,0,0,0,0,0,0,0,0,0,0,0,0,0,0,0,
    0,0,0,0,0,0,0,0,0,0,0,0,0,0,0,0,
    0,0,0,0,0,0,0,0,0,0,0,0,0,0,0,0,
    0,0,0,0,0,0,0,0,0,0,0,0,0,0,0,0,
    0,0,0,0,0,0,0,0,0,0,0,0,0,0,0,0,
    0,0,0,0,0,0,0,0,0,0,0,0,0,0,0,0,
    0,0,0,0,0,0,0,0,0,0,0,0,0,0,0,0,
    0,0,0,0,0,0,0,0,0,0,0,0,0,0,0,7226,
    0,0,0,0,0,0,0,0,0,0,0,0,0,0,0,7226,
    7226,7226,7226,7226,7226,7226,7226,7226,7226,7226,7226,7226,7226,7226,7226,7226,
    0,0,0,0,0,0,0,0,0,0,0,0,0,0,0,0,
    0,0,0,0,0,0,0,0,0,0,0,0,0,0,0,0,
    0,0,0,0,0,0,0,0,0,0,0,0,0,0,0,0,
    0,0,0,0,0,0,0,0,0,0,0,0,0,0,0,0]⟩

/-- The layer element of the example declares `width="256" height="128"`. -/
def exampleLayer : TmxLayer := ⟨256, 128, 0, 0, []⟩

end Tmx

namespace Game

/-! ## Data model of the contact listener -/

/-- The object kinds the listener switches on (constants.h is not part of the sources at hand; the
constructors are the `case` labels of `GameContactListener::BeginContact`). -/
inductive ObjectType where
  | ObjectTypeCrusher
  | ObjectTypePlayerFootSensor
  | ObjectTypePlayerHeadSensor
  | ObjectTypePlayerLeftArmSensor
  | ObjectTypePlayerRightArmSensor
  | ObjectTypeProjectile
  | ObjectTypeSolidOneSided
  | ObjectTypePlayer
  | ObjectTypeDeadly
  | ObjectTypeMovingPlatform
  | ObjectTypeBouncer
  | ObjectTypeEnemy
  | ObjectTypeDoor
  | ObjectTypeConveyorBelt
  | ObjectTypeMoveableBox
  | ObjectTypeDeathBlock
  | ObjectTypeSolid
deriving Repr, DecidableEq

open ObjectType

/-- The members of a `Projectile` node the listener reads and writes. -/
structure Projectile where
  sticky : Bool
  scheduledForRemoval : Bool
  hitSomething : Bool
  scheduledForInactivity : Bool
deriving Repr, DecidableEq

/-- What the listener observes of a `FixtureNode` (fixturenode.h is not part of the sources at
hand): `getType()`, whether `getParent()` is a `Player` or a `LuaNode`, `hasFlag("head")`, the
`int32_t` held by `getProperty("damage")` if there is one, the `Projectile` the node is if
`dynamic_cast<Projectile*>` succeeds, and whether `dynamic_cast<Bouncer*>` succeeds. -/
structure FixtureNode where
  type : ObjectType
  parentIsPlayer : Bool
  parentIsLuaNode : Bool
  headFlag : Bool
  damage : Option Int
  projectile : Option Projectile
  bouncer : Bool
deriving Repr, DecidableEq

/-- A `b2Body`: its identity and the y component of `GetLinearVelocity()`. -/
structure Body where
  id : Nat
  linearVelocityY : Rat
deriving Repr, DecidableEq

/-- A `b2Fixture`: `GetUserData()` (`none` is the null pointer), `IsSensor()`, whether `GetType()`
is `b2Shape::e_chain`, and `GetBody()`. -/
structure Fixture where
  userData : Option FixtureNode
  sensor : Bool
  chain : Bool
  body : Body
deriving Repr, DecidableEq

/-- A `b2Contact`: its two fixtures and the flag set by `SetEnabled`. -/
structure Contact where
  fixtureA : Fixture
  fixtureB : Fixture
  enabled : Bool
deriving Repr, DecidableEq

/-- The two sides of a contact. -/
inductive Side where
  | A
  | B
deriving Repr, DecidableEq

/-- The other side. -/
def Side.other : Side → Side
  | .A => .B
  | .B => .A

/-- The calls `GetFixtureA()` and `GetFixtureB()`. -/
def Contact.fixture (c : Contact) : Side → Fixture
  | .A => c.fixtureA
  | .B => c.fixtureB

/-- The contact with the user data of the fixture of one side replaced (a write through the
node pointer). -/
def Contact.setNode (c : Contact) (side : Side) (n : FixtureNode) : Contact :=
  match side with
  | .A => ⟨⟨some n, c.fixtureA.sensor, c.fixtureA.chain, c.fixtureA.body⟩, c.fixtureB, c.enabled⟩
  | .B => ⟨c.fixtureA, ⟨some n, c.fixtureB.sensor, c.fixtureB.chain, c.fixtureB.body⟩, c.enabled⟩

/-- The call `contact->SetEnabled(flag)`. -/
def Contact.SetEnabled (c : Contact) (flag : Bool) : Contact :=
  ⟨c.fixtureA, c.fixtureB, flag⟩

/-- The members of `GameContactListener`. -/
structure GameContactListener where
  mNumFootContacts : Int
  mNumHeadContacts : Int
  mNumArmLeftContacts : Int
  mNumArmRightContacts : Int
  mNumPlayerContacts : Int
  mNumDeadlyContacts : Int
  mNumMovingPlatformContacts : Int
  mSmashed : Bool
deriving Repr, DecidableEq

/-- Calls the listener makes on objects outside of it, in the order they are made. -/
inductive Effect where
  | playerDamage (damage : Int)
  | luaHit (damage : Int)
  | collisionWithPlayer
  | bouncerActivate
  | playerImpulse (impulse : Rat)
  | timerAdded (milliseconds : Nat)
deriving Repr, DecidableEq

/-- What the listener reads and writes of `Player::getCurrent()`: the ground body and platform
body it stores (body identities) and the answer of `isOnGround()`. -/
structure Player where
  groundBody : Option Nat
  platformBody : Option Nat
  onGround : Bool
deriving Repr, DecidableEq

/-- The listener together with the objects its callbacks act on. -/
structure World where
  listener : GameContactListener
  player : Player
  log : List Effect
deriving Repr, DecidableEq

/-- How a callback can fail: a call through a null pointer, or `std::get<int32_t>` on a property
that holds no `int32_t`. -/
inductive Fault where
  | nullDereference
  | badVariantAccess
deriving Repr, DecidableEq

/-! ## The callbacks -/

/-- The function `GameContactListener::isPlayer` (lines 46-61). -/
def isPlayer (obj : Option FixtureNode) : Bool :=
  match obj with
  | none => false
  | some node => node.parentIsPlayer

/-- The function `GameContactListener::reset` (lines 752-762). -/
def reset (_l : GameContactListener) : GameContactListener :=
  ⟨0, 0, 0, 0, 0, 0, 0, false⟩

/-- The state of `BeginContact` while it runs: the world, the contact, and the locals
`platformFixture` and `playerFixture` (`none` is the null pointer, otherwise the side of the
contact whose fixture the pointer holds). -/
structure BeginState where
  world : World
  contact : Contact
  platformFixture : Option Side
  playerFixture : Option Side
deriving Repr, DecidableEq

/-- One `switch` of `BeginContact` (lines 114-253 with `side = A`; lines 260-400, the same code
with A and B exchanged, with `side = B`). `node` is the fixture node switched on. -/
def beginSwitch (side : Side) (node : FixtureNode) (st : BeginState) : Except Fault BeginState :=
  let l := st.world.listener
  let self := st.contact.fixture side
  let other := st.contact.fixture side.other
  match node.type with
  | ObjectTypeCrusher =>
    if isPlayer other.userData then
      .ok ⟨⟨⟨l.mNumFootContacts, l.mNumHeadContacts, l.mNumArmLeftContacts,
        l.mNumArmRightContacts, l.mNumPlayerContacts, l.mNumDeadlyContacts + 1,
        l.mNumMovingPlatformContacts, l.mSmashed⟩, st.world.player, st.world.log⟩,
        st.contact, st.platformFixture, st.playerFixture⟩
    else .ok st
  | ObjectTypePlayerFootSensor =>
    if !other.sensor then
      let player : Player :=
        if other.chain then ⟨some other.body.id, st.world.player.platformBody,
          st.world.player.onGround⟩
        else st.world.player
      .ok ⟨⟨⟨l.mNumFootContacts + 1, l.mNumHeadContacts, l.mNumArmLeftContacts,
        l.mNumArmRightContacts, l.mNumPlayerContacts, l.mNumDeadlyContacts,
        l.mNumMovingPlatformContacts, l.mSmashed⟩, player, st.world.log⟩,
        st.contact, st.platformFixture, st.playerFixture⟩
    else .ok st
  | ObjectTypePlayerHeadSensor =>
    if !other.sensor then
      .ok ⟨⟨⟨l.mNumFootContacts, l.mNumHeadContacts + 1, l.mNumArmLeftContacts,
        l.mNumArmRightContacts, l.mNumPlayerContacts, l.mNumDeadlyContacts,
        l.mNumMovingPlatformContacts, l.mSmashed⟩, st.world.player, st.world.log⟩,
        st.contact, st.platformFixture, st.playerFixture⟩
    else .ok st
  | ObjectTypePlayerLeftArmSensor =>
    if !other.sensor then
      .ok ⟨⟨⟨l.mNumFootContacts, l.mNumHeadContacts, l.mNumArmLeftContacts + 1,
        l.mNumArmRightContacts, l.mNumPlayerContacts, l.mNumDeadlyContacts,
        l.mNumMovingPlatformContacts, l.mSmashed⟩, st.world.player, st.world.log⟩,
        st.contact, st.platformFixture, st.playerFixture⟩
    else .ok st
  | ObjectTypePlayerRightArmSensor =>
    if !other.sensor then
      .ok ⟨⟨⟨l.mNumFootContacts, l.mNumHeadContacts, l.mNumArmLeftContacts,
        l.mNumArmRightContacts + 1, l.mNumPlayerContacts, l.mNumDeadlyContacts,
        l.mNumMovingPlatformContacts, l.mSmashed⟩, st.world.player, st.world.log⟩,
        st.contact, st.platformFixture, st.playerFixture⟩
    else .ok st
  | ObjectTypeProjectile =>
    match node.damage with
    | none => .error .badVariantAccess
    | some damage =>
      let log :=
        if isPlayer other.userData then st.world.log ++ [Effect.playerDamage damage]
        else
          match other.userData with
          | some otherNode =>
            if otherNode.type = ObjectTypeEnemy ∧ otherNode.parentIsLuaNode = true then
              st.world.log ++ [Effect.luaHit damage]
            else st.world.log
          | none => st.world.log
      match node.projectile with
      | none => .error .nullDereference
      | some projectile =>
        let contact :=
          if !projectile.sticky then
            st.contact.setNode side
              ⟨node.type, node.parentIsPlayer, node.parentIsLuaNode, node.headFlag, node.damage,
                some ⟨projectile.sticky, true, projectile.hitSomething,
                  projectile.scheduledForInactivity⟩, node.bouncer⟩
          else st.contact
        .ok ⟨⟨l, st.world.player, log⟩, contact, st.platformFixture, st.playerFixture⟩
  | ObjectTypeSolidOneSided =>
    .ok ⟨st.world, st.contact, some side, some side.other⟩
  | ObjectTypePlayer =>
    .ok ⟨⟨⟨l.mNumFootContacts, l.mNumHeadContacts, l.mNumArmLeftContacts,
      l.mNumArmRightContacts, l.mNumPlayerContacts + 1, l.mNumDeadlyContacts,
      l.mNumMovingPlatformContacts, l.mSmashed⟩, st.world.player, st.world.log⟩,
      st.contact, st.platformFixture, st.playerFixture⟩
  | ObjectTypeDeadly =>
    if isPlayer other.userData then
      .ok ⟨⟨⟨l.mNumFootContacts, l.mNumHeadContacts, l.mNumArmLeftContacts,
        l.mNumArmRightContacts, l.mNumPlayerContacts, l.mNumDeadlyContacts + 1,
        l.mNumMovingPlatformContacts, l.mSmashed⟩, st.world.player, st.world.log⟩,
        st.contact, st.platformFixture, st.playerFixture⟩
    else .ok st
  | ObjectTypeMovingPlatform =>
    let headHit : Bool :=
      match other.userData with
      | some otherNode => decide (otherNode.type = ObjectTypePlayerHeadSensor)
      | none => false
    let smashed := if headHit && st.world.player.onGround then true else l.mSmashed
    .ok ⟨⟨⟨l.mNumFootContacts, l.mNumHeadContacts, l.mNumArmLeftContacts,
      l.mNumArmRightContacts, l.mNumPlayerContacts, l.mNumDeadlyContacts,
      l.mNumMovingPlatformContacts + 1, smashed⟩,
      ⟨st.world.player.groundBody, some self.body.id, st.world.player.onGround⟩, st.world.log⟩,
      st.contact, st.platformFixture, st.playerFixture⟩
  | ObjectTypeBouncer =>
    if node.bouncer then
      .ok ⟨⟨l, st.world.player, st.world.log ++ [Effect.bouncerActivate]⟩,
        st.contact, st.platformFixture, st.playerFixture⟩
    else .error .nullDereference
  | ObjectTypeEnemy =>
    if isPlayer other.userData then
      match node.damage with
      | none => .error .badVariantAccess
      | some damage =>
        .ok ⟨⟨l, st.world.player,
          st.world.log ++ [Effect.collisionWithPlayer, Effect.playerDamage damage]⟩,
          st.contact, st.platformFixture, st.playerFixture⟩
    else .ok st
  | ObjectTypeDoor => .ok st
  | ObjectTypeConveyorBelt => .ok st
  | ObjectTypeMoveableBox => .ok st
  | ObjectTypeDeathBlock => .ok st
  | ObjectTypeSolid => .ok st

/-- The guarded switch of one side (lines 112-254 and 256-401): nothing happens for a fixture
without user data. -/
def beginSide (side : Side) (st : BeginState) : Except Fault BeginState :=
  match (st.contact.fixture side).userData with
  | none => .ok st
  | some node => beginSwitch side node st

/-- Lines 68-73 of `processOneSidedWalls`: a non-null `playerFixture` whose node has the flag
`head` disables the contact. The user data of the fixture is dereferenced without a check. -/
def headCheck (contact : Contact) (playerFixture : Option Side) : Except Fault Contact :=
  match playerFixture with
  | none => .ok contact
  | some side =>
    match (contact.fixture side).userData with
    | none => .error .nullDereference
    | some node => if node.headFlag then .ok (contact.SetEnabled false) else .ok contact

/-- Lines 75-87 of `processOneSidedWalls`: without a platform nothing more happens; a player
fixture moving down keeps the contact as it is, otherwise the contact is disabled. -/
def velocityCheck (contact : Contact) (playerFixture platformFixture : Option Side) :
    Except Fault Contact :=
  match platformFixture with
  | none => .ok contact
  | some _ =>
    match playerFixture with
    | none => .error .nullDereference
    | some side =>
      if (contact.fixture side).body.linearVelocityY > 0 then .ok contact
      else .ok (contact.SetEnabled false)

/-- The function `GameContactListener::processOneSidedWalls` (lines 64-88). -/
def processOneSidedWalls (contact : Contact) (playerFixture platformFixture : Option Side) :
    Except Fault Contact :=
  match headCheck contact playerFixture with
  | .error e => .error e
  | .ok contact1 => velocityCheck contact1 playerFixture platformFixture

/-- The callback `GameContactListener::BeginContact` (lines 91-405): the switch of side A, the
switch of side B, then the one sided walls. The result is the world and the contact after the
call. -/
def BeginContact (w : World) (contact : Contact) : Except Fault (World × Contact) :=
  match beginSide .A ⟨w, contact, none, none⟩ with
  | .error e => .error e
  | .ok st1 =>
    match beginSide .B st1 with
    | .error e => .error e
    | .ok st2 =>
      match processOneSidedWalls st2.contact st2.playerFixture st2.platformFixture with
      | .error e => .error e
      | .ok contact1 => .ok (st2.world, contact1)

/-- One `switch` of `EndContact` (lines 430-500 with `side = A`; lines 507-577, the same code with
A and B exchanged, with `side = B`). -/
def endSwitch (side : Side) (node : FixtureNode) (l : GameContactListener) (contact : Contact) :
    GameContactListener × Contact :=
  let other := contact.fixture side.other
  match node.type with
  | ObjectTypeCrusher =>
    if isPlayer other.userData then
      (⟨l.mNumFootContacts, l.mNumHeadContacts, l.mNumArmLeftContacts, l.mNumArmRightContacts,
        l.mNumPlayerContacts, l.mNumDeadlyContacts - 1, l.mNumMovingPlatformContacts,
        l.mSmashed⟩, contact)
    else (l, contact)
  | ObjectTypePlayerFootSensor =>
    if !other.sensor then
      (⟨l.mNumFootContacts - 1, l.mNumHeadContacts, l.mNumArmLeftContacts,
        l.mNumArmRightContacts, l.mNumPlayerContacts, l.mNumDeadlyContacts,
        l.mNumMovingPlatformContacts, l.mSmashed⟩, contact)
    else (l, contact)
  | ObjectTypePlayerHeadSensor =>
    if !other.sensor then
      (⟨l.mNumFootContacts, l.mNumHeadContacts - 1, l.mNumArmLeftContacts,
        l.mNumArmRightContacts, l.mNumPlayerContacts, l.mNumDeadlyContacts,
        l.mNumMovingPlatformContacts, l.mSmashed⟩, contact)
    else (l, contact)
  | ObjectTypePlayerLeftArmSensor =>
    if !other.sensor then
      (⟨l.mNumFootContacts, l.mNumHeadContacts, l.mNumArmLeftContacts - 1,
        l.mNumArmRightContacts, l.mNumPlayerContacts, l.mNumDeadlyContacts,
        l.mNumMovingPlatformContacts, l.mSmashed⟩, contact)
    else (l, contact)
  | ObjectTypePlayerRightArmSensor =>
    if !other.sensor then
      (⟨l.mNumFootContacts, l.mNumHeadContacts, l.mNumArmLeftContacts,
        l.mNumArmRightContacts - 1, l.mNumPlayerContacts, l.mNumDeadlyContacts,
        l.mNumMovingPlatformContacts, l.mSmashed⟩, contact)
    else (l, contact)
  | ObjectTypePlayer =>
    (⟨l.mNumFootContacts, l.mNumHeadContacts, l.mNumArmLeftContacts, l.mNumArmRightContacts,
      l.mNumPlayerContacts - 1, l.mNumDeadlyContacts, l.mNumMovingPlatformContacts,
      l.mSmashed⟩, contact)
  | ObjectTypeSolidOneSided => (l, contact.SetEnabled true)
  | ObjectTypeDeadly =>
    if isPlayer other.userData then
      (⟨l.mNumFootContacts, l.mNumHeadContacts, l.mNumArmLeftContacts, l.mNumArmRightContacts,
        l.mNumPlayerContacts, l.mNumDeadlyContacts - 1, l.mNumMovingPlatformContacts,
        l.mSmashed⟩, contact)
    else (l, contact)
  | ObjectTypeMovingPlatform =>
    (⟨l.mNumFootContacts, l.mNumHeadContacts, l.mNumArmLeftContacts, l.mNumArmRightContacts,
      l.mNumPlayerContacts, l.mNumDeadlyContacts, l.mNumMovingPlatformContacts - 1,
      l.mSmashed⟩, contact)
  | _ => (l, contact)

/-- The guarded switch of one side of `EndContact` (lines 426-501 and 503-578). -/
def endSide (side : Side) (l : GameContactListener) (contact : Contact) :
    GameContactListener × Contact :=
  match (contact.fixture side).userData with
  | none => (l, contact)
  | some node => endSwitch side node l contact

/-- The callback `GameContactListener::EndContact` (lines 408-582): the switch of side A, then
the switch of side B. Only the listener and the contact are touched; no call can fail. -/
def EndContact (w : World) (contact : Contact) : World × Contact :=
  let r1 := endSide .A w.listener contact
  let r2 := endSide .B r1.1 r1.2
  (⟨r2.1, w.player, w.log⟩, r2.2)

/-- A contact event delivered by the physics engine. -/
inductive Event where
  | begin (contact : Contact)
  | finish (contact : Contact)
deriving Repr, DecidableEq

/-- The listener processes one event. -/
def handle (w : World) : Event → Except Fault World
  | .begin contact =>
    match BeginContact w contact with
    | .error e => .error e
    | .ok r => .ok r.1
  | .finish contact => .ok (EndContact w contact).1

/-- The listener processes a sequence of events; a fault ends the run. -/
def run (w : World) : List Event → Except Fault World
  | [] => .ok w
  | ev :: rest =>
    match handle w ev with
    | .error e => .error e
    | .ok w1 => run w1 rest

/-! ## Vocabulary of the specification -/

/-- The seven contact counters. -/
inductive Counter where
  | foot
  | head
  | armLeft
  | armRight
  | player
  | deadly
  | movingPlatform
deriving Repr, DecidableEq

/-- The value of a counter. -/
def GameContactListener.count (l : GameContactListener) : Counter → Int
  | .foot => l.mNumFootContacts
  | .head => l.mNumHeadContacts
  | .armLeft => l.mNumArmLeftContacts
  | .armRight => l.mNumArmRightContacts
  | .player => l.mNumPlayerContacts
  | .deadly => l.mNumDeadlyContacts
  | .movingPlatform => l.mNumMovingPlatformContacts

/-- What identifies the fixture pair of a contact for the pairing of begin and end events: the
classifications of the two fixtures, their sensor flags and whether the player owns them. -/
structure ContactKind where
  typeA : Option ObjectType
  typeB : Option ObjectType
  sensorA : Bool
  sensorB : Bool
  playerA : Bool
  playerB : Bool
deriving Repr, DecidableEq

/-- The kind of a contact. -/
def kindOf (c : Contact) : ContactKind :=
  ⟨c.fixtureA.userData.map (fun n => n.type), c.fixtureB.userData.map (fun n => n.type),
   c.fixtureA.sensor, c.fixtureB.sensor, isPlayer c.fixtureA.userData,
   isPlayer c.fixtureB.userData⟩

/-- Whether a fixture of classification `self` in contact with a fixture that is a sensor or not
and owned by the player or not counts towards a counter (section 4.2 of the specification). -/
def sideCounts (ctr : Counter) (self : Option ObjectType) (otherSensor otherPlayer : Bool) : Bool :=
  match ctr with
  | .foot => self = some ObjectTypePlayerFootSensor && !otherSensor
  | .head => self = some ObjectTypePlayerHeadSensor && !otherSensor
  | .armLeft => self = some ObjectTypePlayerLeftArmSensor && !otherSensor
  | .armRight => self = some ObjectTypePlayerRightArmSensor && !otherSensor
  | .player => self = some ObjectTypePlayer
  | .deadly => (self = some ObjectTypeCrusher || self = some ObjectTypeDeadly) && otherPlayer
  | .movingPlatform => self = some ObjectTypeMovingPlatform

/-- The number of sides (0, 1 or 2) of a contact that count towards a counter. -/
def weight (ctr : Counter) (k : ContactKind) : Nat :=
  (if sideCounts ctr k.typeA k.sensorB k.playerB then 1 else 0)
    + (if sideCounts ctr k.typeB k.sensorA k.playerA then 1 else 0)

/-- A contact counts towards a counter when one of its sides does. -/
def countsTowards (ctr : Counter) (k : ContactKind) : Bool :=
  sideCounts ctr k.typeA k.sensorB k.playerB || sideCounts ctr k.typeB k.sensorA k.playerA

/-- The open contacts after an event: a begin opens a contact, an end closes one open contact of
the same kind; an end without an open contact of its kind is not a paired event. -/
def openStep (opened : List ContactKind) : Event → Option (List ContactKind)
  | .begin contact => some (kindOf contact :: opened)
  | .finish contact =>
    if kindOf contact ∈ opened then some (opened.erase (kindOf contact)) else none

/-- The open contacts after a sequence of events, `none` if some end event is unmatched. -/
def openAfter (opened : List ContactKind) : List Event → Option (List ContactKind)
  | [] => some opened
  | ev :: rest =>
    match openStep opened ev with
    | none => none
    | some opened1 => openAfter opened1 rest

/-- Every end event is matched by an earlier begin event of the same fixture pair, and no pair
is ended twice. -/
def Paired (evs : List Event) : Prop :=
  (openAfter [] evs).isSome = true

instance (evs : List Event) : Decidable (Paired evs) := by
  unfold Paired; infer_instance

/-- The number of sides (0 or 1) by which one side of a contact counts towards a counter. -/
def sideWeight (ctr : Counter) (k : ContactKind) : Side → Nat
  | .A => if sideCounts ctr k.typeA k.sensorB k.playerB then 1 else 0
  | .B => if sideCounts ctr k.typeB k.sensorA k.playerA then 1 else 0

/-- The sum, over the open contacts, of the number of sides counting towards a counter. -/
def openSides (ctr : Counter) (opened : List ContactKind) : Nat :=
  (opened.map (weight ctr)).sum

/-- The number of open contacts counting towards a counter. -/
def openContacts (ctr : Counter) (opened : List ContactKind) : Nat :=
  (opened.filter (countsTowards ctr)).length

/-- A fixture of the player body, classified `ObjectTypePlayer`. -/
def playerBodyFixture : Fixture :=
  ⟨some ⟨ObjectTypePlayer, true, false, false, none, none, false⟩, false, false, ⟨1, 0⟩⟩

/-- A foot sensor of the player. -/
def footSensorFixture : Fixture :=
  ⟨some ⟨ObjectTypePlayerFootSensor, true, false, false, none, none, false⟩, true, false, ⟨1, 0⟩⟩

/-- A fixture of the level geometry, classified `ObjectTypeSolid`, with a chain shape. -/
def groundFixture : Fixture :=
  ⟨some ⟨ObjectTypeSolid, false, false, false, none, none, false⟩, false, true, ⟨2, 0⟩⟩

/-- A world whose listener has just been reset. -/
def freshWorld : World :=
  ⟨reset ⟨3, 1, 0, 0, 2, 0, 0, true⟩, ⟨none, none, false⟩, []⟩

/-- The node is of the C++ class its classification promises and carries the `damage` property
where the listener reads it: a projectile node is a `Projectile` with an `int32_t` damage, a
bouncer node is a `Bouncer`, an enemy node has an `int32_t` damage. -/
def FixtureNode.consistent (n : FixtureNode) : Prop :=
  (n.type = ObjectTypeProjectile → n.damage.isSome = true ∧ n.projectile.isSome = true) ∧
  (n.type = ObjectTypeBouncer → n.bouncer = true) ∧
  (n.type = ObjectTypeEnemy → n.damage.isSome = true)

/-- Both fixtures of the contact carry a consistent node. -/
def Contact.wellTagged (c : Contact) : Prop :=
  ∃ a b, c.fixtureA.userData = some a ∧ c.fixtureB.userData = some b ∧
    a.consistent ∧ b.consistent

/-- The contact of an event. -/
def Event.contact : Event → Contact
  | .begin contact => contact
  | .finish contact => contact

/-- The classifications of player fixtures. -/
def isPlayerType : ObjectType → Bool
  | ObjectTypePlayer => true
  | ObjectTypePlayerFootSensor => true
  | ObjectTypePlayerHeadSensor => true
  | ObjectTypePlayerLeftArmSensor => true
  | ObjectTypePlayerRightArmSensor => true
  | _ => false

/-- The fixture carries a node of the given classification. -/
def Fixture.hasType (f : Fixture) (t : ObjectType) : Prop :=
  ∃ node, f.userData = some node ∧ node.type = t

/-- A one sided platform fixture. -/
def oneSidedFixture : Fixture :=
  ⟨some ⟨ObjectTypeSolidOneSided, false, false, false, none, none, false⟩, false, false, ⟨3, 0⟩⟩

/-- A player fixture with the flag `head`, its body moving down (`vy = 1`). -/
def fallingHeadFixture : Fixture :=
  ⟨some ⟨ObjectTypePlayer, true, false, true, none, none, false⟩, false, false, ⟨1, 1⟩⟩

/-- A player fixture without the flag `head`, its body moving with vertical velocity `vy`. -/
def playerFixtureMoving (vy : Rat) : Fixture :=
  ⟨some ⟨ObjectTypePlayer, true, false, false, none, none, false⟩, false, false, ⟨1, vy⟩⟩

/-- The fixture is a player fixture: it carries a node with one of the player classifications. -/
def Fixture.isPlayerFixture (f : Fixture) : Prop :=
  ∃ node, f.userData = some node ∧ isPlayerType node.type = true

/-! ## The solver callbacks -/

/-- The function `GameContactListener::processImpulse` (lines 716-725): an impulse below the
threshold `0.03f`, the `float` nearest to 0.03, is ordinary ground contact, any other is handed
to `Player::impulse`. -/
def processImpulse (impulse : Rat) (w : World) : World :=
  if impulse < f32 (3 / 100) then w
  else ⟨w.listener, w.player, w.log ++ [Effect.playerImpulse impulse]⟩

/-- One of the two blocks of `PostSolve` (lines 628-663 with `side = A`; lines 665-700, the same
code with A and B exchanged, with `side = B`). The flag of the result tells whether the block left
the callback with `return` (a sticky projectile that has already hit something). The threshold of
lines 656 and 693 is `0.0003f`, the `float` nearest to 0.0003. -/
def postSolveSide (side : Side) (impulse : Rat) (w : World) (contact : Contact) :
    Except Fault (Bool × World × Contact) :=
  match (contact.fixture side).userData with
  | none => .ok (false, w, contact)
  | some node =>
    if node.type = ObjectTypePlayer then .ok (false, processImpulse impulse w, contact)
    else if node.type = ObjectTypeProjectile then
      match node.projectile with
      | none => .error .nullDereference
      | some projectile =>
        if projectile.sticky then
          if projectile.hitSomething then .ok (true, w, contact)
          else
            let inactive :=
              if impulse > f32 (3 / 10000) then true else projectile.scheduledForInactivity
            .ok (false, ⟨w.listener, w.player, w.log ++ [Effect.timerAdded 1000]⟩,
              contact.setNode side
                ⟨node.type, node.parentIsPlayer, node.parentIsLuaNode, node.headFlag,
                  node.damage, some ⟨projectile.sticky, projectile.scheduledForRemoval, true,
                    inactive⟩, node.bouncer⟩)
        else .ok (false, w, contact)
    else .ok (false, w, contact)

/-- The callback `GameContactListener::PostSolve` (lines 591-701) with the first normal impulse
of the contact: the block of side A, then, unless that block returned, the block of side B. -/
def PostSolve (w : World) (contact : Contact) (impulse : Rat) : Except Fault (World × Contact) :=
  match postSolveSide .A impulse w contact with
  | .error e => .error e
  | .ok (true, w1, contact1) => .ok (w1, contact1)
  | .ok (false, w1, contact1) =>
    match postSolveSide .B impulse w1 contact1 with
    | .error e => .error e
    | .ok (_, w2, contact2) => .ok (w2, contact2)

/-- The callback `GameContactListener::PreSolve` (lines 585-588): the contact is handed to
`ConveyorBelt::processContact`. That function is not part of the sources at hand and is a
parameter: it acts on the player and on the contact, the listener is out of its reach. -/
def PreSolve (processContact : Player → Contact → Player × Contact) (w : World)
    (contact : Contact) : World × Contact :=
  (⟨w.listener, (processContact w.player contact).1, w.log⟩, (processContact w.player contact).2)

/-- A callback of the listener as the physics engine invokes it. -/
inductive Callback where
  | beginContact (contact : Contact)
  | endContact (contact : Contact)
  | preSolve (contact : Contact)
  | postSolve (contact : Contact) (impulse : Rat)
deriving Repr, DecidableEq

/-- The world after a callback. -/
def dispatch (processContact : Player → Contact → Player × Contact) (w : World) :
    Callback → Except Fault World
  | .beginContact contact =>
    match BeginContact w contact with
    | .error e => .error e
    | .ok r => .ok r.1
  | .endContact contact => .ok (EndContact w contact).1
  | .preSolve contact => .ok (PreSolve processContact w contact).1
  | .postSolve contact impulse =>
    match PostSolve w contact impulse with
    | .error e => .error e
    | .ok r => .ok r.1

/-! ## More vocabulary of the specification -/

/-- The contact pairs a moving platform fixture with a player head sensor fixture. -/
def smashPair (c : Contact) : Prop :=
  (c.fixtureA.hasType ObjectTypeMovingPlatform ∧ c.fixtureB.hasType ObjectTypePlayerHeadSensor) ∨
  (c.fixtureB.hasType ObjectTypeMovingPlatform ∧ c.fixtureA.hasType ObjectTypePlayerHeadSensor)

/-- The contact with its two fixtures exchanged. -/
def Contact.swap (c : Contact) : Contact :=
  ⟨c.fixtureB, c.fixtureA, c.enabled⟩

/-- What the callbacks read of a fixture node and never write. -/
structure NodeView where
  type : ObjectType
  parentIsPlayer : Bool
  parentIsLuaNode : Bool
  headFlag : Bool
  hasDamage : Bool
  isProjectile : Bool
  bouncer : Bool
deriving Repr, DecidableEq

/-- The view of a node. -/
def FixtureNode.view (n : FixtureNode) : NodeView :=
  ⟨n.type, n.parentIsPlayer, n.parentIsLuaNode, n.headFlag, n.damage.isSome,
    n.projectile.isSome, n.bouncer⟩

/-- What `BeginContact` reads of a contact: the views of the two nodes, the sensor flags, the
vertical velocities of the bodies and the enabled flag. -/
structure ContactView where
  nodeA : Option NodeView
  nodeB : Option NodeView
  sensorA : Bool
  sensorB : Bool
  velocityA : Rat
  velocityB : Rat
  enabled : Bool
deriving Repr, DecidableEq

/-- The view of a contact. -/
def Contact.view (c : Contact) : ContactView :=
  ⟨c.fixtureA.userData.map FixtureNode.view, c.fixtureB.userData.map FixtureNode.view,
    c.fixtureA.sensor, c.fixtureB.sensor, c.fixtureA.body.linearVelocityY,
    c.fixtureB.body.linearVelocityY, c.enabled⟩

/-- The node view of a side. -/
def ContactView.node (v : ContactView) : Side → Option NodeView
  | .A => v.nodeA
  | .B => v.nodeB

/-- The vertical velocity of the body of a side. -/
def ContactView.velocity (v : ContactView) : Side → Rat
  | .A => v.velocityA
  | .B => v.velocityB

/-- The fixture of the side is owned by the player (`isPlayer` of its node). -/
def ContactView.ownedByPlayer (v : ContactView) (side : Side) : Bool :=
  match v.node side with
  | none => false
  | some n => n.parentIsPlayer

/-- The node of the side has the given classification. -/
def ContactView.isType (v : ContactView) (side : Side) (t : ObjectType) : Bool :=
  match v.node side with
  | none => false
  | some n => decide (n.type = t)

/-- The switch of a side runs to its end: a projectile node is a `Projectile` with a damage, a
bouncer node is a `Bouncer`, an enemy node touching a player owned fixture has a damage. -/
def ContactView.sideOk (v : ContactView) (side : Side) : Bool :=
  match v.node side with
  | none => true
  | some n =>
    (!decide (n.type = ObjectTypeProjectile) || (n.hasDamage && n.isProjectile)) &&
    (!decide (n.type = ObjectTypeBouncer) || n.bouncer) &&
    (!(decide (n.type = ObjectTypeEnemy) && v.ownedByPlayer side.other) || n.hasDamage)

/-- The side `playerFixture` points to after both switches: the one facing a one sided fixture,
side B being switched on last. -/
def ContactView.playerSide (v : ContactView) : Option Side :=
  if v.isType .B ObjectTypeSolidOneSided then some .A
  else if v.isType .A ObjectTypeSolidOneSided then some .B
  else none

/-- The one sided wall resolution runs to its end: the fixture `playerFixture` points to carries
a node. -/
def ContactView.wallsOk (v : ContactView) : Bool :=
  match v.playerSide with
  | none => true
  | some side => (v.node side).isSome

/-- The enabled flag the one sided wall resolution leaves. -/
def ContactView.enabledAfter (v : ContactView) : Bool :=
  match v.playerSide with
  | none => v.enabled
  | some side =>
    match v.node side with
    | none => v.enabled
    | some n => if n.headFlag || !decide (v.velocity side > 0) then false else v.enabled

/-- The switch of the side latches the smashed flag: a moving platform facing a head sensor
while the player is on the ground. -/
def ContactView.sideSmash (v : ContactView) (side : Side) (onGround : Bool) : Bool :=
  v.isType side ObjectTypeMovingPlatform && v.isType side.other ObjectTypePlayerHeadSensor
    && onGround

/-- A fixture without user data. -/
def untaggedFixture : Fixture :=
  ⟨none, false, false, ⟨4, 0⟩⟩

/-- A sticky projectile (an arrow) that has already hit something. -/
def stuckArrowFixture : Fixture :=
  ⟨some ⟨ObjectTypeProjectile, false, false, false, some 20, some ⟨true, false, true, true⟩,
    false⟩, false, false, ⟨5, 0⟩⟩

/-- A one sided platform fixture whose body moves with vertical velocity `vy`. -/
def oneSidedFixtureMoving (vy : Rat) : Fixture :=
  ⟨some ⟨ObjectTypeSolidOneSided, false, false, false, none, none, false⟩, false, false, ⟨3, vy⟩⟩

/-- A moving platform fixture. -/
def movingPlatformFixture : Fixture :=
  ⟨some ⟨ObjectTypeMovingPlatform, false, false, false, none, none, false⟩, false, false, ⟨6, 0⟩⟩

/-- The head sensor of the player. -/
def headSensorFixture : Fixture :=
  ⟨some ⟨ObjectTypePlayerHeadSensor, true, false, false, none, none, false⟩, true, false, ⟨1, 0⟩⟩

/-- A world whose listener has just been reset and whose player stands on the ground. -/
def groundedWorld : World :=
  ⟨reset ⟨0, 0, 0, 0, 0, 0, 0, true⟩, ⟨some 2, none, true⟩, []⟩

/-- A sticky projectile (an arrow) that has not hit anything yet. -/
def freshArrowFixture : Fixture :=
  ⟨some ⟨ObjectTypeProjectile, false, false, false, some 20, some ⟨true, false, false, false⟩,
    false⟩, false, false, ⟨8, 0⟩⟩

/-- A fixture of the contact is classified as conveyor belt. -/
def Contact.onConveyorBelt (c : Contact) : Bool :=
  c.view.isType .A ObjectTypeConveyorBelt || c.view.isType .B ObjectTypeConveyorBelt

/-- Modelled from the spec: `ConveyorBelt::processContact` (conveyorbelt.cpp is not part of the
sources at hand). The spec has pre-solve "used for one-sided-wall and conveyor-belt contact
enable/disable" and gives conveyor belts "no classifier-level action (handled elsewhere)": the
function decides on the contacts of a conveyor belt, where it does what `belt` does, and leaves
every other contact and the player alone. -/
def ConveyorBelt.processContact (belt : Player → Contact → Player × Contact) (player : Player)
    (contact : Contact) : Player × Contact :=
  if contact.onConveyorBelt then belt player contact else (player, contact)

/-- The number of sides of the contact whose fixture is classified as moving platform. -/
def Contact.movingPlatformSides (c : Contact) : Nat :=
  (if c.view.isType .A ObjectTypeMovingPlatform then 1 else 0)
    + (if c.view.isType .B ObjectTypeMovingPlatform then 1 else 0)

end Game

/-! # The script bridge (luanode.cpp)

The native operations a script of a `LuaNode` can call. A call sees the Lua stack of its frame
(the arguments at the indices `1 .. lua_gettop`), the node bound to the script (`OBJINSTANCE`),
the player, the physics world and the other subsystems, whose calls are kept in a log.

A `float`, a `double` and a Lua number are rationals, a Lua integer is an integer. The casts of
`setZ` (to `int32_t`), of `setGravityScale` and of `damageRadius` (to `float`) and the `float`
subtraction of `LuaNode::damageRadius` are modelled; the other operations hand the numbers of the
script on as they are. The Lua library, the constants and the vector functions of the framework
are not part of the sources at hand and are collected in the structure `Env`. -/

namespace Script

/-- A vector of two floats (`b2Vec2`, `sf::Vector2f`). -/
structure Vec2 where
  x : Rat
  y : Rat
deriving Repr, DecidableEq

/-- The opposite vector. -/
def Vec2.neg (a : Vec2) : Vec2 :=
  ⟨-a.x, -a.y⟩

/-- The difference of two `sf::Vector2f`: each component is a subtraction of two `float`s, the
result is rounded to a `float`. -/
def Vec2.fsub (a b : Vec2) : Vec2 :=
  ⟨f32 (a.x - b.x), f32 (a.y - b.y)⟩

/-- A Lua value as the C API tells them apart. The constructor `other` stands for the values the
bridge can only skip: a function, a userdata, a thread, a table inside a table. -/
inductive LuaValue where
  | nil
  | boolean (b : Bool)
  | integer (i : Int)
  | number (x : Rat)
  | string (s : String)
  | other
deriving Repr, DecidableEq

/-- A slot of the Lua stack: a value, a table with string keys (the tables scripts hand to
`updateProperties`), or a sequence (a table with the keys `1 .. n`, as `lua_rawseti` fills it). -/
inductive Slot where
  | value (v : LuaValue)
  | table (entries : List (String × LuaValue))
  | sequence (items : List LuaValue)
deriving Repr, DecidableEq

/-- The value of a slot as the conversion functions see it. -/
def Slot.scalar : Slot → LuaValue
  | .value v => v
  | .table _ => .other
  | .sequence _ => .other

/-- A value of the property bag: `std::variant` over `bool`, `int64_t`, `double` and
`std::string` (the accessors `getPropertyBool`, `getPropertyInt64`, `getPropertyDouble` and
`setupTexture` name the four alternatives). -/
inductive Property where
  | bool (b : Bool)
  | int64 (i : Int)
  | double (x : Rat)
  | string (s : String)
deriving Repr, DecidableEq

/-- A collision shape as the bridge builds it. For a polygon the list holds the points handed to
`b2PolygonShape::Set`. -/
inductive Shape where
  | circle (radius : Rat) (center : Vec2)
  | box (width height : Rat) (center : Vec2)
  | polygon (points : List Vec2)
deriving Repr, DecidableEq

/-- The frame data `updateProjectileAnimation` builds. -/
structure AnimationFrameData where
  texture : String
  origin : Vec2
  frameWidth : Int
  frameHeight : Int
  frameCount : Int
  framesPerRow : Int
  frameTimes : List Rat
  startFrame : Int
deriving Repr, DecidableEq

/-- A call the bridge makes on a weapon (the class `Weapon` is not part of the sources at
hand). The constructor `initialised` is the call of `Weapon::initialize`. -/
inductive WeaponCall where
  | initialised
  | fireInIntervals (origin target : Vec2)
  | setProjectileTexture (texture : String) (left top width height : Int)
  | setProjectileAnimation (frames : AnimationFrameData)
  | setProjectileIdentifier (identifier : String)
deriving Repr, DecidableEq

/-- A weapon: what `WeaponFactory::create` was given, and the calls made on it since. -/
structure Weapon where
  body : Option Nat
  type : Int
  shape : Option Shape
  fireInterval : Int
  damage : Int
  calls : List WeaponCall
deriving Repr, DecidableEq

/-- The user data of a fixture of the body of a node: none, or a `FixtureNode` with its property
`damage` if it has one. -/
inductive FixtureTag where
  | untagged
  | tagged (damage : Option Int)
deriving Repr, DecidableEq

/-- The members of a `b2Body` the bridge reads and writes. -/
structure Body where
  id : Nat
  gravityScale : Rat
  active : Bool
  dynamic : Bool
  linearVelocity : Vec2
  position : Vec2
  angle : Rat
  fixtures : List FixtureTag
deriving Repr, DecidableEq

/-- A sprite of a node: its texture (by name), origin and texture rectangle. -/
structure Sprite where
  texture : Option String
  origin : Vec2
  rect : Option (Int × Int × Int × Int)
deriving Repr, DecidableEq

/-- The members of a `LuaNode` the bridge reads and writes (luanode.h is not part of the sources
at hand; the members are those luanode.cpp uses). The map `mProperties` is a list of pairs read
with `getProperty`. -/
structure LuaNode where
  mBody : Option Body
  mProperties : List (String × Property)
  mZ : Int
  mShapes : List Shape
  mWeapons : List Weapon
  mSprites : List Sprite
  mSpriteOffsets : List Vec2
  mTexture : Option String
deriving Repr, DecidableEq

/-- An axis aligned box (`b2AABB`). -/
structure AABB where
  lowerBound : Vec2
  upperBound : Vec2
deriving Repr, DecidableEq

/-- A fixture of the physics world: its body and the box around it. -/
structure WorldFixture where
  body : Nat
  box : AABB
deriving Repr, DecidableEq

/-- A call into a subsystem outside the node: `Audio`, standard output, the player, the level,
`AnimationPlayer`, `Timer`, `ProjectileHitAnimation`, `LuaInterface`, `TexturePool`, the physics
world. -/
inductive Effect where
  | addSample (sample : String)
  | playSample (sample : String) (volume : Rat)
  | puts (message : String)
  | coutDamage (damage : Int) (dx dy : Rat)
  | playerDamage (damage : Int) (force : Vec2)
  | boom (x y intensity : Rat)
  | detonation (x y : Rat)
  | timerAdd (delay timerId : Int)
  | addReferenceAnimation (path : String) (frameWidth frameHeight : Int) (timePerFrame : Rat)
      (frameCount framesPerRow startFrame : Int)
  | updateKeysPressed (keys : Int)
  | textureGet (path : String)
  | destroyBody (id : Nat)
deriving Repr, DecidableEq

/-- What a native operation can reach: the stack of its call frame (`stack`, bottom first), the
slot just above the top of the stack (`beyond`, which the index 0 reads), the node bound to the
script (`node`: `OBJINSTANCE`, `none` is the null pointer), the position of the player, the
fixtures of the physics world, and the calls made into the other subsystems so far. -/
structure State where
  stack : List Slot
  beyond : LuaValue
  node : Option LuaNode
  playerPosition : Vec2
  world : List WorldFixture
  log : List Effect
deriving Repr, DecidableEq

/-- What the sources at hand do not hold: the coercions of the Lua library between strings and
numbers (`str2number` gives the number a string converts to, if any), the constants of
constants.h, the vector functions of `SfmlMath`, the value-initialised property `operator[]`
inserts, the collision test of the level and the ray cast of the physics world. -/
structure Env where
  str2number : String → Option Rat
  formatInteger : Int → String
  formatNumber : Rat → String
  MPP : Rat
  PPM : Rat
  PIXELS_PER_PHYSICS_TILE : Rat
  length : Vec2 → Rat
  normalize : Vec2 → Vec2
  defaultProperty : Property
  isPhysicsPathClear : Int × Int → Int × Int → Bool
  rayCast : List WorldFixture → Vec2 → Vec2 → List WorldFixture

/-- A fault of the C++ code: a null pointer is dereferenced, `std::get` is called on a variant
holding another alternative, a vector is indexed out of its range, `lua_next` is given something
that is not a table, `lua_tostring` is applied to a key that is not a string during a
traversal. -/
inductive Fault where
  | nullDereference
  | badVariantAccess
  | indexOutOfRange
  | invalidTable
  | invalidKey
deriving Repr, DecidableEq

/-- How a call of a native operation ends: it returns to the script with the number of results
it declares and the state it leaves, or it ends the process with `exit`, or it faults. -/
inductive Outcome where
  | returned (results : Nat) (st : State)
  | exited (code : Int)
  | fault (f : Fault)
deriving Repr, DecidableEq

/-! ## The Lua C API -/

/-- The number of arguments of the call (`lua_gettop` at the entry of the function). -/
def lua_gettop (st : State) : Nat :=
  st.stack.length

/-- The value at a stack index: the arguments are at `1 .. lua_gettop`, an index above the top
holds no value, the index 0 is not a valid index and reads the slot above the top. -/
def valueAt (st : State) (index : Nat) : LuaValue :=
  if index = 0 then st.beyond
  else
    match st.stack[index - 1]? with
    | some slot => slot.scalar
    | none => .nil

/-- The integer a float stands for, if it has no fractional part. -/
def integral (x : Rat) : Option Int :=
  if x.den = 1 then some x.num else none

/-- The conversion `lua_isnumber` on a value: a number, or a string convertible to a number. -/
def isnumber (env : Env) : LuaValue → Bool
  | .integer _ => true
  | .number _ => true
  | .string s => (env.str2number s).isSome
  | _ => false

/-- The conversion `lua_isinteger` on a value: a number represented as an integer. -/
def isinteger : LuaValue → Bool
  | .integer _ => true
  | _ => false

/-- The conversion `lua_isstring` on a value: a string or a number. -/
def isstring : LuaValue → Bool
  | .string _ => true
  | .integer _ => true
  | .number _ => true
  | _ => false

/-- The conversion `lua_isboolean` on a value. -/
def isboolean : LuaValue → Bool
  | .boolean _ => true
  | _ => false

/-- The conversion `lua_toboolean` on a value: false for `false`, `nil` and no value. -/
def toboolean : LuaValue → Bool
  | .nil => false
  | .boolean b => b
  | _ => true

/-- The conversion `lua_tonumber` on a value: the number, the number a string converts to, and 0
for every other value. -/
def tonumber (env : Env) : LuaValue → Rat
  | .integer i => i
  | .number x => x
  | .string s => (env.str2number s).getD 0
  | _ => 0

/-- The conversion `lua_tointeger` on a value: the integer, the integer a float or a convertible
string stands for, and 0 for every other value. -/
def tointeger (env : Env) : LuaValue → Int
  | .integer i => i
  | .number x => (integral x).getD 0
  | .string s => ((env.str2number s).bind integral).getD 0
  | _ => 0

/-- The conversion `lua_tostring` on a value: the string, the text of a number, and `NULL`
(`none`) for every other value. -/
def tostring (env : Env) : LuaValue → Option String
  | .string s => some s
  | .integer i => some (env.formatInteger i)
  | .number x => some (env.formatNumber x)
  | _ => none

/-- The call `lua_tonumber(state, index)`. -/
def lua_tonumber (env : Env) (st : State) (index : Nat) : Rat :=
  tonumber env (valueAt st index)

/-- The call `lua_tointeger(state, index)`. -/
def lua_tointeger (env : Env) (st : State) (index : Nat) : Int :=
  tointeger env (valueAt st index)

/-- The call `lua_toboolean(state, index)`. -/
def lua_toboolean (st : State) (index : Nat) : Bool :=
  toboolean (valueAt st index)

/-- The call `lua_tostring(state, index)`. -/
def lua_tostring (env : Env) (st : State) (index : Nat) : Option String :=
  tostring env (valueAt st index)

/-- A push (`lua_pushinteger`, `lua_pushboolean`, a finished table). -/
def State.push (st : State) (slot : Slot) : State :=
  ⟨st.stack ++ [slot], st.beyond, st.node, st.playerPosition, st.world, st.log⟩

/-- The state with the node replaced. -/
def State.setNode (st : State) (node : LuaNode) : State :=
  ⟨st.stack, st.beyond, some node, st.playerPosition, st.world, st.log⟩

/-- The state with calls added to the log. -/
def State.addLog (st : State) (effects : List Effect) : State :=
  ⟨st.stack, st.beyond, st.node, st.playerPosition, st.world, st.log ++ effects⟩

/-- The cast `static_cast<int32_t>` of a floating point number: the fraction is cut off. -/
def truncate (x : Rat) : Int :=
  Int.tdiv x.num x.den

/-- The indices a loop `for (i = start; i < stop; i += 2)` runs through. -/
def steps (start stop : Nat) : List Nat :=
  (List.range stop).filter (fun i => decide (start ≤ i) && decide ((i - start) % 2 = 0))

/-! ## The methods of `LuaNode` -/

/-- The node with the body replaced. -/
def LuaNode.setBody (node : LuaNode) (body : Option Body) : LuaNode :=
  ⟨body, node.mProperties, node.mZ, node.mShapes, node.mWeapons, node.mSprites,
    node.mSpriteOffsets, node.mTexture⟩

/-- The value of a property, if the key is in the map (`mProperties.find`). -/
def getProperty (key : String) (bag : List (String × Property)) : Option Property :=
  (bag.find? (fun entry => decide (entry.1 = key))).map Prod.snd

/-- The assignment `mProperties[key] = value`. -/
def setProperty (key : String) (value : Property) (bag : List (String × Property)) :
    List (String × Property) :=
  (key, value) :: bag.filter (fun entry => !decide (entry.1 = key))

/-- The node with the property map replaced. -/
def LuaNode.setProperties (node : LuaNode) (bag : List (String × Property)) : LuaNode :=
  ⟨node.mBody, bag, node.mZ, node.mShapes, node.mWeapons, node.mSprites, node.mSpriteOffsets,
    node.mTexture⟩

/-- The method `LuaNode::setupTexture` (lines 1296-1306): `mProperties["sprite"]` inserts a
value-initialised property when the key is missing, `std::get<std::string>` throws unless the
property holds a string; the texture of that name is fetched from the pool and set on every
sprite. -/
def LuaNode.setupTexture (env : Env) (node : LuaNode) : Except Fault (LuaNode × List Effect) :=
  let bag :=
    match getProperty "sprite" node.mProperties with
    | some _ => node.mProperties
    | none => node.mProperties ++ [("sprite", env.defaultProperty)]
  match getProperty "sprite" bag with
  | some (.string spriteName) =>
    .ok (⟨node.mBody, bag, node.mZ, node.mShapes, node.mWeapons,
        node.mSprites.map (fun sprite => ⟨some spriteName, sprite.origin, sprite.rect⟩),
        node.mSpriteOffsets, some spriteName⟩, [Effect.textureGet spriteName])
  | _ => .error .badVariantAccess

/-- The method `LuaNode::synchronizeProperties` (lines 1462-1472). -/
def LuaNode.synchronizeProperties (env : Env) (node : LuaNode) :
    Except Fault (LuaNode × List Effect) :=
  node.setupTexture env

/-- The method `LuaNode::setGravityScale` (lines 1815-1818): `mBody` is dereferenced without a
check. -/
def LuaNode.setGravityScale (node : LuaNode) (scale : Rat) : Except Fault LuaNode :=
  match node.mBody with
  | none => .error .nullDereference
  | some body =>
    .ok (node.setBody (some ⟨body.id, scale, body.active, body.dynamic, body.linearVelocity,
      body.position, body.angle, body.fixtures⟩))

/-- The method `LuaNode::setTransform` (lines 1821-1824). -/
def LuaNode.setTransform (node : LuaNode) (position : Vec2) (angle : Rat) :
    Except Fault LuaNode :=
  match node.mBody with
  | none => .error .nullDereference
  | some body =>
    .ok (node.setBody (some ⟨body.id, body.gravityScale, body.active, body.dynamic,
      body.linearVelocity, position, angle, body.fixtures⟩))

/-- The method `LuaNode::setActive` (lines 1847-1850). -/
def LuaNode.setActive (node : LuaNode) (active : Bool) : Except Fault LuaNode :=
  match node.mBody with
  | none => .error .nullDereference
  | some body =>
    .ok (node.setBody (some ⟨body.id, body.gravityScale, active, body.dynamic,
      body.linearVelocity, body.position, body.angle, body.fixtures⟩))

/-- The methods `LuaNode::makeDynamic` and `LuaNode::makeStatic` (lines 1870-1879). -/
def LuaNode.setType (node : LuaNode) (dynamic : Bool) : Except Fault LuaNode :=
  match node.mBody with
  | none => .error .nullDereference
  | some body =>
    .ok (node.setBody (some ⟨body.id, body.gravityScale, body.active, dynamic,
      body.linearVelocity, body.position, body.angle, body.fixtures⟩))

/-- The method `LuaNode::setDamage` (lines 1853-1867): every fixture of the body that has user
data gets the property `damage`. -/
def LuaNode.setDamage (node : LuaNode) (damage : Int) : Except Fault LuaNode :=
  match node.mBody with
  | none => .error .nullDereference
  | some body =>
    .ok (node.setBody (some ⟨body.id, body.gravityScale, body.active, body.dynamic,
      body.linearVelocity, body.position, body.angle,
      body.fixtures.map (fun tag =>
        match tag with
        | .untagged => .untagged
        | .tagged _ => .tagged (some damage))⟩))

/-- The method `LuaNode::getLinearVelocity` (lines 1779-1790). -/
def LuaNode.getLinearVelocity (node : LuaNode) : Vec2 :=
  match node.mBody with
  | none => ⟨0, 0⟩
  | some body => body.linearVelocity

/-- The method `LuaNode::setLinearVelocity` (lines 1793-1799). -/
def LuaNode.setLinearVelocity (node : LuaNode) (velocity : Vec2) : LuaNode :=
  match node.mBody with
  | none => node
  | some body =>
    node.setBody (some ⟨body.id, body.gravityScale, body.active, body.dynamic, velocity,
      body.position, body.angle, body.fixtures⟩)

/-- The method `LuaNode::addSprite` (lines 1827-1831). -/
def LuaNode.addSprite (node : LuaNode) : LuaNode :=
  ⟨node.mBody, node.mProperties, node.mZ, node.mShapes, node.mWeapons,
    node.mSprites ++ [⟨none, ⟨0, 0⟩, none⟩], node.mSpriteOffsets ++ [⟨0, 0⟩], node.mTexture⟩

/-- The node with the sprites replaced. -/
def LuaNode.setSprites (node : LuaNode) (sprites : List Sprite) : LuaNode :=
  ⟨node.mBody, node.mProperties, node.mZ, node.mShapes, node.mWeapons, sprites,
    node.mSpriteOffsets, node.mTexture⟩

/-- The element of a vector at an `int32_t` or `size_t` index, `none` out of its range. -/
def at? {α : Type} (xs : List α) (index : Int) : Option α :=
  if 0 ≤ index then xs[index.toNat]? else none

/-- The method `LuaNode::setSpriteOrigin` (lines 1834-1837). -/
def LuaNode.setSpriteOrigin (node : LuaNode) (id : Int) (x y : Rat) : Except Fault LuaNode :=
  match at? node.mSprites id with
  | none => .error .indexOutOfRange
  | some sprite =>
    .ok (node.setSprites (node.mSprites.set id.toNat ⟨sprite.texture, ⟨x, y⟩, sprite.rect⟩))

/-- The method `LuaNode::setSpriteOffset` (lines 1840-1844). -/
def LuaNode.setSpriteOffset (node : LuaNode) (id : Int) (x y : Rat) : Except Fault LuaNode :=
  match at? node.mSpriteOffsets id with
  | none => .error .indexOutOfRange
  | some _ =>
    .ok ⟨node.mBody, node.mProperties, node.mZ, node.mShapes, node.mWeapons, node.mSprites,
      node.mSpriteOffsets.set id.toNat ⟨x, y⟩, node.mTexture⟩

/-- The method `LuaNode::updateSpriteRect` (lines 2127-2135): a sprite without texture gets the
texture of the node, if there is one, and the rectangle is set. -/
def LuaNode.updateSpriteRect (node : LuaNode) (id x y w h : Int) : Except Fault LuaNode :=
  match at? node.mSprites id with
  | none => .error .indexOutOfRange
  | some sprite =>
    let texture :=
      match sprite.texture with
      | none => node.mTexture
      | some name => some name
    .ok (node.setSprites (node.mSprites.set id.toNat ⟨texture, sprite.origin, some (x, y, w, h)⟩))

/-- The node with a shape added to `mShapes`. -/
def LuaNode.pushShape (node : LuaNode) (shape : Shape) : LuaNode :=
  ⟨node.mBody, node.mProperties, node.mZ, node.mShapes ++ [shape], node.mWeapons, node.mSprites,
    node.mSpriteOffsets, node.mTexture⟩

/-- The method `LuaNode::addShapeCircle` (lines 2008-2014). -/
def LuaNode.addShapeCircle (node : LuaNode) (radius x y : Rat) : LuaNode :=
  node.pushShape (.circle radius ⟨x, y⟩)

/-- The method `LuaNode::addShapeRect` (lines 2017-2022). -/
def LuaNode.addShapeRect (node : LuaNode) (width height x y : Rat) : LuaNode :=
  node.pushShape (.box width height ⟨x, y⟩)

/-- Modelled from the spec: `WeaponFactory::create` "constructs a weapon bound to the entity's
body from a type enum, fire interval, damage amount, and either a circular or polygonal
projectile shape". -/
def WeaponFactory.create (body : Option Body) (type : Int) (shape : Option Shape)
    (fireInterval damage : Int) : Weapon :=
  ⟨body.map (fun b => b.id), type, shape, fireInterval, damage, []⟩

/-- The weapon after a call on it. -/
def Weapon.called (weapon : Weapon) (call : WeaponCall) : Weapon :=
  ⟨weapon.body, weapon.type, weapon.shape, weapon.fireInterval, weapon.damage,
    weapon.calls ++ [call]⟩

/-- The node with the weapons replaced. -/
def LuaNode.setWeapons (node : LuaNode) (weapons : List Weapon) : LuaNode :=
  ⟨node.mBody, node.mProperties, node.mZ, node.mShapes, weapons, node.mSprites,
    node.mSpriteOffsets, node.mTexture⟩

/-- The method `LuaNode::addWeapon` (lines 2033-2037). -/
def LuaNode.addWeapon (node : LuaNode) (weapon : Weapon) : LuaNode :=
  node.setWeapons (node.mWeapons ++ [weapon.called .initialised])

/-- A call through `mWeapons[index]->`. -/
def LuaNode.callWeapon (node : LuaNode) (index : Int) (call : WeaponCall) :
    Except Fault LuaNode :=
  match at? node.mWeapons index with
  | none => .error .indexOutOfRange
  | some weapon => .ok (node.setWeapons (node.mWeapons.set index.toNat (weapon.called call)))

/-- The method `LuaNode::fireWeapon` (lines 2040-2043). -/
def LuaNode.fireWeapon (node : LuaNode) (index : Int) (origin target : Vec2) :
    Except Fault LuaNode :=
  node.callWeapon index (.fireInIntervals origin target)

/-- The method `LuaNode::damage` (lines 1773-1776). -/
def LuaNode.damage (st : State) (damage : Int) (forceX forceY : Rat) : State :=
  st.addLog [Effect.playerDamage damage ⟨forceX, forceY⟩]

/-- The method `LuaNode::damageRadius` (lines 1757-1770): the player is damaged when the length
of the vector from the given point to the player is at most the radius; the force handed over is
`SfmlMath::normalize(-dist)`. The vector `dist` is the difference of two `sf::Vector2f`, computed
in `float`; its length, a `float` as well, is what `SfmlMath::length` returns for it. -/
def LuaNode.damageRadius (env : Env) (st : State) (damage : Int) (x y radius : Rat) : State :=
  let nodePosition : Vec2 := ⟨x, y⟩
  let dist := st.playerPosition.fsub nodePosition
  let len := env.length dist
  if len ≤ radius then st.addLog [Effect.playerDamage damage (env.normalize dist.neg)]
  else st

/-- The method `LuaNode::boom` (lines 1802-1805). -/
def LuaNode.boom (st : State) (x y intensity : Rat) : State :=
  st.addLog [Effect.boom x y intensity]

/-- The method `LuaNode::playDetonationAnimation` (lines 1808-1812). -/
def LuaNode.playDetonationAnimation (st : State) (x y : Rat) : State :=
  st.addLog [Effect.detonation x y]

/-- The method `LuaNode::luaDie` (lines 1607-1613): the body is destroyed, with its fixtures, and
the pointer to it is cleared. -/
def LuaNode.luaDie (st : State) (node : LuaNode) : Except Fault State :=
  match node.mBody with
  | none => .error .nullDereference
  | some body =>
    .ok ⟨st.stack, st.beyond, some (node.setBody none), st.playerPosition,
      st.world.filter (fun fixture => !decide (fixture.body = body.id)),
      st.log ++ [Effect.destroyBody body.id]⟩

/-- The test of two boxes for overlap (`b2TestOverlap`). -/
def testOverlap (a b : AABB) : Bool :=
  !(decide (b.lowerBound.x - a.upperBound.x > 0) || decide (b.lowerBound.y - a.upperBound.y > 0)
    || decide (a.lowerBound.x - b.upperBound.x > 0)
    || decide (a.lowerBound.y - b.upperBound.y > 0))

/-- The fixtures `b2World::QueryAABB` reports: those whose box overlaps the query box. -/
def QueryAABB (world : List WorldFixture) (aabb : AABB) : List WorldFixture :=
  world.filter (fun fixture => testOverlap fixture.box aabb)

/-- The engine reports fixtures to a callback one by one for as long as the callback asks it to
go on. The callback gets the bodies collected so far and the fixture, and gives the new
collection and whether to go on. -/
def reportAll (report : List Nat → WorldFixture → List Nat × Bool) :
    List Nat → List WorldFixture → List Nat
  | mBodies, [] => mBodies
  | mBodies, fixture :: rest =>
    if (report mBodies fixture).2 then reportAll report (report mBodies fixture).1 rest
    else (report mBodies fixture).1

/-- The callback `LuaQueryCallback::ReportFixture` (lines 1888-1894): the body of the fixture is
pushed to `mBodies`, the query goes on. -/
def LuaQueryCallback.ReportFixture (mBodies : List Nat) (fixture : WorldFixture) :
    List Nat × Bool :=
  (mBodies ++ [fixture.body], true)

/-- The method `LuaNode::queryAABB` (lines 1898-1905): the size of `mBodies` after the query. -/
def LuaNode.queryAABB (st : State) (aabb : AABB) : Int :=
  ((reportAll LuaQueryCallback.ReportFixture [] (QueryAABB st.world aabb)).length : Int)

/-- The callback `LuaRaycastCallback::ReportFixture` (lines 1914-1923): the body of the fixture
is pushed to `mBodies`, the value `0.0f` is returned. -/
def LuaRaycastCallback.ReportFixture (mBodies : List Nat) (fixture : WorldFixture) :
    List Nat × Rat :=
  (mBodies ++ [fixture.body], 0)

/-- The method `LuaNode::queryRaycast` (lines 1927-1934): the size of `mBodies` after the ray
cast; the engine ends a ray cast when the callback returns 0. -/
def LuaNode.queryRaycast (env : Env) (st : State) (point1 point2 : Vec2) : Int :=
  ((reportAll
    (fun mBodies fixture =>
      ((LuaRaycastCallback.ReportFixture mBodies fixture).1,
        !decide ((LuaRaycastCallback.ReportFixture mBodies fixture).2 = 0)))
    [] (env.rayCast st.world point1 point2)).length : Int)

/-! ## The native operations -/

/-- The end of an operation that called a method of the node. -/
def returnNode (st : State) (result : Except Fault LuaNode) : Outcome :=
  match result with
  | .error f => .fault f
  | .ok node => .returned 0 (st.setNode node)

/-- The body of the loop of `updateProperties` (lines 55-79) for one key and its value. -/
def updateProperty (env : Env) (key : String) (v : LuaValue) (node : LuaNode) :
    Except Fault LuaNode :=
  let node1 :=
    if isboolean v then node.setProperties (setProperty key (.bool (toboolean v)) node.mProperties)
    else node
  if isnumber env v then
    if isinteger v then
      .ok (node1.setProperties (setProperty key (.int64 (tointeger env v)) node1.mProperties))
    else
      .ok (node1.setProperties (setProperty key (.double (tonumber env v)) node1.mProperties))
  else if isstring v then
    match tostring env v with
    | none => .error .nullDereference
    | some s => .ok (node1.setProperties (setProperty key (.string s) node1.mProperties))
  else .ok node1

/-- The loop of `updateProperties` over the entries of the table, in the order `lua_next` gives
them. -/
def updateEntries (env : Env) : List (String × LuaValue) → LuaNode → Except Fault LuaNode
  | [], node => .ok node
  | entry :: rest, node =>
    match updateProperty env entry.1 entry.2 node with
    | .error f => .error f
    | .ok node1 => updateEntries env rest node1

/-- The operation `updateProperties` (lines 49-94). The table is the value on top of the stack.
The loop leaves the stack as it was. A sequence with items has keys that are numbers: there
`lua_tostring` rewrites the key in the stack and the traversal is lost. `OBJINSTANCE` is
dereferenced without a check, at the latest for `synchronizeProperties`. -/
def updateProperties (env : Env) (st : State) : Outcome :=
  let traverse (entries : List (String × LuaValue)) : Outcome :=
    match st.node with
    | none => .fault .nullDereference
    | some node =>
      match updateEntries env entries node with
      | .error f => .fault f
      | .ok node1 =>
        match node1.synchronizeProperties env with
        | .error f => .fault f
        | .ok r => .returned 0 ((st.setNode r.1).addLog r.2)
  match st.stack.getLast? with
  | some (.table entries) => traverse entries
  | some (.sequence []) => traverse []
  | some (.sequence (_ :: _)) => .fault .invalidKey
  | _ => .fault .invalidTable

/-- The operation `updateSpriteRect` (lines 107-131). -/
def updateSpriteRect (env : Env) (st : State) : Outcome :=
  if lua_gettop st = 5 then
    let id := lua_tointeger env st 1
    let x := lua_tointeger env st 2
    let y := lua_tointeger env st 3
    let w := lua_tointeger env st 4
    let h := lua_tointeger env st 5
    match st.node with
    | none => .returned 0 st
    | some node => returnNode st (node.updateSpriteRect id x y w h)
  else .returned 0 st

/-- The operation `queryAABB` (lines 144-182). -/
def queryAABB (env : Env) (st : State) : Outcome :=
  if lua_gettop st = 4 then
    let x1 := lua_tointeger env st 1 * env.MPP
    let y1 := lua_tointeger env st 2 * env.MPP
    let x2 := lua_tointeger env st 3 * env.MPP
    let y2 := lua_tointeger env st 4 * env.MPP
    let aabb : AABB := ⟨⟨x1, y1⟩, ⟨x2, y2⟩⟩
    match st.node with
    | none => .returned 0 st
    | some _ =>
      let hitCount := LuaNode.queryAABB st aabb
      .returned 1 (st.push (.value (.integer hitCount)))
  else .returned 0 st

/-- The operation `queryRayCast` (lines 195-226). -/
def queryRayCast (env : Env) (st : State) : Outcome :=
  if lua_gettop st = 4 then
    let x1 := lua_tointeger env st 1 * env.MPP
    let y1 := lua_tointeger env st 2 * env.MPP
    let x2 := lua_tointeger env st 3 * env.MPP
    let y2 := lua_tointeger env st 4 * env.MPP
    match st.node with
    | none => .returned 0 st
    | some _ =>
      let hitCount := LuaNode.queryRaycast env st ⟨x1, y1⟩ ⟨x2, y2⟩
      .returned 1 (st.push (.value (.integer hitCount)))
  else .returned 0 st

/-- The operation `setDamage` (lines 235-253). -/
def setDamage (env : Env) (st : State) : Outcome :=
  if lua_gettop st = 1 then
    let damage := lua_tointeger env st 1
    match st.node with
    | none => .returned 0 st
    | some node => returnNode st (node.setDamage damage)
  else .returned 0 st

/-- The operation `setZ` (lines 263-281): the Lua integer is cast to `int32_t`. -/
def setZ (env : Env) (st : State) : Outcome :=
  if lua_gettop st = 1 then
    let z := int32 (lua_tointeger env st 1)
    match st.node with
    | none => .returned 0 st
    | some node =>
      .returned 0 (st.setNode ⟨node.mBody, node.mProperties, z, node.mShapes, node.mWeapons,
        node.mSprites, node.mSpriteOffsets, node.mTexture⟩)
  else .returned 0 st

/-- The operation `makeDynamic` (lines 289-300). -/
def makeDynamic (st : State) : Outcome :=
  match st.node with
  | none => .returned 0 st
  | some node => returnNode st (node.setType true)

/-- The operation `makeStatic` (lines 308-319). -/
def makeStatic (st : State) : Outcome :=
  match st.node with
  | none => .returned 0 st
  | some node => returnNode st (node.setType false)

/-- The operation `setGravityScale` (lines 328-349): with one argument, whatever its type, the
result of `lua_tonumber`, cast to `float`, is handed to the node. -/
def setGravityScale (env : Env) (st : State) : Outcome :=
  if lua_gettop st = 1 then
    let scale := f32 (lua_tonumber env st 1)
    match st.node with
    | none => .returned 0 st
    | some node => returnNode st (node.setGravityScale scale)
  else .returned 0 st

/-- The operation `setActive` (lines 358-379). -/
def setActive (st : State) : Outcome :=
  if lua_gettop st = 1 then
    let active := lua_toboolean st 1
    match st.node with
    | none => .returned 0 st
    | some node => returnNode st (node.setActive active)
  else .returned 0 st

/-- The operation `isPhsyicsPathClear` (lines 392-414): with four arguments the answer of the
level is pushed, negated; the function declares one result whatever the number of arguments. -/
def isPhsyicsPathClear (env : Env) (st : State) : Outcome :=
  if lua_gettop st = 4 then
    let x0 := truncate (lua_tonumber env st 1 / env.PIXELS_PER_PHYSICS_TILE)
    let y0 := truncate (lua_tonumber env st 2 / env.PIXELS_PER_PHYSICS_TILE)
    let x1 := truncate (lua_tonumber env st 3 / env.PIXELS_PER_PHYSICS_TILE)
    let y1 := truncate (lua_tonumber env st 4 / env.PIXELS_PER_PHYSICS_TILE)
    let collides := env.isPhysicsPathClear (x0, y0) (x1, y1)
    .returned 1 (st.push (.value (.boolean !collides)))
  else .returned 1 st

/-- The operation `getLinearVelocity` (lines 425-441): `OBJINSTANCE` is dereferenced without a
check; a table with the two components is pushed. -/
def getLinearVelocity (st : State) : Outcome :=
  match st.node with
  | none => .fault .nullDereference
  | some node =>
    let velocity := node.getLinearVelocity
    .returned 1 (st.push (.sequence [.number velocity.x, .number velocity.y]))

/-- The operation `setLinearVelocity` (lines 451-472). -/
def setLinearVelocity (env : Env) (st : State) : Outcome :=
  if lua_gettop st = 2 then
    let vx := lua_tonumber env st 1
    let vy := lua_tonumber env st 2
    match st.node with
    | none => .returned 0 st
    | some node => .returned 0 (st.setNode (node.setLinearVelocity ⟨vx, vy⟩))
  else .returned 0 st

/-- The operation `damage` (lines 483-507): the arguments are printed before the node is
looked up. -/
def damage (env : Env) (st : State) : Outcome :=
  if lua_gettop st = 3 then
    let damage := truncate (lua_tonumber env st 1)
    let dx := lua_tonumber env st 2
    let dy := lua_tonumber env st 3
    let st1 := st.addLog [Effect.coutDamage damage dx dy]
    match st1.node with
    | none => .returned 0 st1
    | some _ => .returned 0 (LuaNode.damage st1 damage dx dy)
  else .returned 0 st

/-- The operation `damageRadius` (lines 519-542): the damage is cast to `int32_t`, the point and
the radius are cast to `float`. -/
def damageRadius (env : Env) (st : State) : Outcome :=
  if lua_gettop st = 4 then
    let damage := truncate (lua_tonumber env st 1)
    let x := f32 (lua_tonumber env st 2)
    let y := f32 (lua_tonumber env st 3)
    let radius := f32 (lua_tonumber env st 4)
    match st.node with
    | none => .returned 0 st
    | some _ => .returned 0 (LuaNode.damageRadius env st damage x y radius)
  else .returned 0 st

/-- The operation `setTransform` (lines 553-576). -/
def setTransform (env : Env) (st : State) : Outcome :=
  if lua_gettop st = 3 then
    let x := lua_tonumber env st 1
    let y := lua_tonumber env st 2
    let angle := lua_tonumber env st 3
    match st.node with
    | none => .returned 0 st
    | some node => returnNode st (node.setTransform ⟨x / env.PPM, y / env.PPM⟩ angle)
  else .returned 0 st

/-- The operation `addSprite` (lines 584-596). -/
def addSprite (st : State) : Outcome :=
  match st.node with
  | none => .returned 0 st
  | some node => .returned 0 (st.setNode node.addSprite)

/-- The operation `setSpriteOrigin` (lines 607-629). -/
def setSpriteOrigin (env : Env) (st : State) : Outcome :=
  if lua_gettop st = 3 then
    let id := lua_tointeger env st 1
    let x := lua_tonumber env st 2
    let y := lua_tonumber env st 3
    match st.node with
    | none => .returned 0 st
    | some node => returnNode st (node.setSpriteOrigin id x y)
  else .returned 0 st

/-- The operation `setSpriteOffset` (lines 640-662). -/
def setSpriteOffset (env : Env) (st : State) : Outcome :=
  if lua_gettop st = 3 then
    let id := lua_tointeger env st 1
    let x := lua_tonumber env st 2
    let y := lua_tonumber env st 3
    match st.node with
    | none => .returned 0 st
    | some node => returnNode st (node.setSpriteOffset id x y)
  else .returned 0 st

/-- The operation `boom` (lines 673-695). -/
def boom (env : Env) (st : State) : Outcome :=
  if lua_gettop st = 3 then
    let x := lua_tonumber env st 1
    let y := lua_tonumber env st 2
    let intensity := lua_tonumber env st 3
    match st.node with
    | none => .returned 0 st
    | some _ => .returned 0 (LuaNode.boom st x y intensity)
  else .returned 0 st

/-- The operation `playDetonationAnimation` (lines 705-726). -/
def playDetonationAnimation (env : Env) (st : State) : Outcome :=
  if lua_gettop st = 2 then
    let x := lua_tonumber env st 1
    let y := lua_tonumber env st 2
    match st.node with
    | none => .returned 0 st
    | some _ => .returned 0 (LuaNode.playDetonationAnimation st x y)
  else .returned 0 st

/-- The operation `addShapeCircle` (lines 737-758). -/
def addShapeCircle (env : Env) (st : State) : Outcome :=
  if lua_gettop st = 3 then
    let r := lua_tonumber env st 1
    let x := lua_tonumber env st 2
    let y := lua_tonumber env st 3
    match st.node with
    | none => .returned 0 st
    | some node => .returned 0 (st.setNode (node.addShapeCircle r x y))
  else .returned 0 st

/-- The operation `addShapeRect` (lines 770-792). -/
def addShapeRect (env : Env) (st : State) : Outcome :=
  if lua_gettop st = 4 then
    let width := lua_tonumber env st 1
    let height := lua_tonumber env st 2
    let x := lua_tonumber env st 3
    let y := lua_tonumber env st 4
    match st.node with
    | none => .returned 0 st
    | some node => .returned 0 (st.setNode (node.addShapeRect width height x y))
  else .returned 0 st

/-- The operation `addWeapon` (lines 844-902): fewer than three arguments end the process with
`exit(1)`; four arguments give a circle; five or more, an odd number, give a polygon whose loop
reads the indices `i` and `i + 1` for `i = 3, 5, ..` below the number of arguments less two. -/
def addWeapon (env : Env) (st : State) : Outcome :=
  let argc := lua_gettop st
  if argc < 3 then .exited 1
  else
    let weapon_type := lua_tointeger env st 1
    let fireInterval := lua_tointeger env st 2
    let damage := lua_tointeger env st 3
    let shape1 : Option Shape :=
      if argc = 4 then some (.circle (lua_tonumber env st 4) ⟨0, 0⟩) else none
    let shape2 : Option Shape :=
      if argc ≥ 5 ∧ (argc - 5) % 2 = 0 then
        some (.polygon ((steps 3 (argc - 2)).map
          (fun i => ⟨lua_tonumber env st i, lua_tonumber env st (i + 1)⟩)))
      else shape1
    match st.node with
    | none => .returned 0 st
    | some node =>
      .returned 0 (st.setNode
        (node.addWeapon (WeaponFactory.create node.mBody weapon_type shape2 fireInterval damage)))

/-- The operation `fireWeapon` (lines 915-940). -/
def fireWeapon (env : Env) (st : State) : Outcome :=
  if lua_gettop st = 5 then
    let index := lua_tointeger env st 1
    let posX := lua_tonumber env st 2 * env.MPP
    let posY := lua_tonumber env st 3 * env.MPP
    let dirX := lua_tonumber env st 4
    let dirY := lua_tonumber env st 5
    match st.node with
    | none => .returned 0 st
    | some node => returnNode st (node.fireWeapon index ⟨posX, posY⟩ ⟨dirX, dirY⟩)
  else .returned 0 st

/-- The operation `updateProjectileTexture` (lines 954-996): two arguments or more; with six the
rectangle is read, otherwise it is empty. A second argument without text makes a `std::string`
from `NULL`. -/
def updateProjectileTexture (env : Env) (st : State) : Outcome :=
  let argc := lua_gettop st
  if argc ≥ 2 then
    let index := lua_tointeger env st 1
    match lua_tostring env st 2 with
    | none => .fault .nullDereference
    | some path =>
      let rect : Int × Int × Int × Int :=
        if argc = 6 then
          (lua_tointeger env st 3, lua_tointeger env st 4, lua_tointeger env st 5,
            lua_tointeger env st 6)
        else (0, 0, 0, 0)
      match st.node with
      | none => .returned 0 st
      | some node =>
        returnNode (st.addLog [Effect.textureGet path])
          (node.callWeapon index (.setProjectileTexture path rect.1 rect.2.1 rect.2.2.1 rect.2.2.2))
  else .returned 0 st

/-- The operation `updateProjectileAnimation` (lines 1014-1064). -/
def updateProjectileAnimation (env : Env) (st : State) : Outcome :=
  if lua_gettop st = 10 then
    let weapon_index := lua_tointeger env st 1
    match lua_tostring env st 2 with
    | none => .fault .nullDereference
    | some path =>
      let frame_width := lua_tointeger env st 3
      let frame_height := lua_tointeger env st 4
      let frame_origin_x : Rat := lua_tointeger env st 5
      let frame_origin_y : Rat := lua_tointeger env st 6
      let time_per_frame_s := lua_tonumber env st 7
      let frame_count := lua_tointeger env st 8
      let frames_per_row := lua_tointeger env st 9
      let start_frame := lua_tointeger env st 10
      match st.node with
      | none => .returned 0 st
      | some node =>
        let frame_times := List.replicate frame_count.toNat time_per_frame_s
        let frame_data : AnimationFrameData :=
          ⟨path, ⟨frame_origin_x, frame_origin_y⟩, frame_width, frame_height, frame_count,
            frames_per_row, frame_times, start_frame⟩
        returnNode (st.addLog [Effect.textureGet path])
          (node.callWeapon weapon_index (.setProjectileAnimation frame_data))
  else .returned 0 st

/-- The operation `timer` (lines 1074-1097). -/
def timer (env : Env) (st : State) : Outcome :=
  if lua_gettop st = 2 then
    let delay := lua_tointeger env st 1
    let timerId := lua_tointeger env st 2
    match st.node with
    | none => .returned 0 st
    | some _ => .returned 0 (st.addLog [Effect.timerAdd delay timerId])
  else .returned 0 st

/-- The operation `addSample` (lines 1106-1118). -/
def addSample (env : Env) (st : State) : Outcome :=
  if lua_gettop st = 1 then
    match lua_tostring env st 1 with
    | none => .fault .nullDereference
    | some sample => .returned 0 (st.addLog [Effect.addSample sample])
  else .returned 0 st

/-- The operation `playSample` (lines 1128-1142). -/
def playSample (env : Env) (st : State) : Outcome :=
  if lua_gettop st = 2 then
    match lua_tostring env st 1 with
    | none => .fault .nullDereference
    | some sample =>
      let volume := lua_tonumber env st 2
      .returned 0 (st.addLog [Effect.playSample sample volume])
  else .returned 0 st

/-- The operation `debug` (lines 1151-1163). -/
def debug (env : Env) (st : State) : Outcome :=
  if lua_gettop st = 1 then
    match lua_tostring env st 1 with
    | none => .fault .nullDereference
    | some message => .returned 0 (st.addLog [Effect.puts message])
  else .returned 0 st

/-- The operation `registerHitAnimation` (lines 1178-1214): the reference animation is
registered before the node is looked up. -/
def registerHitAnimation (env : Env) (st : State) : Outcome :=
  if lua_gettop st = 8 then
    let weapon_index := lua_tointeger env st 1
    match lua_tostring env st 2 with
    | none => .fault .nullDereference
    | some path =>
      let frame_width := lua_tointeger env st 3
      let frame_height := lua_tointeger env st 4
      let time_per_frame_s := lua_tonumber env st 5
      let frame_count := lua_tointeger env st 6
      let frames_per_row := lua_tointeger env st 7
      let start_frame := lua_tointeger env st 8
      let st1 := st.addLog [Effect.addReferenceAnimation path frame_width frame_height
        time_per_frame_s frame_count frames_per_row start_frame]
      match st1.node with
      | none => .returned 0 st1
      | some node => returnNode st1 (node.callWeapon weapon_index (.setProjectileIdentifier path))
  else .returned 0 st

/-- The operation `updateKeysPressed` (lines 1223-1239). -/
def updateKeysPressed (env : Env) (st : State) : Outcome :=
  if lua_gettop st = 1 then
    let keyPressed := lua_tointeger env st 1
    match st.node with
    | none => .returned 0 st
    | some _ => .returned 0 (st.addLog [Effect.updateKeysPressed keyPressed])
  else .returned 0 st

/-- The operation `die` (lines 1264-1275). -/
def die (st : State) : Outcome :=
  match st.node with
  | none => .returned 0 st
  | some node =>
    match LuaNode.luaDie st node with
    | .error f => .fault f
    | .ok st1 => .returned 0 st1

/-- The native operations `LuaNode::setupLua` registers (lines 1391-1424). -/
inductive Native where
  | addSample
  | addShapeCircle
  | addShapeRect
  | addSprite
  | addWeapon
  | boom
  | damage
  | damageRadius
  | debug
  | die
  | fireWeapon
  | getLinearVelocity
  | isPhsyicsPathClear
  | makeDynamic
  | makeStatic
  | playDetonationAnimation
  | playSample
  | queryAABB
  | queryRayCast
  | registerHitAnimation
  | setActive
  | setDamage
  | setGravityScale
  | setLinearVelocity
  | setSpriteOffset
  | setSpriteOrigin
  | setTransform
  | setZ
  | timer
  | updateKeysPressed
  | updateProjectileAnimation
  | updateProjectileTexture
  | updateProperties
  | updateSpriteRect
deriving Repr, DecidableEq

/-- A script calls an operation of the catalog: the function registered for it runs on the
state, the arguments of the call being the stack. -/
def call (env : Env) (op : Native) (st : State) : Outcome :=
  match op with
  | .addSample => addSample env st
  | .addShapeCircle => addShapeCircle env st
  | .addShapeRect => addShapeRect env st
  | .addSprite => addSprite st
  | .addWeapon => addWeapon env st
  | .boom => boom env st
  | .damage => damage env st
  | .damageRadius => damageRadius env st
  | .debug => debug env st
  | .die => die st
  | .fireWeapon => fireWeapon env st
  | .getLinearVelocity => getLinearVelocity st
  | .isPhsyicsPathClear => isPhsyicsPathClear env st
  | .makeDynamic => makeDynamic st
  | .makeStatic => makeStatic st
  | .playDetonationAnimation => playDetonationAnimation env st
  | .playSample => playSample env st
  | .queryAABB => queryAABB env st
  | .queryRayCast => queryRayCast env st
  | .registerHitAnimation => registerHitAnimation env st
  | .setActive => setActive st
  | .setDamage => setDamage env st
  | .setGravityScale => setGravityScale env st
  | .setLinearVelocity => setLinearVelocity env st
  | .setSpriteOffset => setSpriteOffset env st
  | .setSpriteOrigin => setSpriteOrigin env st
  | .setTransform => setTransform env st
  | .setZ => setZ env st
  | .timer => timer env st
  | .updateKeysPressed => updateKeysPressed env st
  | .updateProjectileAnimation => updateProjectileAnimation env st
  | .updateProjectileTexture => updateProjectileTexture env st
  | .updateProperties => updateProperties env st
  | .updateSpriteRect => updateSpriteRect env st

/-! ## Vocabulary of the specification -/

/-- The operation tests the number of its arguments: its body is behind a guard on `lua_gettop`.
The operations `addSprite`, `die`, `getLinearVelocity`, `makeDynamic`, `makeStatic` and
`updateProperties` have no such guard. -/
def guarded : Native → Bool
  | .addSprite => false
  | .die => false
  | .getLinearVelocity => false
  | .makeDynamic => false
  | .makeStatic => false
  | .updateProperties => false
  | _ => true

/-- The state with another stack. -/
def State.withStack (st : State) (stack : List Slot) : State :=
  ⟨stack, st.beyond, st.node, st.playerPosition, st.world, st.log⟩

/-- The outcome of a call with other slots below the stack it leaves. -/
def Outcome.above (below : List Slot) : Outcome → Outcome
  | .returned results st => .returned results (st.withStack (below ++ st.stack))
  | .exited code => .exited code
  | .fault f => .fault f

/-- The numbers of arguments an operation accepts: those its guard on `lua_gettop` lets pass;
for an operation without a guard, the number of arguments it is written for: none for
`addSprite`, `die`, `getLinearVelocity`, `makeDynamic` and `makeStatic`, whose comments list no
parameter, and one, the table, for `updateProperties`. -/
def accepts : Native → Nat → Bool
  | .addSample, n => n = 1
  | .addShapeCircle, n => n = 3
  | .addShapeRect, n => n = 4
  | .addSprite, n => n = 0
  | .addWeapon, n => decide (3 ≤ n)
  | .boom, n => n = 3
  | .damage, n => n = 3
  | .damageRadius, n => n = 4
  | .debug, n => n = 1
  | .die, n => n = 0
  | .fireWeapon, n => n = 5
  | .getLinearVelocity, n => n = 0
  | .isPhsyicsPathClear, n => n = 4
  | .makeDynamic, n => n = 0
  | .makeStatic, n => n = 0
  | .playDetonationAnimation, n => n = 2
  | .playSample, n => n = 2
  | .queryAABB, n => n = 4
  | .queryRayCast, n => n = 4
  | .registerHitAnimation, n => n = 8
  | .setActive, n => n = 1
  | .setDamage, n => n = 1
  | .setGravityScale, n => n = 1
  | .setLinearVelocity, n => n = 2
  | .setSpriteOffset, n => n = 3
  | .setSpriteOrigin, n => n = 3
  | .setTransform, n => n = 3
  | .setZ, n => n = 1
  | .timer, n => n = 2
  | .updateKeysPressed, n => n = 1
  | .updateProjectileAnimation, n => n = 10
  | .updateProjectileTexture, n => decide (2 ≤ n)
  | .updateProperties, n => n = 1
  | .updateSpriteRect, n => n = 5

/-- The value the claim on `updateProperties` gives a table value: a Bool for a boolean,
otherwise an Int64 for an integer number, otherwise a Double for a number or a value convertible
to one, otherwise a String for a string; `none` for a value of any other type, which is not
written. -/
def coercion (env : Env) : LuaValue → Option Property
  | .boolean b => some (.bool b)
  | .integer i => some (.int64 i)
  | .number x => some (.double x)
  | .string s =>
    match env.str2number s with
    | some x => some (.double x)
    | none => some (.string s)
  | _ => none

/-! ## Examples -/

/-- A conversion from strings to numbers that knows the decimal numerals without sign. -/
def readDecimal (s : String) : Option Rat :=
  match s.data with
  | [] => none
  | c :: cs =>
    if (c :: cs).all Char.isDigit then
      some (((c :: cs).foldl (fun n d => 10 * n + (d.toNat - 48)) 0 : Nat) : Rat)
    else none

/-- The length of a vector, exact for the vectors parallel to an axis, the only ones of the
examples; for the others the sum of the absolute coordinates stands in. -/
def axisLength (v : Vec2) : Rat :=
  if v.y = 0 then |v.x| else if v.x = 0 then |v.y| else |v.x| + |v.y|

/-- An environment for the examples: 48 pixels per metre, physics tiles of 8 pixels, a property
map whose values start as `false`, a level without obstacles and rays that hit every fixture. -/
def exampleEnv : Env :=
  ⟨readDecimal, fun i => toString i, fun x => toString x.num ++ "/" ++ toString x.den,
    1 / 48, 48, 8, axisLength,
    fun v => ⟨v.x / axisLength v, v.y / axisLength v⟩, .bool false,
    fun _ _ => false, fun world _ _ => world⟩

/-- A body with gravity scale 1 and one tagged fixture. -/
def exampleBody : Body :=
  ⟨7, 1, true, true, ⟨0, 0⟩, ⟨0, 0⟩, 0, [.tagged (some 3)]⟩

/-- A node with a body and the property `sprite`. -/
def exampleNode : LuaNode :=
  ⟨some exampleBody, [("sprite", .string "bat.png")], 0, [], [], [], [], none⟩

/-- A state with the node of the examples, the player at `(120, 100)`, an empty world, and the
given arguments on the stack. -/
def exampleState (args : List Slot) : State :=
  ⟨args, .nil, some exampleNode, ⟨120, 100⟩, [], []⟩

/-- A world in which one body has two fixtures. -/
def twoFixtureWorld : State :=
  ⟨[], .nil, some exampleNode, ⟨0, 0⟩,
    [⟨1, ⟨⟨0, 0⟩, ⟨1, 1⟩⟩⟩, ⟨1, ⟨⟨1, 0⟩, ⟨2, 1⟩⟩⟩], []⟩

/-- A node with a body and no property at all. -/
def bareNode : LuaNode :=
  ⟨some exampleBody, [], 0, [], [], [], [], none⟩

end Script


/-! ## Generic lemmas on loops -/

section Loops

variable {α β : Type}

/-- A property kept by every iteration of a loop is kept by the loop. -/
theorem foldl_keeps (step : β → α → β) (P : β → Prop) (l : List α)
    (hstep : ∀ a ∈ l, ∀ d, P d → P (step d a)) : ∀ d, P d → P (l.foldl step d) := by
  induction l with
  | nil => intro d hd; simpa using hd
  | cons a l ih =>
    intro d hd
    rw [List.foldl_cons]
    exact ih (fun a' ha' => hstep a' (List.mem_cons_of_mem _ ha')) _
      (hstep a (List.mem_cons_self _ _) d hd)

/-- If every iteration keeps `P`, keeps `Q` once it holds, and one iteration of the loop
establishes `Q`, then `Q` holds after the loop. -/
theorem foldl_reaches (step : β → α → β) (P Q : β → Prop) (l : List α)
    (hP : ∀ a ∈ l, ∀ d, P d → P (step d a))
    (hQ : ∀ a ∈ l, ∀ d, P d → Q d → Q (step d a))
    (a0 : α) (h0 : a0 ∈ l) (hE : ∀ d, P d → Q (step d a0)) :
    ∀ d, P d → Q (l.foldl step d) := by
  induction l with
  | nil => simp at h0
  | cons a l ih =>
    intro d hd
    rw [List.foldl_cons]
    have hP' : ∀ a' ∈ l, ∀ d, P d → P (step d a') :=
      fun a' ha' => hP a' (List.mem_cons_of_mem _ ha')
    have hQ' : ∀ a' ∈ l, ∀ d, P d → Q d → Q (step d a') :=
      fun a' ha' => hQ a' (List.mem_cons_of_mem _ ha')
    have hPa : P (step d a) := hP a (List.mem_cons_self _ _) d hd
    by_cases hmem : a0 ∈ l
    · exact ih hP' hQ' hmem _ hPa
    · have ha : a0 = a := by
        rcases List.mem_cons.mp h0 with h | h
        · exact h
        · exact absurd h hmem
      subst ha
      have hboth : P (l.foldl step (step d a0)) ∧ Q (l.foldl step (step d a0)) :=
        foldl_keeps step (fun d => P d ∧ Q d) l
          (fun a' ha' d' hd' => ⟨hP' a' ha' d' hd'.1, hQ' a' ha' d' hd'.1 hd'.2⟩) _
          ⟨hPa, hE d hd⟩
      exact hboth.2

end Loops

section Machine

/-! ## The constants of type `float` -/

theorem f32_zero : f32 0 = 0 := by decide!

/-- The constant `0.03f` of `processImpulse`. -/
theorem f32_impulse_threshold : f32 (3 / 100) = 16106127 / 536870912 := by decide!

/-- The constant `0.0003f` of `PostSolve`. -/
theorem f32_inactive_threshold : f32 (3 / 10000) = 5153961 / 17179869184 := by decide!

end Machine

namespace Tmx

/-! ## Buffer writes -/

theorem length_writeCell (data : List Int) (idx v : Int) :
    (writeCell data idx v).length = data.length := by
  unfold writeCell
  split <;> simp

theorem getElem?_writeCell_ne (data : List Int) (idx v : Int) (t : Nat) (h : idx ≠ (t : Int)) :
    (writeCell data idx v)[t]? = data[t]? := by
  unfold writeCell
  split
  · rename_i hpos
    apply List.getElem?_set_ne
    intro heq
    apply h
    omega
  · rfl

theorem getElem?_writeCell_eq (data : List Int) (v : Int) (t : Nat) (h : t < data.length) :
    (writeCell data (t : Int) v)[t]? = some v := by
  unfold writeCell
  simp [h]

/-! ## Row-major index arithmetic -/

/-- A row-major index determines its column and row when the column is inside the row. -/
theorem rowMajor_inj (W a b y z : Int) (ha : 0 ≤ a) (haW : a < W) (hb : 0 ≤ b) (hbW : b < W)
    (h : y * W + a = z * W + b) : y = z ∧ a = b := by
  have hW : 0 < W := lt_of_le_of_lt ha haW
  have hyz : y = z := by
    by_contra hne
    rcases lt_or_gt_of_ne hne with hlt | hgt
    · have : (y + 1) * W ≤ z * W := by
        apply mul_le_mul_of_nonneg_right _ hW.le
        omega
      nlinarith
    · have : (z + 1) * W ≤ y * W := by
        apply mul_le_mul_of_nonneg_right _ hW.le
        omega
      nlinarith
  subst hyz
  exact ⟨rfl, by linarith⟩

/-- A row-major index of a cell inside a `W x H` grid is inside the buffer. -/
theorem rowMajor_lt (W H col row : Nat) (hc : col < W) (hr : row < H) :
    row * W + col < W * H := by
  have h1 : row * W + col < (row + 1) * W := by
    rw [Nat.add_mul, Nat.one_mul]; omega
  have h2 : (row + 1) * W ≤ H * W := Nat.mul_le_mul_right W hr
  calc row * W + col < (row + 1) * W := h1
    _ ≤ H * W := h2
    _ = W * H := Nat.mul_comm H W

/-! ## The extrema loop -/

theorem boundsOf_init (c : TmxChunk) : BoundsOf [c] (initBounds c) := by
  simp [BoundsOf, IsMinX, IsMaxX, IsMinY, IsMaxY, initBounds]

theorem boundsOf_update (seen : List TmxChunk) (b : Bounds) (c : TmxChunk)
    (h : BoundsOf seen b) : BoundsOf (seen ++ [c]) (updateBounds b c) := by
  obtain ⟨⟨⟨c1, hc1, e1⟩, l1⟩, ⟨⟨c2, hc2, e2⟩, l2⟩, ⟨⟨c3, hc3, e3⟩, l3⟩, ⟨⟨c4, hc4, e4⟩, l4⟩⟩ := h
  refine ⟨⟨?_, ?_⟩, ⟨?_, ?_⟩, ⟨?_, ?_⟩, ⟨?_, ?_⟩⟩
  · by_cases hlt : c._x_px < b.xMin
    · exact ⟨c, by simp, by simp [updateBounds, hlt]⟩
    · exact ⟨c1, by simp [hc1], by simp [updateBounds, hlt, e1]⟩
  · intro k hk
    simp only [updateBounds]
    rcases List.mem_append.mp hk with hk | hk
    · have := l1 k hk
      split <;> omega
    · simp at hk; subst hk
      split <;> omega
  · by_cases hlt : c._x_px > b.xMax
    · exact ⟨c, by simp, by simp [updateBounds, hlt]⟩
    · exact ⟨c2, by simp [hc2], by simp [updateBounds, hlt, e2]⟩
  · intro k hk
    simp only [updateBounds]
    rcases List.mem_append.mp hk with hk | hk
    · have := l2 k hk
      split <;> omega
    · simp at hk; subst hk
      split <;> omega
  · by_cases hlt : c._y_px < b.yMin
    · exact ⟨c, by simp, by simp [updateBounds, hlt]⟩
    · exact ⟨c3, by simp [hc3], by simp [updateBounds, hlt, e3]⟩
  · intro k hk
    simp only [updateBounds]
    rcases List.mem_append.mp hk with hk | hk
    · have := l3 k hk
      split <;> omega
    · simp at hk; subst hk
      split <;> omega
  · by_cases hlt : c._y_px > b.yMax
    · exact ⟨c, by simp, by simp [updateBounds, hlt]⟩
    · exact ⟨c4, by simp [hc4], by simp [updateBounds, hlt, e4]⟩
  · intro k hk
    simp only [updateBounds]
    rcases List.mem_append.mp hk with hk | hk
    · have := l4 k hk
      split <;> omega
    · simp at hk; subst hk
      split <;> omega

theorem boundsOf_foldl (rest : List TmxChunk) :
    ∀ (seen : List TmxChunk) (b : Bounds), BoundsOf seen b →
      BoundsOf (seen ++ rest) (rest.foldl updateBounds b) := by
  induction rest with
  | nil => intro seen b h; simpa using h
  | cons c rest ih =>
    intro seen b h
    have := ih (seen ++ [c]) (updateBounds b c) (boundsOf_update seen b c h)
    simpa using this

/-- The extrema computed by lines 122-150 are the minima and maxima of the chunk origins. -/
theorem boundsOf_computeBounds (first : TmxChunk) (rest : List TmxChunk) :
    BoundsOf (first :: rest) (computeBounds first rest) := by
  have := boundsOf_foldl rest [first] (initBounds first) (boundsOf_init first)
  simpa [computeBounds] using this

theorem isMinX_unique (chunks : List TmxChunk) (m n : Int) (hm : IsMinX chunks m)
    (hn : IsMinX chunks n) : m = n := by
  obtain ⟨⟨c, hc, rfl⟩, hle⟩ := hm
  obtain ⟨⟨k, hk, rfl⟩, hle'⟩ := hn
  exact le_antisymm (hle k hk) (hle' c hc)

theorem isMaxX_unique (chunks : List TmxChunk) (m n : Int) (hm : IsMaxX chunks m)
    (hn : IsMaxX chunks n) : m = n := by
  obtain ⟨⟨c, hc, rfl⟩, hle⟩ := hm
  obtain ⟨⟨k, hk, rfl⟩, hle'⟩ := hn
  exact le_antisymm (hle' c hc) (hle k hk)

theorem isMinY_unique (chunks : List TmxChunk) (m n : Int) (hm : IsMinY chunks m)
    (hn : IsMinY chunks n) : m = n := by
  obtain ⟨⟨c, hc, rfl⟩, hle⟩ := hm
  obtain ⟨⟨k, hk, rfl⟩, hle'⟩ := hn
  exact le_antisymm (hle k hk) (hle' c hc)

theorem isMaxY_unique (chunks : List TmxChunk) (m n : Int) (hm : IsMaxY chunks m)
    (hn : IsMaxY chunks n) : m = n := by
  obtain ⟨⟨c, hc, rfl⟩, hle⟩ := hm
  obtain ⟨⟨k, hk, rfl⟩, hle'⟩ := hn
  exact le_antisymm (hle' c hc) (hle k hk)

/-! ## The copy loops -/

theorem length_mergeRow (b : Bounds) (W cw : Nat) (c : TmxChunk) (d : List Int) (y : Nat) :
    (mergeRow b W cw c d y).length = d.length := by
  unfold mergeRow
  refine foldl_keeps _ (fun d' => d'.length = d.length) _ ?_ d rfl
  intro x _ d' hd'
  simpa [length_writeCell] using hd'

theorem length_mergeChunk (b : Bounds) (W cw ch : Nat) (d : List Int) (c : TmxChunk) :
    (mergeChunk b W cw ch d c).length = d.length := by
  unfold mergeChunk
  refine foldl_keeps _ (fun d' => d'.length = d.length) _ ?_ d rfl
  intro y _ d' hd'
  simpa [length_mergeRow] using hd'

theorem length_foldl_mergeChunk (b : Bounds) (W cw ch : Nat) (chunks : List TmxChunk)
    (d : List Int) : (chunks.foldl (mergeChunk b W cw ch) d).length = d.length := by
  refine foldl_keeps _ (fun d' => d'.length = d.length) _ ?_ d rfl
  intro c _ d' hd'
  simpa [length_mergeChunk] using hd'

/-- The index written for a local cell is the row-major index of a cell of the frame, and the
column of that cell is inside the frame. -/
theorem layerIndex_inFrame (b : Bounds) (W H cw ch : Nat) (fr : Frame b W H cw ch)
    (k : TmxChunk) (hk : InBounds b k) (x y : Nat) (hx : x < cw) (hy : y < ch) :
    0 ≤ k._x_px + x - b.xMin ∧ k._x_px + x - b.xMin < W ∧
    0 ≤ k._y_px + y - b.yMin ∧ k._y_px + y - b.yMin < H := by
  obtain ⟨h1, h2, h3, h4⟩ := hk
  have hW := fr.hW
  have hH := fr.hH
  refine ⟨by omega, by omega, by omega, by omega⟩

/-- Inside a frame the index written does not wrap: it is the row-major index of the frame
cell. -/
theorem layerIndex_exact (b : Bounds) (W H cw ch : Nat) (fr : Frame b W H cw ch)
    (k : TmxChunk) (hk : InBounds b k) (x y : Nat) (hx : x < cw) (hy : y < ch) :
    layerIndex b W k x y = (k._y_px + y - b.yMin) * (W : Int) + (k._x_px + x - b.xMin) := by
  obtain ⟨a0, a1, a2, a3⟩ := layerIndex_inFrame b W H cw ch fr k hk x y hx hy
  have hS : (W : Int) * H < 4294967296 := by exact_mod_cast fr.hS
  have hW : (0 : Int) ≤ W := Int.natCast_nonneg W
  have hnn : 0 ≤ (k._y_px + y - b.yMin) * (W : Int) + (k._x_px + x - b.xMin) := by
    have := mul_nonneg a2 hW
    omega
  have hlt : (k._y_px + y - b.yMin) * (W : Int) + (k._x_px + x - b.xMin) < 4294967296 := by
    have h1 : (k._y_px + y - b.yMin + 1) * (W : Int) ≤ (H : Int) * W :=
      mul_le_mul_of_nonneg_right (by omega) hW
    nlinarith
  simp only [layerIndex]
  exact Int.emod_eq_of_lt hnn hlt

/-- If a local cell of chunk `k` is written to the buffer index of frame cell `(col, row)`, then
the local cell is the one at that frame position. -/
theorem layerIndex_eq_iff (b : Bounds) (W H cw ch : Nat) (fr : Frame b W H cw ch)
    (k : TmxChunk) (hk : InBounds b k) (x y : Nat) (hx : x < cw) (hy : y < ch)
    (col row : Nat) (hcol : col < W)
    (h : layerIndex b W k x y = ((row * W + col : Nat) : Int)) :
    k._x_px + x - b.xMin = col ∧ k._y_px + y - b.yMin = row := by
  obtain ⟨a0, a1, _, _⟩ := layerIndex_inFrame b W H cw ch fr k hk x y hx hy
  have h' : (k._y_px + y - b.yMin) * (W : Int) + (k._x_px + x - b.xMin)
      = (row : Int) * (W : Int) + (col : Int) := by
    rw [layerIndex_exact b W H cw ch fr k hk x y hx hy] at h
    rw [h]
    push_cast
    ring
  have := rowMajor_inj (W : Int) _ _ _ _ a0 a1 (by positivity) (by exact_mod_cast hcol) h'
  exact ⟨this.2, this.1⟩

/-- A chunk that does not cover a frame cell leaves that cell of the buffer as it was. -/
theorem mergeChunk_keeps (b : Bounds) (W H cw ch : Nat) (fr : Frame b W H cw ch)
    (k : TmxChunk) (hk : InBounds b k) (col row : Nat) (hcol : col < W)
    (hno : ¬ (k._x_px ≤ b.xMin + col ∧ b.xMin + col < k._x_px + cw ∧
              k._y_px ≤ b.yMin + row ∧ b.yMin + row < k._y_px + ch))
    (d : List Int) :
    (mergeChunk b W cw ch d k)[row * W + col]? = d[row * W + col]? := by
  unfold mergeChunk
  refine foldl_keeps _ (fun d' => d'[row * W + col]? = d[row * W + col]?) _ ?_ d rfl
  intro y hy d1 hd1
  unfold mergeRow
  refine foldl_keeps _ (fun d' => d'[row * W + col]? = d[row * W + col]?) _ ?_ d1 hd1
  intro x hx d2 hd2
  have hx' : x < cw := List.mem_range.mp hx
  have hy' : y < ch := List.mem_range.mp hy
  rw [getElem?_writeCell_ne]
  · exact hd2
  · intro heq
    obtain ⟨e1, e2⟩ := layerIndex_eq_iff b W H cw ch fr k hk x y hx' hy' col row hcol heq
    apply hno
    omega

/-- After a chunk has been copied, the frame cell of each of its local cells holds the value of
that local cell. -/
theorem mergeChunk_writes (b : Bounds) (W H cw ch : Nat) (fr : Frame b W H cw ch)
    (c : TmxChunk) (hc : InBounds b c) (cx cy : Nat) (hcx : cx < cw) (hcy : cy < ch)
    (col row : Nat) (hcol : (col : Int) = c._x_px + cx - b.xMin)
    (hrow : (row : Int) = c._y_px + cy - b.yMin)
    (d : List Int) (hd : d.length = W * H) :
    (mergeChunk b W cw ch d c)[row * W + col]? = some (readCell c._data (cy * cw + cx)) := by
  obtain ⟨_, a1, _, a3⟩ := layerIndex_inFrame b W H cw ch fr c hc cx cy hcx hcy
  have hcolW : col < W := by omega
  have hrowH : row < H := by omega
  have hidx : layerIndex b W c cx cy = ((row * W + col : Nat) : Int) := by
    rw [layerIndex_exact b W H cw ch fr c hc cx cy hcx hcy]
    push_cast
    rw [hcol, hrow]
  unfold mergeChunk
  refine foldl_reaches _ (fun d' => d'.length = W * H)
    (fun d' => d'[row * W + col]? = some (readCell c._data (cy * cw + cx))) _ ?_ ?_ cy
    (List.mem_range.mpr hcy) ?_ d hd
  · intro y _ d1 hd1
    rw [length_mergeRow]; exact hd1
  · intro y hy d1 hlen hd1
    unfold mergeRow
    refine foldl_keeps _
      (fun d' => d'[row * W + col]? = some (readCell c._data (cy * cw + cx))) _ ?_ d1 hd1
    intro x hx d2 hd2
    have hx' : x < cw := List.mem_range.mp hx
    have hy' : y < ch := List.mem_range.mp hy
    by_cases heq : layerIndex b W c x y = ((row * W + col : Nat) : Int)
    · obtain ⟨e1, e2⟩ := layerIndex_eq_iff b W H cw ch fr c hc x y hx' hy' col row hcolW heq
      have hxe : x = cx := by omega
      have hye : y = cy := by omega
      subst hxe; subst hye
      rw [heq]
      have hlt : row * W + col < d2.length := by
        have := List.getElem?_eq_some_iff.mp hd2
        exact this.1
      exact getElem?_writeCell_eq d2 _ _ hlt
    · rw [getElem?_writeCell_ne _ _ _ _ heq]; exact hd2
  · intro d1 hlen
    unfold mergeRow
    refine foldl_reaches _ (fun d' => d'.length = W * H)
      (fun d' => d'[row * W + col]? = some (readCell c._data (cy * cw + cx))) _ ?_ ?_ cx
      (List.mem_range.mpr hcx) ?_ d1 hlen
    · intro x _ d2 hd2
      rw [length_writeCell]; exact hd2
    · intro x hx d2 hlen2 hd2
      have hx' : x < cw := List.mem_range.mp hx
      by_cases heq : layerIndex b W c x cy = ((row * W + col : Nat) : Int)
      · obtain ⟨e1, e2⟩ := layerIndex_eq_iff b W H cw ch fr c hc x cy hx' hcy col row hcolW heq
        have hxe : x = cx := by omega
        subst hxe
        rw [heq]
        exact getElem?_writeCell_eq d2 _ _ (by rw [hlen2]; exact rowMajor_lt W H col row hcolW hrowH)
      · rw [getElem?_writeCell_ne _ _ _ _ heq]; exact hd2
    · intro d2 hlen2
      rw [hidx]
      exact getElem?_writeCell_eq d2 _ _ (by rw [hlen2]; exact rowMajor_lt W H col row hcolW hrowH)

/-- Chunks that do not cover a frame cell leave that cell of the buffer as it was. -/
theorem foldl_mergeChunk_keeps (b : Bounds) (W H cw ch : Nat) (fr : Frame b W H cw ch)
    (ks : List TmxChunk) (hks : ∀ k ∈ ks, InBounds b k) (col row : Nat) (hcol : col < W)
    (hno : ∀ k ∈ ks, ¬ (k._x_px ≤ b.xMin + col ∧ b.xMin + col < k._x_px + cw ∧
              k._y_px ≤ b.yMin + row ∧ b.yMin + row < k._y_px + ch))
    (d : List Int) :
    (ks.foldl (mergeChunk b W cw ch) d)[row * W + col]? = d[row * W + col]? := by
  refine foldl_keeps _ (fun d' => d'[row * W + col]? = d[row * W + col]?) _ ?_ d rfl
  intro k hk d' hd'
  beta_reduce at hd' ⊢
  rw [mergeChunk_keeps b W H cw ch fr k (hks k hk) col row hcol (hno k hk)]; exact hd'

/-- The copy loop over a chunk list: the frame cell of a local cell of chunk `c` holds the value
of that local cell, provided no chunk after `c` covers the same frame cell. -/
theorem foldl_mergeChunk_last (b : Bounds) (W H cw ch : Nat) (fr : Frame b W H cw ch)
    (pre post : List TmxChunk) (c : TmxChunk) (hin : ∀ k ∈ pre ++ c :: post, InBounds b k)
    (cx cy : Nat) (hcx : cx < cw) (hcy : cy < ch)
    (col row : Nat) (hcol : (col : Int) = c._x_px + cx - b.xMin)
    (hrow : (row : Int) = c._y_px + cy - b.yMin)
    (hlast : ∀ k ∈ post, ¬ (k._x_px ≤ c._x_px + cx ∧ c._x_px + cx < k._x_px + cw ∧
              k._y_px ≤ c._y_px + cy ∧ c._y_px + cy < k._y_px + ch))
    (d : List Int) (hd : d.length = W * H) :
    ((pre ++ c :: post).foldl (mergeChunk b W cw ch) d)[row * W + col]?
      = some (readCell c._data (cy * cw + cx)) := by
  have hc : InBounds b c := hin c (by simp)
  obtain ⟨_, a1, _, _⟩ := layerIndex_inFrame b W H cw ch fr c hc cx cy hcx hcy
  have hcolW : col < W := by omega
  rw [List.foldl_append, List.foldl_cons]
  rw [foldl_mergeChunk_keeps b W H cw ch fr post
    (fun k hk => hin k (by simp [hk])) col row hcolW ?_]
  · exact mergeChunk_writes b W H cw ch fr c hc cx cy hcx hcy col row hcol hrow _
      (by rw [length_foldl_mergeChunk]; exact hd)
  · intro k hk hcov
    apply hlast k hk
    omega

/-! ## The merged layer -/

/-- The fields of the merged layer for a non-empty chunk list, as computed by `mergeChunks`. -/
theorem mergeChunks_cons (layer : TmxLayer) (first : TmxChunk) (rest : List TmxChunk) :
    mergeChunks layer (first :: rest) =
      ⟨(((computeBounds first rest).xMax - (computeBounds first rest).xMin
          + first._width_px) % 4294967296).toNat,
       (((computeBounds first rest).yMax - (computeBounds first rest).yMin
          + first._height_px) % 4294967296).toNat,
       (computeBounds first rest).xMin, (computeBounds first rest).yMin,
       (first :: rest).foldl
         (mergeChunk (computeBounds first rest)
           (((computeBounds first rest).xMax - (computeBounds first rest).xMin
              + first._width_px) % 4294967296).toNat first._width_px first._height_px)
         (List.replicate
           ((((computeBounds first rest).xMax - (computeBounds first rest).xMin
              + first._width_px) % 4294967296).toNat *
            (((computeBounds first rest).yMax - (computeBounds first rest).yMin
              + first._height_px) % 4294967296).toNat % 4294967296) 0)⟩ :=
  rfl

theorem boundsOf_le (seen : List TmxChunk) (b : Bounds) (h : BoundsOf seen b) :
    b.xMin ≤ b.xMax ∧ b.yMin ≤ b.yMax := by
  obtain ⟨⟨_, l1⟩, ⟨⟨c2, hc2, e2⟩, _⟩, ⟨_, l3⟩, ⟨⟨c4, hc4, e4⟩, _⟩⟩ := h
  exact ⟨e2 ▸ l1 c2 hc2, e4 ▸ l3 c4 hc4⟩

theorem boundsOf_inBounds (seen : List TmxChunk) (b : Bounds) (h : BoundsOf seen b) :
    ∀ k ∈ seen, InBounds b k := by
  intro k hk
  exact ⟨h.1.2 k hk, h.2.1.2 k hk, h.2.2.1.2 k hk, h.2.2.2.2 k hk⟩

/-- The extrema of a non-empty chunk list are the ones the loop computes. -/
theorem computeBounds_eq (first : TmxChunk) (rest : List TmxChunk) (b : Bounds)
    (hb : BoundsOf (first :: rest) b) : computeBounds first rest = b := by
  have hB := boundsOf_computeBounds first rest
  have e1 := isMinX_unique _ _ _ hB.1 hb.1
  have e2 := isMaxX_unique _ _ _ hB.2.1 hb.2.1
  have e3 := isMinY_unique _ _ _ hB.2.2.1 hb.2.2.1
  have e4 := isMaxY_unique _ _ _ hB.2.2.2 hb.2.2.2
  obtain ⟨b1, b2, b3, b4⟩ := b
  cases hc : computeBounds first rest
  rw [hc] at e1 e2 e3 e4
  simp only at e1 e2 e3 e4
  rw [e1, e2, e3, e4]

/-- The merged layer of a non-empty chunk list whose grid fits the 32 bit arithmetic: nothing
wraps, the buffer is the frame `W x H` spanned by the extrema. -/
theorem mergeChunks_fit (layer : TmxLayer) (first : TmxChunk) (rest : List TmxChunk)
    (hfit : Fits (computeBounds first rest) first._width_px first._height_px) :
    ∃ W H : Nat, Frame (computeBounds first rest) W H first._width_px first._height_px ∧
      mergeChunks layer (first :: rest) =
        ⟨W, H, (computeBounds first rest).xMin, (computeBounds first rest).yMin,
          (first :: rest).foldl
            (mergeChunk (computeBounds first rest) W first._width_px first._height_px)
            (List.replicate (W * H) 0)⟩ := by
  obtain ⟨h1, h2⟩ := boundsOf_le _ _ (boundsOf_computeBounds first rest)
  obtain ⟨f1, f2, f3⟩ := hfit
  have eW : ((computeBounds first rest).xMax - (computeBounds first rest).xMin
      + (first._width_px : Int)) % 4294967296
      = (computeBounds first rest).xMax - (computeBounds first rest).xMin + first._width_px :=
    Int.emod_eq_of_lt (by omega) f1
  have eH : ((computeBounds first rest).yMax - (computeBounds first rest).yMin
      + (first._height_px : Int)) % 4294967296
      = (computeBounds first rest).yMax - (computeBounds first rest).yMin + first._height_px :=
    Int.emod_eq_of_lt (by omega) f2
  refine ⟨((computeBounds first rest).xMax - (computeBounds first rest).xMin
      + first._width_px).toNat,
    ((computeBounds first rest).yMax - (computeBounds first rest).yMin
      + first._height_px).toNat, ?_, ?_⟩
  · have hS : (((computeBounds first rest).xMax - (computeBounds first rest).xMin
          + first._width_px).toNat *
        ((computeBounds first rest).yMax - (computeBounds first rest).yMin
          + first._height_px).toNat : Int) < 4294967296 := by
      rw [Int.toNat_of_nonneg (by omega), Int.toNat_of_nonneg (by omega)]
      exact f3
    exact ⟨by rw [Int.toNat_of_nonneg (by omega)], by rw [Int.toNat_of_nonneg (by omega)],
      by exact_mod_cast hS⟩
  · have hS : ((computeBounds first rest).xMax - (computeBounds first rest).xMin
          + first._width_px).toNat *
        ((computeBounds first rest).yMax - (computeBounds first rest).yMin
          + first._height_px).toNat < 4294967296 := by
      have : (((computeBounds first rest).xMax - (computeBounds first rest).xMin
            + first._width_px).toNat *
          ((computeBounds first rest).yMax - (computeBounds first rest).yMin
            + first._height_px).toNat : Int) < 4294967296 := by
        rw [Int.toNat_of_nonneg (by omega), Int.toNat_of_nonneg (by omega)]
        exact f3
      exact_mod_cast this
    rw [mergeChunks_cons, eW, eH, Nat.mod_eq_of_lt hS]

/-- Visiting `chunk` children only collects them, in document order. -/
theorem processDataNodes_chunks (firstValue : List Char) (junk : Nat → Int)
    (chunks : List TmxChunk) :
    ∀ st : LoadState,
      processDataNodes firstValue junk (chunks.map DataNode.chunk) st
        = .ok ⟨st.layer, st.chunks ++ chunks⟩ := by
  induction chunks with
  | nil => intro st; simp [processDataNodes]
  | cons c chunks ih =>
    intro st
    simp only [List.map_cons, processDataNodes, processDataNode]
    rw [ih]
    simp

/-- A layer whose `data` element holds chunks only is deserialized into the merge of the chunks:
the statements on `mergeChunks` below are statements on `TmxLayer::deserialize`. -/
theorem deserialize_chunks (width height : Nat) (chunks : List TmxChunk) (junk : Nat → Int) :
    deserialize width height (chunks.map DataNode.chunk) junk
      = .ok (mergeChunks ⟨width % 4294967296, height % 4294967296, 0, 0, []⟩ chunks) := by
  simp only [deserialize, processDataNodes_chunks, List.nil_append]

/-- The two chunks of the example layer have the size 16x16, the x origins 0 and 16 and the y
origin -32. -/
theorem example_extrema :
    Uniform [exampleChunk0, exampleChunk1] 16 16 ∧
    IsMinX [exampleChunk0, exampleChunk1] 0 ∧ IsMaxX [exampleChunk0, exampleChunk1] 16 ∧
    IsMinY [exampleChunk0, exampleChunk1] (-32) ∧ IsMaxY [exampleChunk0, exampleChunk1] (-32) := by
  refine ⟨?_, ⟨⟨exampleChunk0, by simp, rfl⟩, ?_⟩, ⟨⟨exampleChunk1, by simp, rfl⟩, ?_⟩,
    ⟨⟨exampleChunk0, by simp, rfl⟩, ?_⟩, ⟨⟨exampleChunk0, by simp, rfl⟩, ?_⟩⟩ <;>
  · intro c hc
    simp only [List.mem_cons, List.mem_singleton, List.not_mem_nil, or_false] at hc
    rcases hc with rfl | rfl <;> first | exact ⟨rfl, rfl⟩ | decide

/-! ## Claims on the chunk merge -/

/-- C1, as stated, fails, for two reasons. Two 1x1 chunks with the same origin `(0,0)` holding
the tile ids `1` and `2`: the cell of the first chunk has value `1`, but the merged cell `(0,0)`
holds `2`, the value of the chunk copied last. And two disjoint 1x1 chunks at `(0,0)` and
`(65535,65535)`: the grid is 65536 x 65536, its number of cells `2^32` is 0 in `uint32_t`, and
the merged buffer has no cell for the tile of the first chunk. -/
theorem C1_cell_counterexample :
    ¬ (∀ (layer : TmxLayer) (chunks : List TmxChunk) (w h : Nat) (xMin yMin : Int),
        chunks ≠ [] → Uniform chunks w h → IsMinX chunks xMin → IsMinY chunks yMin →
        ∀ c ∈ chunks, ∀ (cx cy : Nat) (v : Int), cx < w → cy < h →
          c._data[cy * w + cx]? = some v →
          (mergeChunks layer chunks)._data[(c._y_px - yMin + cy).toNat
              * (mergeChunks layer chunks)._width_px + (c._x_px - xMin + cx).toNat]? = some v) ∧
    ¬ (∀ (layer : TmxLayer) (chunks : List TmxChunk) (w h : Nat) (xMin yMin : Int),
        chunks ≠ [] → Uniform chunks w h → chunks.Pairwise Apart →
        IsMinX chunks xMin → IsMinY chunks yMin →
        ∀ c ∈ chunks, ∀ (cx cy : Nat) (v : Int), cx < w → cy < h →
          c._data[cy * w + cx]? = some v →
          (mergeChunks layer chunks)._data[(c._y_px - yMin + cy).toNat
              * (mergeChunks layer chunks)._width_px + (c._x_px - xMin + cx).toNat]? = some v) := by
  constructor
  · intro hall
    have h := hall ⟨0, 0, 0, 0, []⟩ [⟨0, 0, 1, 1, [1]⟩, ⟨0, 0, 1, 1, [2]⟩] 1 1 0 0
      (by simp) (by simp [Uniform]) (by simp [IsMinX]) (by simp [IsMinY])
      ⟨0, 0, 1, 1, [1]⟩ (by simp) 0 0 1 (by decide) (by decide) (by decide)
    revert h
    decide
  · intro hall
    have hapart : [(⟨0, 0, 1, 1, [1]⟩ : TmxChunk), ⟨65535, 65535, 1, 1, [2]⟩].Pairwise Apart := by
      simp only [List.pairwise_cons, List.mem_singleton, forall_eq, List.not_mem_nil,
        IsEmpty.forall_iff, implies_true, List.Pairwise.nil, and_true]
      intro wx wy hboth
      simp only [Covers] at hboth
      omega
    have h := hall ⟨0, 0, 0, 0, []⟩ [⟨0, 0, 1, 1, [1]⟩, ⟨65535, 65535, 1, 1, [2]⟩] 1 1 0 0
      (by simp) (by simp [Uniform]) hapart (by simp [IsMinX]) (by simp [IsMinY])
      ⟨0, 0, 1, 1, [1]⟩ (by simp) 0 0 1 (by decide) (by decide) (by decide)
    revert h
    decide

/-- C1, amended: for a non-empty list of chunks of uniform size `w x h` whose grid, spanned by the
smallest and largest origins, has fewer than `2^32` cells (and a width and a height below
`2^32`), the cell `(cx, cy)` of a chunk `c` with value `v` is found, with the same value, in the
merged grid at column `c.x - min_x + cx` and row `c.y - min_y + cy` (both inside the grid,
row-major index `row * mergedWidth + column`), provided no chunk that comes after `c` in the list
covers the same cell. -/
theorem mergeChunks_cell (layer : TmxLayer) (pre post : List TmxChunk) (c : TmxChunk)
    (w h : Nat) (xMin xMax yMin yMax : Int)
    (huni : Uniform (pre ++ c :: post) w h)
    (hxMin : IsMinX (pre ++ c :: post) xMin) (hxMax : IsMaxX (pre ++ c :: post) xMax)
    (hyMin : IsMinY (pre ++ c :: post) yMin) (hyMax : IsMaxY (pre ++ c :: post) yMax)
    (hfit : Fits ⟨xMin, xMax, yMin, yMax⟩ w h)
    (cx cy : Nat) (v : Int) (hcx : cx < w) (hcy : cy < h)
    (hv : c._data[cy * w + cx]? = some v)
    (hlast : ∀ k ∈ post, ¬ Covers k (c._x_px + cx) (c._y_px + cy)) :
    0 ≤ c._x_px - xMin + cx ∧ 0 ≤ c._y_px - yMin + cy ∧
    (c._x_px - xMin + cx).toNat < (mergeChunks layer (pre ++ c :: post))._width_px ∧
    (c._y_px - yMin + cy).toNat < (mergeChunks layer (pre ++ c :: post))._height_px ∧
    (mergeChunks layer (pre ++ c :: post))._data[(c._y_px - yMin + cy).toNat
        * (mergeChunks layer (pre ++ c :: post))._width_px
        + (c._x_px - xMin + cx).toNat]? = some v := by
  obtain ⟨first, rest, hlist⟩ : ∃ first rest, pre ++ c :: post = first :: rest := by
    cases pre with
    | nil => exact ⟨c, post, rfl⟩
    | cons a l => exact ⟨a, l ++ c :: post, rfl⟩
  have hB := boundsOf_computeBounds first rest
  have hb := computeBounds_eq first rest ⟨xMin, xMax, yMin, yMax⟩
    (hlist ▸ ⟨hxMin, hxMax, hyMin, hyMax⟩)
  have hw : first._width_px = w := (huni first (by rw [hlist]; simp)).1
  have hh : first._height_px = h := (huni first (by rw [hlist]; simp)).2
  obtain ⟨W, H, hfr, hm⟩ := mergeChunks_fit layer first rest (by rw [hb, hw, hh]; exact hfit)
  rw [← hlist] at hB
  have hin := boundsOf_inBounds _ _ hB
  have hc : InBounds (computeBounds first rest) c := hin c (by simp)
  have hvr : readCell c._data (cy * w + cx) = v := by
    simp [readCell, List.getD, hv]
  rw [hlist, hm, ← hlist]
  simp only []
  rw [hw, hh] at hfr ⊢
  rw [hb] at hfr hin hc ⊢
  obtain ⟨a0, a1, a2, a3⟩ := layerIndex_inFrame _ _ _ _ _ hfr c hc cx cy hcx hcy
  simp only at a0 a1 a2 a3
  have hmain := foldl_mergeChunk_last _ _ _ _ _ hfr pre post c hin cx cy hcx hcy
    (c._x_px - xMin + cx).toNat (c._y_px - yMin + cy).toNat
    (by simp only; omega) (by simp only; omega)
    (by
      intro k hk hcov
      apply hlast k hk
      have := huni k (by simp [hk])
      unfold Covers
      rw [this.1, this.2]
      exact hcov)
    (List.replicate _ 0) (List.length_replicate _ _)
  rw [hvr] at hmain
  refine ⟨by omega, by omega, by omega, by omega, hmain⟩

/-- The example layer of tmxlayer.cpp: chunks at `(0,-32)` and `(16,-32)` of size 16x16. The tile
at local `(14,9)` of chunk 0 lands at merged `(14,9)`, the tile at local `(0,11)` of chunk 1 at
merged `(16,11)`. -/
theorem mergeChunks_cell_witness :
    (mergeChunks exampleLayer [exampleChunk0, exampleChunk1])._data[9
        * (mergeChunks exampleLayer [exampleChunk0, exampleChunk1])._width_px + 14]? = some 7226 ∧
    (mergeChunks exampleLayer [exampleChunk0, exampleChunk1])._data[11
        * (mergeChunks exampleLayer [exampleChunk0, exampleChunk1])._width_px + 16]? = some 7226 := by
  obtain ⟨huni, hx, hX, hy, hY⟩ := example_extrema
  constructor
  · exact (mergeChunks_cell exampleLayer [] [exampleChunk1] exampleChunk0 16 16 0 16 (-32) (-32)
      huni hx hX hy hY (by decide) 14 9 7226 (by decide) (by decide) (by rfl)
      (by
        intro k hk
        simp only [List.mem_singleton] at hk
        subst hk
        decide)).2.2.2.2
  · exact (mergeChunks_cell exampleLayer [exampleChunk0] [] exampleChunk1 16 16 0 16 (-32) (-32)
      huni hx hX hy hY (by decide) 0 11 7226 (by decide) (by decide) (by rfl)
      (by simp)).2.2.2.2

theorem writeCell_append (A B : List Int) (b v : Int) :
    writeCell (A ++ b :: B) ((A.length : Nat) : Int) v = A ++ v :: B := by
  unfold writeCell
  simp

/-- The token loop of a row whose tokens all parse: the values are stored from the running column
on, one cell per token. -/
theorem storeRow_ok (width y : Nat) :
    ∀ (toks : List (List Char)) (vs : List Int) (x : Nat) (A B : List Int),
      toks.map stoi = vs.map Except.ok → A.length = y * width + x → vs.length ≤ B.length →
      A.length + B.length ≤ 4294967296 →
      storeRow width y toks x (A ++ B) = .ok (A ++ vs ++ B.drop vs.length) := by
  intro toks
  induction toks with
  | nil =>
    intro vs x A B hmap _ _ _
    cases vs with
    | nil => simp [storeRow]
    | cons v vs => simp at hmap
  | cons tok toks ih =>
    intro vs x A B hmap hA hB hsz
    cases vs with
    | nil => simp at hmap
    | cons v vs =>
      simp only [List.map_cons, List.cons.injEq] at hmap
      obtain ⟨htok, hrest⟩ := hmap
      cases B with
      | nil => simp at hB
      | cons b B =>
        simp only [storeRow, htok]
        simp only [List.length_cons] at hsz
        rw [← hA, Nat.mod_eq_of_lt (by omega), writeCell_append]
        have := ih vs (x + 1) (A ++ [v]) B hrest (by simp [hA]; ring)
          (by simpa using hB) (by simp only [List.length_append, List.length_singleton]; omega)
        simpa using this

/-- The line loop over a text whose non-blank lines have `width` tokens each, all parsing: the
rows are stored one after the other from row `y` on. -/
theorem parseRows_ok (width : Nat) :
    ∀ (lines : List (List Char)) (vals : List (List Int)) (y : Nat) (A B : List Int),
      (((lines.map trim).filter (fun line => line ≠ [])).map (fun line => split line ',')).map
          (List.map stoi) = vals.map (List.map Except.ok) →
      (∀ r ∈ vals, r.length = width) → A.length = y * width →
      vals.length * width ≤ B.length → A.length + B.length ≤ 4294967296 →
      parseRows width lines y (A ++ B)
        = .ok (A ++ vals.flatten ++ B.drop (vals.length * width)) := by
  intro lines
  induction lines with
  | nil =>
    intro vals y A B hmap _ _ _ _
    cases vals with
    | nil => simp [parseRows]
    | cons v vs => simp at hmap
  | cons line lines ih =>
    intro vals y A B hmap hw hA hB hsz
    by_cases hblank : trim line = []
    · simp only [parseRows, hblank, if_true]
      apply ih vals y A B _ hw hA hB hsz
      simpa [List.filter_cons, hblank] using hmap
    · simp only [parseRows, hblank, if_false]
      simp only [List.map_cons, List.filter_cons, hblank, ne_eq, not_false_eq_true,
        decide_True, if_true] at hmap
      cases vals with
      | nil => simp at hmap
      | cons r vals =>
        simp only [List.map_cons, List.cons.injEq] at hmap
        obtain ⟨hrow, hrest⟩ := hmap
        have hr : r.length = width := hw r (by simp)
        have hB' : r.length ≤ B.length := by
          simp only [List.length_cons] at hB
          rw [hr]
          calc width ≤ (vals.length + 1) * width := Nat.le_mul_of_pos_left _ (by omega)
            _ ≤ B.length := hB
        rw [storeRow_ok width y _ r 0 A B hrow (by simpa using hA) hB' hsz]
        simp only []
        have := ih vals (y + 1) (A ++ r) (B.drop r.length) hrest
          (fun r' hr' => hw r' (by simp [hr'])) (by simp [hA, hr]; ring)
          (by
            simp only [List.length_cons] at hB
            rw [List.length_drop, hr]
            have : (vals.length + 1) * width = vals.length * width + width := by ring
            omega)
          (by
            rw [List.length_append, List.length_drop]
            omega)
        rw [this]
        simp only [List.flatten_cons, List.length_cons, List.drop_drop, List.append_assoc, hr]
        congr 3
        ring_nf

/-- Cell `(x, y)` of a grid stored row after row. -/
theorem getElem?_flatten_uniform (width : Nat) :
    ∀ (vals : List (List Int)) (y x : Nat) (r : List Int) (v : Int),
      (∀ r' ∈ vals, r'.length = width) → vals[y]? = some r → r[x]? = some v →
      vals.flatten[y * width + x]? = some v := by
  intro vals
  induction vals with
  | nil => intro y x r v _ h; simp at h
  | cons r0 vals ih =>
    intro y x r v hw hy hx
    have hr0 : r0.length = width := hw r0 (by simp)
    cases y with
    | zero =>
      simp only [List.getElem?_cons_zero, Option.some.injEq] at hy
      subst hy
      have hlt : x < r0.length := (List.getElem?_eq_some_iff.mp hx).1
      simp only [List.flatten_cons, Nat.zero_mul, Nat.zero_add]
      rw [List.getElem?_append_left hlt]
      exact hx
    | succ y =>
      simp only [List.getElem?_cons_succ] at hy
      have := ih y x r v (fun r' hr' => hw r' (by simp [hr'])) hy hx
      simp only [List.flatten_cons]
      rw [List.getElem?_append_right (by rw [hr0]; nlinarith)]
      have hidx : (y + 1) * width + x - r0.length = y * width + x := by
        rw [hr0, Nat.add_mul, Nat.one_mul]; omega
      rw [hidx]
      exact this

/-- Raw CSV data whose token grid parses to the grid of values `vals`: deserialization succeeds
and the buffer is `vals` stored row after row. -/
theorem deserialize_raw_values (width height : Nat) (body : List Char) (junk : Nat → Int)
    (vals : List (List Int)) (hheight : vals.length = height)
    (hwidth : ∀ r ∈ vals, r.length = width)
    (hw32 : width < 4294967296) (hh32 : height < 4294967296)
    (hcells : width * height < 4294967296)
    (htokens : (tokenRows body).map (List.map stoi) = vals.map (List.map Except.ok)) :
    deserialize width height [.other body] junk = .ok ⟨width, height, 0, 0, vals.flatten⟩ := by
  have hparse := parseRows_ok width (getlines body '\n') vals 0 []
    (allocate junk (width * height)) htokens hwidth (by simp)
    (by simp [allocate, hheight, Nat.mul_comm])
    (by simp only [allocate, List.length_nil, List.length_map, List.length_range]; omega)
  have hdrop : List.drop (vals.length * width) (allocate junk (width * height)) = [] := by
    apply List.drop_eq_nil_of_le
    simp [allocate, hheight, Nat.mul_comm]
  rw [hdrop] at hparse
  simp only [List.nil_append, List.append_nil] at hparse
  simp only [deserialize, processDataNodes, processDataNode, DataNode.Value,
    Nat.mod_eq_of_lt hw32, Nat.mod_eq_of_lt hh32, Nat.mod_eq_of_lt hcells, hparse, mergeChunks]

/-- An integer token (optional sign, then decimal digits only) whose value fits an `int` is
accepted by `std::stoi` with that value. -/
theorem stoi_integer (tok : List Char) (h : IsInteger tok)
    (hrange : ¬ ((if (stripSign tok).1 then -(digitsValue (stripSign tok).2 : Int)
        else (digitsValue (stripSign tok).2 : Int)) < -2147483648 ∨
      2147483647 < (if (stripSign tok).1 then -(digitsValue (stripSign tok).2 : Int)
        else (digitsValue (stripSign tok).2 : Int)))) :
    stoi tok = .ok (if (stripSign tok).1 then -(digitsValue (stripSign tok).2 : Int)
      else (digitsValue (stripSign tok).2 : Int)) := by
  obtain ⟨hne, hdig⟩ := h
  have hnospace : ∀ c : Char, isSpace c = true → c.isDigit = false := by
    intro c hc
    simp only [isSpace, Bool.or_eq_true, decide_eq_true_eq] at hc
    rcases hc with ((((rfl | rfl) | rfl) | rfl) | rfl) | rfl <;> decide
  have hdrop : tok.dropWhile isSpace = tok := by
    cases tok with
    | nil => rfl
    | cons c cs =>
      have : isSpace c = false := by
        by_cases hm : c = '-'
        · subst hm; decide
        · by_cases hp : c = '+'
          · subst hp; decide
          · have hs : stripSign (c :: cs) = (false, c :: cs) := by
              unfold stripSign
              split
              · rename_i heq; simp only [List.cons.injEq] at heq; exact absurd heq.1 hm
              · rename_i heq; simp only [List.cons.injEq] at heq; exact absurd heq.1 hp
              · rfl
            have hc : c.isDigit = true := hdig c (by rw [hs]; simp)
            cases hsp : isSpace c with
            | false => rfl
            | true => rw [hnospace c hsp] at hc; cases hc
      simp [List.dropWhile, this]
  have htake : (stripSign tok).2.takeWhile Char.isDigit = (stripSign tok).2 := by
    rw [List.takeWhile_eq_self_iff]
    exact hdig
  unfold stoi
  simp only [hdrop, htake, hne, if_false]
  rw [if_neg hrange]

/-- The buffer keeps its length while a row is stored. -/
theorem length_storeRow (width y : Nat) :
    ∀ (toks : List (List Char)) (x : Nat) (data data1 : List Int),
      storeRow width y toks x data = .ok data1 → data1.length = data.length := by
  intro toks
  induction toks with
  | nil =>
    intro x data data1 h
    simp only [storeRow, Except.ok.injEq] at h
    rw [← h]
  | cons tok toks ih =>
    intro x data data1 h
    cases htok : stoi tok with
    | error e => simp [storeRow, htok] at h
    | ok v =>
      simp only [storeRow, htok] at h
      rw [ih _ _ _ h, length_writeCell]

/-- The buffer keeps its length while the rows are parsed. -/
theorem length_parseRows (width : Nat) :
    ∀ (lines : List (List Char)) (y : Nat) (data data1 : List Int),
      parseRows width lines y data = .ok data1 → data1.length = data.length := by
  intro lines
  induction lines with
  | nil =>
    intro y data data1 h
    simp only [parseRows, Except.ok.injEq] at h
    rw [← h]
  | cons line lines ih =>
    intro y data data1 h
    by_cases hblank : trim line = []
    · simp only [parseRows, hblank, if_true] at h
      exact ih _ _ _ h
    · simp only [parseRows, hblank, if_false] at h
      cases hrow : storeRow width y (split (trim line) ',') 0 data with
      | error e => simp [hrow] at h
      | ok data2 =>
        simp only [hrow] at h
        rw [ih _ _ _ h, length_storeRow _ _ _ _ _ _ hrow]

/-- The buffer of a deserialized raw layer has the number of cells line 76 allocates: the
`uint32_t` product of the width and the height. -/
theorem length_deserialize_raw (width height : Nat) (body : List Char) (junk : Nat → Int)
    (layer : TmxLayer) (h : deserialize width height [.other body] junk = .ok layer) :
    layer._data.length = width % 4294967296 * (height % 4294967296) % 4294967296 := by
  cases hp : parseRows (width % 4294967296) (getlines body '\n') 0
      (allocate junk (width % 4294967296 * (height % 4294967296) % 4294967296)) with
  | error e =>
    have hd : deserialize width height [.other body] junk = .error e := by
      unfold deserialize processDataNodes processDataNode
      simp only [DataNode.Value]
      rw [hp]
    rw [hd] at h
    cases h
  | ok data =>
    have hd : deserialize width height [.other body] junk
        = .ok ⟨width % 4294967296, height % 4294967296, 0, 0, data⟩ := by
      unfold deserialize processDataNodes processDataNode
      simp only [DataNode.Value]
      rw [hp]
      rfl
    rw [hd] at h
    cases h
    simp only []
    rw [length_parseRows _ _ _ _ _ hp]
    simp only [allocate, List.length_map, List.length_range]

/-- A piece without the delimiter, followed by the delimiter, is cut off by `getline`. -/
theorem getlineLoop_piece (delim : Char) (piece : List Char) (hfree : delim ∉ piece) :
    ∀ (rest cur : List Char),
      getlineLoop delim (piece ++ delim :: rest) cur
        = (cur.reverse ++ piece) :: getlineLoop delim rest [] := by
  induction piece with
  | nil =>
    intro rest cur
    simp [getlineLoop]
  | cons c piece ih =>
    intro rest cur
    have hc : c ≠ delim := fun e => hfree (by simp [e])
    have hfree1 : delim ∉ piece := fun hm => hfree (by simp [hm])
    rw [List.cons_append]
    show (if c = delim then cur.reverse :: getlineLoop delim (piece ++ delim :: rest) []
      else getlineLoop delim (piece ++ delim :: rest) (c :: cur)) = _
    rw [if_neg hc, ih hfree1]
    simp

/-- Pieces without the delimiter, each followed by the delimiter, are cut apart by `getline`. -/
theorem getlineLoop_pieces (delim : Char) (pieces : List (List Char))
    (hfree : ∀ piece ∈ pieces, delim ∉ piece) :
    getlineLoop delim (pieces.map (fun piece => piece ++ [delim])).flatten [] = pieces := by
  induction pieces with
  | nil => simp [getlineLoop]
  | cons piece pieces ih =>
    simp only [List.map_cons, List.flatten_cons, List.append_assoc, List.singleton_append]
    rw [getlineLoop_piece delim piece (hfree piece (by simp)),
      ih (fun p hp => hfree p (by simp [hp]))]
    simp

/-- A line that neither starts nor ends with white space is left as it is by `trim`. -/
theorem trim_eq (a z : Char) (middle : List Char) (ha : isSpace a = false)
    (hz : isSpace z = false) : trim (a :: (middle ++ [z])) = a :: (middle ++ [z]) := by
  unfold trim
  have h1 : (a :: (middle ++ [z])).dropWhile isSpace = a :: (middle ++ [z]) := by
    simp [List.dropWhile, ha]
  rw [h1]
  have h2 : (a :: (middle ++ [z])).reverse = z :: (middle.reverse ++ [a]) := by simp
  rw [h2]
  have h3 : (z :: (middle.reverse ++ [a])).dropWhile isSpace = z :: (middle.reverse ++ [a]) := by
    simp [List.dropWhile, hz]
  rw [h3]
  simp

/-- The row of `width + 1` tokens `0`, each followed by a comma, starts with `0` and ends with a
comma. -/
theorem zeroRow_ends (width : Nat) :
    ∃ middle : List Char,
      ((List.replicate (width + 1) ['0']).map (fun tok => tok ++ [','])).flatten
        = '0' :: (middle ++ [',']) := by
  induction width with
  | zero => exact ⟨[], rfl⟩
  | succ n ih =>
    obtain ⟨middle, hm⟩ := ih
    refine ⟨',' :: '0' :: middle, ?_⟩
    rw [List.replicate_succ, List.map_cons, List.flatten_cons, hm]
    rfl

/-- The tokens of the body of `height` lines of `width + 1` tokens `0`. -/
theorem tokenRows_zeroBody (width height : Nat) :
    tokenRows (zeroBody (width + 1) height)
      = List.replicate height (List.replicate (width + 1) ['0']) := by
  obtain ⟨middle, hm⟩ := zeroRow_ends width
  have hfree : ∀ piece ∈ List.replicate height
      ((List.replicate (width + 1) ['0']).map (fun tok => tok ++ [','])).flatten,
      '\n' ∉ piece := by
    intro piece hp
    rw [(List.mem_replicate.mp hp).2]
    intro hmem
    obtain ⟨l, hl, hin⟩ := List.mem_flatten.mp hmem
    obtain ⟨tok, htok, rfl⟩ := List.mem_map.mp hl
    rw [(List.mem_replicate.mp htok).2] at hin
    revert hin
    decide
  have hsplit : split ((List.replicate (width + 1) ['0']).map
      (fun tok => tok ++ [','])).flatten ',' = List.replicate (width + 1) ['0'] := by
    unfold split
    apply getlineLoop_pieces
    intro piece hp
    rw [(List.mem_replicate.mp hp).2]
    decide
  unfold tokenRows zeroBody getlines
  rw [getlineLoop_pieces '\n' _ hfree, List.map_replicate, hm,
    trim_eq '0' ',' middle (by decide) (by decide), List.filter_replicate]
  simp only [ne_eq, reduceCtorEq, not_false_eq_true, decide_True, if_true, List.map_replicate]
  rw [← hm, hsplit]

/-- C6, as stated, fails, for two reasons. The bodies `007,+5` and `7,5` of integer tokens are
deserialized into the same grid, with the cells 7 and 5: no re-serialization of the grid gives
back the tokens of both. And the body of 65536 lines of 65536 tokens `0`: the number of cells
allocated in line 76, the `uint32_t` product `65536 * 65536`, is 0, and the value of the first
token is not found at `data[0]`. -/
theorem C6_roundtrip_counterexample :
    ¬ (∃ reserialize : TmxLayer → List (List Char),
        ∀ (width height : Nat) (body : List Char) (junk : Nat → Int),
          (tokenRows body).length = height → (∀ row ∈ tokenRows body, row.length = width) →
          (∀ row ∈ tokenRows body, ∀ tok ∈ row, IsInteger tok) →
          ∃ layer : TmxLayer, deserialize width height [.other body] junk = .ok layer ∧
            reserialize layer = (tokenRows body).flatten.map stripSpace) ∧
    ¬ (∀ (width height : Nat) (body : List Char) (junk : Nat → Int),
        (tokenRows body).length = height → (∀ row ∈ tokenRows body, row.length = width) →
        (∀ row ∈ tokenRows body, ∀ tok ∈ row, IsInteger tok) →
        ∃ layer : TmxLayer, deserialize width height [.other body] junk = .ok layer ∧
          ∀ (y x : Nat) (row : List (List Char)) (tok : List Char),
            (tokenRows body)[y]? = some row → row[x]? = some tok →
            ∃ v, stoi tok = .ok v ∧ layer._data[y * width + x]? = some v) := by
  constructor
  · rintro ⟨reserialize, hall⟩
    obtain ⟨layer1, h1, r1⟩ := hall 2 1 "007,+5".toList (fun _ => 0) (by decide) (by decide)
      (by decide)
    obtain ⟨layer2, h2, r2⟩ := hall 2 1 "7,5".toList (fun _ => 0) (by decide) (by decide)
      (by decide)
    have e1 : deserialize 2 1 [.other "007,+5".toList] (fun _ => 0) = .ok ⟨2, 1, 0, 0, [7, 5]⟩ := by
      rfl
    have e2 : deserialize 2 1 [.other "7,5".toList] (fun _ => 0) = .ok ⟨2, 1, 0, 0, [7, 5]⟩ := by
      rfl
    rw [e1] at h1
    rw [e2] at h2
    cases h1
    cases h2
    rw [r1] at r2
    revert r2
    decide
  · intro hall
    have hrows := tokenRows_zeroBody 65535 65536
    obtain ⟨layer, hl, hcell⟩ := hall 65536 65536 (zeroBody 65536 65536) (fun _ => 0)
      (by rw [hrows, List.length_replicate])
      (by
        intro row hrow
        rw [hrows] at hrow
        rw [(List.mem_replicate.mp hrow).2, List.length_replicate])
      (by
        intro row hrow tok htok
        rw [hrows] at hrow
        rw [(List.mem_replicate.mp hrow).2] at htok
        rw [(List.mem_replicate.mp htok).2]
        decide)
    obtain ⟨v, _, hv⟩ := hcell 0 0 (List.replicate 65536 ['0']) ['0']
      (by
        rw [hrows, List.getElem?_replicate]
        rfl)
      (by
        rw [List.getElem?_replicate]
        rfl)
    have hlen := length_deserialize_raw 65536 65536 _ _ layer hl
    have hzero : layer._data.length = 0 := by
      rw [hlen]
    have hnone : layer._data[0 * 65536 + 0]? = none :=
      List.getElem?_eq_none (Nat.le_of_eq hzero)
    rw [hnone] at hv
    cases hv

/-- C6, amended: for a layer without chunks whose width, height and number of cells
`width * height` are below `2^32`, and whose raw CSV body has exactly `height` non-blank lines
of exactly `width` tokens each, all of them integers (tokens `std::stoi` accepts),
deserialization succeeds, stores the value of token `x` of line `y` at `data[y * width + x]`,
leaves the offset at `(0,0)`, and the grid read row-major is the sequence of the token values in
input order. Re-serializing the grid row-major, each cell in decimal notation, reproduces the
input token sequence (ignoring white space) when every token is the decimal notation of its
value: no plus sign, no leading zero, no character after the digits. -/
theorem deserialize_raw (width height : Nat) (body : List Char) (junk : Nat → Int)
    (hw32 : width < 4294967296) (hh32 : height < 4294967296)
    (hcells : width * height < 4294967296)
    (hheight : (tokenRows body).length = height)
    (hwidth : ∀ row ∈ tokenRows body, row.length = width)
    (hint : ∀ row ∈ tokenRows body, ∀ tok ∈ row, ∃ v, stoi tok = .ok v) :
    ∃ layer : TmxLayer, deserialize width height [.other body] junk = .ok layer ∧
      layer._width_px = width ∧ layer._height_px = height ∧
      layer._offset_x_px = 0 ∧ layer._offset_y_px = 0 ∧
      (∀ (y x : Nat) (row : List (List Char)) (tok : List Char),
        (tokenRows body)[y]? = some row → row[x]? = some tok →
        ∃ v, stoi tok = .ok v ∧ layer._data[y * width + x]? = some v) ∧
      layer._data.map Except.ok = (tokenRows body).flatten.map stoi ∧
      ((∀ row ∈ tokenRows body, ∀ tok ∈ row, ∀ v, stoi tok = .ok v → decimal v = stripSpace tok) →
        reserialize layer = (tokenRows body).flatten.map stripSpace) := by
  have hval : ∀ row ∈ tokenRows body, ∀ tok ∈ row,
      stoi tok = .ok ((stoi tok).toOption.getD 0) := by
    intro row hrow tok htok
    obtain ⟨v, hv⟩ := hint row hrow tok htok
    rw [hv]; rfl
  have htokens : (tokenRows body).map (List.map stoi)
      = ((tokenRows body).map (List.map (fun tok => (stoi tok).toOption.getD 0))).map
          (List.map Except.ok) := by
    rw [List.map_map]
    apply List.map_congr_left
    intro row hrow
    simp only [Function.comp, List.map_map]
    apply List.map_congr_left
    intro tok htok
    exact hval row hrow tok htok
  have hmain := deserialize_raw_values width height body junk
    ((tokenRows body).map (List.map (fun tok => (stoi tok).toOption.getD 0)))
    (by simpa using hheight)
    (by
      intro r hr
      obtain ⟨row, hrow, rfl⟩ := List.mem_map.mp hr
      simpa using hwidth row hrow)
    hw32 hh32 hcells htokens
  refine ⟨_, hmain, rfl, rfl, rfl, rfl, ?_, ?_, ?_⟩
  · intro y x row tok hy hx
    have hrow : row ∈ tokenRows body := by
      obtain ⟨hlt, heq⟩ := List.getElem?_eq_some_iff.mp hy
      exact heq ▸ List.getElem_mem hlt
    have htok : tok ∈ row := by
      obtain ⟨hlt, heq⟩ := List.getElem?_eq_some_iff.mp hx
      exact heq ▸ List.getElem_mem hlt
    refine ⟨_, hval row hrow tok htok, ?_⟩
    apply getElem?_flatten_uniform width _ y x (row.map (fun tok => (stoi tok).toOption.getD 0))
    · intro r hr
      obtain ⟨row1, hrow1, rfl⟩ := List.mem_map.mp hr
      simpa using hwidth row1 hrow1
    · simp [hy]
    · simp [hx]
  · simp only []
    rw [← List.map_flatten, List.map_map]
    apply List.map_congr_left
    intro tok htok
    obtain ⟨row, hrow, htok1⟩ := List.mem_flatten.mp htok
    exact (hval row hrow tok htok1).symm
  · intro hcanon
    simp only [reserialize]
    rw [← List.map_flatten, List.map_map]
    apply List.map_congr_left
    intro tok htok
    obtain ⟨row, hrow, htok1⟩ := List.mem_flatten.mp htok
    exact hcanon row hrow tok htok1 _ (hval row hrow tok htok1)

/-- A body of two lines of three integer tokens, with a trailing comma, white space and a blank
line: the grid holds the six values, and its re-serialization gives back the tokens `1`, `2`,
`3`, `4`, `-5` and `6`. -/
theorem deserialize_raw_witness :
    ∃ layer : TmxLayer,
      deserialize 3 2 [.other "1,2,3,\n 4, -5,6\n\n".toList] (fun _ => 99) = .ok layer ∧
      layer._width_px = 3 ∧ layer._height_px = 2 ∧
      layer._offset_x_px = 0 ∧ layer._offset_y_px = 0 ∧
      (∀ (y x : Nat) (row : List (List Char)) (tok : List Char),
        (tokenRows "1,2,3,\n 4, -5,6\n\n".toList)[y]? = some row → row[x]? = some tok →
        ∃ v, stoi tok = .ok v ∧ layer._data[y * 3 + x]? = some v) ∧
      layer._data.map Except.ok = (tokenRows "1,2,3,\n 4, -5,6\n\n".toList).flatten.map stoi ∧
      reserialize layer = ["1".toList, "2".toList, "3".toList, "4".toList, "-5".toList,
        "6".toList] := by
  have hrows : tokenRows "1,2,3,\n 4, -5,6\n\n".toList
      = [["1".toList, "2".toList, "3".toList], ["4".toList, " -5".toList, "6".toList]] := by
    decide
  obtain ⟨layer, h1, h2, h3, h4, h5, h6, h7, h8⟩ :=
    deserialize_raw 3 2 "1,2,3,\n 4, -5,6\n\n".toList (fun _ => 99) (by decide) (by decide)
      (by decide) (by decide) (by decide)
      (by
        intro row hrow tok htok
        rw [hrows] at hrow
        simp only [List.mem_cons, List.mem_singleton, List.not_mem_nil, or_false] at hrow
        rcases hrow with rfl | rfl <;>
          simp only [List.mem_cons, List.mem_singleton, List.not_mem_nil, or_false] at htok <;>
          rcases htok with rfl | rfl | rfl <;> exact ⟨_, rfl⟩)
  refine ⟨layer, h1, h2, h3, h4, h5, h6, h7, ?_⟩
  rw [h8]
  · rw [hrows]
    decide
  · intro row hrow tok htok v hv
    rw [hrows] at hrow
    simp only [List.mem_cons, List.mem_singleton, List.not_mem_nil, or_false] at hrow
    rcases hrow with rfl | rfl <;>
      simp only [List.mem_cons, List.mem_singleton, List.not_mem_nil, or_false] at htok <;>
      rcases htok with rfl | rfl | rfl <;>
      · have hs : stoi _ = .ok v := hv
        cases hs
        decide

/-- A token that, after leading white space and an optional sign, does not start with a decimal
digit is rejected by `std::stoi`. -/
theorem stoi_rejects (tok : List Char)
    (h : (stripSign (tok.dropWhile isSpace)).2.takeWhile Char.isDigit = []) :
    stoi tok = .error .invalid_argument := by
  simp [stoi, h]

end Tmx

namespace Game
open ObjectType

/-! ## Counter accounting -/

theorem weight_eq (ctr : Counter) (k : ContactKind) :
    weight ctr k = sideWeight ctr k .A + sideWeight ctr k .B := rfl

theorem kindOf_setNode (c : Contact) (side : Side) (node node1 : FixtureNode)
    (h : (c.fixture side).userData = some node) (ht : node1.type = node.type)
    (hp : node1.parentIsPlayer = node.parentIsPlayer) :
    kindOf (c.setNode side node1) = kindOf c := by
  cases side <;>
    simp_all [kindOf, Contact.setNode, Contact.fixture, isPlayer]

theorem kindOf_SetEnabled (c : Contact) (flag : Bool) : kindOf (c.SetEnabled flag) = kindOf c :=
  rfl

/-- One switch of `BeginContact` adds to each counter the weight of its side and leaves the kind
of the contact as it is. -/
theorem beginSide_count (side : Side) (st st1 : BeginState) (h : beginSide side st = .ok st1) :
    kindOf st1.contact = kindOf st.contact ∧
    ∀ ctr, st1.world.listener.count ctr
      = st.world.listener.count ctr + sideWeight ctr (kindOf st.contact) side := by
  unfold beginSide at h
  cases hnode : (st.contact.fixture side).userData with
  | none =>
    rw [hnode] at h
    simp only [Except.ok.injEq] at h
    subst h
    refine ⟨rfl, ?_⟩
    intro ctr
    cases side <;> cases ctr <;>
      simp_all [sideWeight, kindOf, sideCounts, Contact.fixture]
  | some node =>
    rw [hnode] at h
    simp only [] at h
    have hA : ∀ c : Contact, c.fixture .A = c.fixtureA := fun _ => rfl
    have hB : ∀ c : Contact, c.fixture .B = c.fixtureB := fun _ => rfl
    cases htype : node.type <;>
      simp only [beginSwitch, htype] at h <;>
      (repeat' split at h) <;>
      cases h <;>
      refine ⟨?_, ?_⟩ <;>
      first
        | rfl
        | exact kindOf_setNode _ _ _ _ hnode (by simp [htype]) rfl
        | (intro ctr
           cases side <;> cases ctr <;>
             simp_all [sideWeight, kindOf, sideCounts, Contact.fixture, Side.other,
               GameContactListener.count])

/-- One switch of `EndContact` takes from each counter the weight of its side and leaves the
kind of the contact as it is. -/
theorem endSide_count (side : Side) (l : GameContactListener) (c : Contact) :
    kindOf (endSide side l c).2 = kindOf c ∧
    ∀ ctr, (endSide side l c).1.count ctr = l.count ctr - sideWeight ctr (kindOf c) side := by
  unfold endSide
  cases hnode : (c.fixture side).userData with
  | none =>
    refine ⟨rfl, ?_⟩
    intro ctr
    cases side <;> cases ctr <;>
      simp_all [sideWeight, kindOf, sideCounts, Contact.fixture]
  | some node =>
    simp only []
    cases htype : node.type <;>
      simp only [endSwitch, htype] <;>
      (repeat' split) <;>
      refine ⟨?_, ?_⟩ <;>
      first
        | rfl
        | trivial
        | (intro ctr
           cases side <;> cases ctr <;>
             simp_all [sideWeight, kindOf, sideCounts, Contact.fixture, Side.other,
               GameContactListener.count])

theorem fixtures_headCheck (c c1 : Contact) (player : Option Side)
    (h : headCheck c player = .ok c1) :
    c1.fixtureA = c.fixtureA ∧ c1.fixtureB = c.fixtureB := by
  unfold headCheck at h
  repeat' split at h
  all_goals cases h
  all_goals exact ⟨rfl, rfl⟩

theorem fixtures_velocityCheck (c c1 : Contact) (player platform : Option Side)
    (h : velocityCheck c player platform = .ok c1) :
    c1.fixtureA = c.fixtureA ∧ c1.fixtureB = c.fixtureB := by
  unfold velocityCheck at h
  repeat' split at h
  all_goals cases h
  all_goals exact ⟨rfl, rfl⟩

theorem fixtures_processOneSidedWalls (c c1 : Contact) (player platform : Option Side)
    (h : processOneSidedWalls c player platform = .ok c1) :
    c1.fixtureA = c.fixtureA ∧ c1.fixtureB = c.fixtureB := by
  unfold processOneSidedWalls at h
  cases h1 : headCheck c player with
  | error e => rw [h1] at h; cases h
  | ok c2 =>
    rw [h1] at h
    obtain ⟨a1, b1⟩ := fixtures_headCheck c c2 player h1
    obtain ⟨a2, b2⟩ := fixtures_velocityCheck c2 c1 player platform h
    exact ⟨a2.trans a1, b2.trans b1⟩

theorem kindOf_congr (c c1 : Contact) (hA : c1.fixtureA = c.fixtureA)
    (hB : c1.fixtureB = c.fixtureB) : kindOf c1 = kindOf c := by
  simp [kindOf, hA, hB]

/-- The callback `BeginContact` adds to each counter the weight of the contact and leaves the kind of the
contact as it is. -/
theorem BeginContact_count (w : World) (c : Contact) (r : World × Contact)
    (h : BeginContact w c = .ok r) :
    kindOf r.2 = kindOf c ∧
    ∀ ctr, r.1.listener.count ctr = w.listener.count ctr + weight ctr (kindOf c) := by
  unfold BeginContact at h
  cases h1 : beginSide .A ⟨w, c, none, none⟩ with
  | error e => rw [h1] at h; cases h
  | ok st1 =>
    rw [h1] at h
    simp only [] at h
    cases h2 : beginSide .B st1 with
    | error e => rw [h2] at h; cases h
    | ok st2 =>
      rw [h2] at h
      simp only [] at h
      cases h3 : processOneSidedWalls st2.contact st2.playerFixture st2.platformFixture with
      | error e => rw [h3] at h; cases h
      | ok c1 =>
        rw [h3] at h
        cases h
        obtain ⟨k1, n1⟩ := beginSide_count .A _ _ h1
        obtain ⟨k2, n2⟩ := beginSide_count .B _ _ h2
        obtain ⟨fa, fb⟩ := fixtures_processOneSidedWalls _ _ _ _ h3
        simp only [] at k1 n1
        refine ⟨?_, ?_⟩
        · rw [kindOf_congr _ _ fa fb, k2, k1]
        · intro ctr
          rw [n2 ctr, n1 ctr, k1, weight_eq]
          push_cast
          ring

/-- The callback `EndContact` takes from each counter the weight of the contact and leaves the kind of the
contact as it is. -/
theorem EndContact_count (w : World) (c : Contact) :
    kindOf (EndContact w c).2 = kindOf c ∧
    ∀ ctr, (EndContact w c).1.listener.count ctr
      = w.listener.count ctr - weight ctr (kindOf c) := by
  obtain ⟨k1, n1⟩ := endSide_count .A w.listener c
  obtain ⟨k2, n2⟩ := endSide_count .B (endSide .A w.listener c).1 (endSide .A w.listener c).2
  refine ⟨?_, ?_⟩
  · simp only [EndContact]
    rw [k2, k1]
  · intro ctr
    simp only [EndContact]
    rw [n2 ctr, n1 ctr, k1, weight_eq]
    push_cast
    ring

/-! ## Event sequences -/

theorem run_append (w : World) (pre post : List Event) :
    run w (pre ++ post) =
      match run w pre with
      | .error e => .error e
      | .ok w1 => run w1 post := by
  induction pre generalizing w with
  | nil => simp [run]
  | cons ev pre ih =>
    simp only [List.cons_append, run]
    cases handle w ev with
    | error e => rfl
    | ok w1 => exact ih w1

theorem openAfter_append (opened : List ContactKind) (pre post : List Event) :
    openAfter opened (pre ++ post) =
      match openAfter opened pre with
      | none => none
      | some opened1 => openAfter opened1 post := by
  induction pre generalizing opened with
  | nil => simp [openAfter]
  | cons ev pre ih =>
    simp only [List.cons_append, openAfter]
    cases openStep opened ev with
    | none => rfl
    | some opened1 => exact ih opened1

theorem openSides_cons (ctr : Counter) (k : ContactKind) (opened : List ContactKind) :
    openSides ctr (k :: opened) = weight ctr k + openSides ctr opened := by
  simp [openSides]

theorem openSides_erase (ctr : Counter) (k : ContactKind) (opened : List ContactKind)
    (h : k ∈ opened) : weight ctr k + openSides ctr (opened.erase k) = openSides ctr opened := by
  unfold openSides
  exact List.sum_map_erase (weight ctr) h

/-- The accounting invariant: along a paired event sequence processed without a fault, each
counter keeps being the number of sides of open contacts that count towards it. -/
theorem run_tracks (evs : List Event) :
    ∀ (w wEnd : World) (opened openedEnd : List ContactKind),
      (∀ ctr, w.listener.count ctr = openSides ctr opened) →
      openAfter opened evs = some openedEnd → run w evs = .ok wEnd →
      ∀ ctr, wEnd.listener.count ctr = openSides ctr openedEnd := by
  induction evs with
  | nil =>
    intro w wEnd opened openedEnd hinv hopen hrun
    simp only [openAfter, Option.some.injEq] at hopen
    simp only [run, Except.ok.injEq] at hrun
    subst hopen; subst hrun
    exact hinv
  | cons ev evs ih =>
    intro w wEnd opened openedEnd hinv hopen hrun
    simp only [openAfter] at hopen
    simp only [run] at hrun
    cases hstep : openStep opened ev with
    | none => rw [hstep] at hopen; cases hopen
    | some opened1 =>
      rw [hstep] at hopen
      cases hh : handle w ev with
      | error e => rw [hh] at hrun; cases hrun
      | ok w1 =>
        rw [hh] at hrun
        refine ih w1 wEnd opened1 openedEnd ?_ hopen hrun
        intro ctr
        cases ev with
        | begin c =>
          simp only [openStep, Option.some.injEq] at hstep
          subst hstep
          simp only [handle] at hh
          cases hb : BeginContact w c with
          | error e => rw [hb] at hh; cases hh
          | ok r =>
            rw [hb] at hh
            simp only [Except.ok.injEq] at hh
            subst hh
            rw [(BeginContact_count w c r hb).2 ctr, hinv ctr, openSides_cons]
            push_cast
            ring
        | finish c =>
          simp only [openStep] at hstep
          split at hstep
          · rename_i hmem
            simp only [Option.some.injEq] at hstep
            subst hstep
            simp only [handle, Except.ok.injEq] at hh
            subst hh
            rw [(EndContact_count w c).2 ctr, hinv ctr, ← openSides_erase ctr _ _ hmem]
            push_cast
            ring
          · cases hstep

/-- The contact after one switch of `EndContact`: enabled if the fixture of the side is one
sided, otherwise as before. -/
theorem endSide_contact (side : Side) (l : GameContactListener) (c : Contact) :
    (endSide side l c).2 =
      match (c.fixture side).userData with
      | some node => if node.type = ObjectTypeSolidOneSided then c.SetEnabled true else c
      | none => c := by
  unfold endSide
  cases hnode : (c.fixture side).userData with
  | none => rfl
  | some node =>
    simp only []
    cases htype : node.type <;>
      simp only [endSwitch, htype] <;>
      (repeat' split) <;> simp_all

/-- The callback `EndContact` of a contact with a one sided fixture leaves the contact enabled. -/
theorem EndContact_enables (w : World) (c : Contact) (side : Side)
    (h : (c.fixture side).hasType ObjectTypeSolidOneSided) : (EndContact w c).2.enabled = true := by
  obtain ⟨node, hnode, htype⟩ := h
  simp only [EndContact]
  rw [endSide_contact .B, endSide_contact .A]
  cases side with
  | A =>
    have hA : (c.fixture .A).userData = some node := hnode
    simp only [hA, htype, if_true]
    have hfix : (c.SetEnabled true).fixture .B = c.fixture .B := rfl
    rw [hfix]
    cases hB : (c.fixture .B).userData with
    | none => rfl
    | some nodeB =>
      simp only []
      split <;> rfl
  | B =>
    have hB : (c.fixture .B).userData = some node := hnode
    cases hA : (c.fixture .A).userData with
    | none =>
      simp only [hB, htype, if_true]
      rfl
    | some nodeA =>
      simp only []
      by_cases hAt : nodeA.type = ObjectTypeSolidOneSided
      · simp only [hAt, if_true]
        have hfix : (c.SetEnabled true).fixture .B = c.fixture .B := rfl
        rw [hfix, hB]
        simp only [htype, if_true]
        rfl
      · simp only [hAt, if_false, hB, htype, if_true]
        rfl

/-! ## Completion of the callbacks -/

/-- One switch of `BeginContact` on a well tagged contact completes, leaves the contact well
tagged, and a platform fixture is never recorded without a player fixture. -/
theorem beginSide_completes (side : Side) (st : BeginState) (hc : st.contact.wellTagged)
    (hp : st.platformFixture.isSome = true → st.playerFixture.isSome = true) :
    ∃ st1, beginSide side st = .ok st1 ∧ st1.contact.wellTagged ∧
      (st1.platformFixture.isSome = true → st1.playerFixture.isSome = true) := by
  obtain ⟨a, b, hA, hB, ha, hb⟩ := hc
  obtain ⟨ha1, ha2, ha3⟩ := ha
  obtain ⟨hb1, hb2, hb3⟩ := hb
  cases side with
  | A =>
    simp only [beginSide, Contact.fixture, hA]
    cases hta : a.type <;> simp only [beginSwitch, hta, Contact.fixture, Side.other]
    case ObjectTypeProjectile =>
      obtain ⟨hd, hpr⟩ := ha1 hta
      obtain ⟨d, hd⟩ := Option.isSome_iff_exists.mp hd
      obtain ⟨pr, hpr⟩ := Option.isSome_iff_exists.mp hpr
      simp only [hd, hpr]
      refine ⟨_, rfl, ?_, hp⟩
      cases hs : pr.sticky
      · simp only [Bool.not_false, if_true]
        exact ⟨_, b, rfl, hB, ⟨fun _ => ⟨by simp, by simp⟩, fun h => by simp at h,
          fun h => by simp at h⟩, hb1, hb2, hb3⟩
      · simp only [Bool.not_true, Bool.false_eq_true, if_false]
        exact ⟨a, b, hA, hB, ⟨ha1, ha2, ha3⟩, hb1, hb2, hb3⟩
    case ObjectTypeBouncer =>
      simp only [ha2 hta, if_true]
      exact ⟨_, rfl, ⟨a, b, hA, hB, ⟨ha1, ha2, ha3⟩, hb1, hb2, hb3⟩, hp⟩
    case ObjectTypeEnemy =>
      obtain ⟨d, hd⟩ := Option.isSome_iff_exists.mp (ha3 hta)
      simp only [hd]
      split <;> exact ⟨_, rfl, ⟨a, b, hA, hB, ⟨ha1, ha2, ha3⟩, hb1, hb2, hb3⟩, hp⟩
    case ObjectTypeSolidOneSided =>
      exact ⟨_, rfl, ⟨a, b, hA, hB, ⟨ha1, ha2, ha3⟩, hb1, hb2, hb3⟩, fun _ => rfl⟩
    all_goals
      first
        | exact ⟨_, rfl, ⟨a, b, hA, hB, ⟨ha1, ha2, ha3⟩, hb1, hb2, hb3⟩, hp⟩
        | (split <;> exact ⟨_, rfl, ⟨a, b, hA, hB, ⟨ha1, ha2, ha3⟩, hb1, hb2, hb3⟩, hp⟩)
  | B =>
    simp only [beginSide, Contact.fixture, hB]
    cases htb : b.type <;> simp only [beginSwitch, htb, Contact.fixture, Side.other]
    case ObjectTypeProjectile =>
      obtain ⟨hd, hpr⟩ := hb1 htb
      obtain ⟨d, hd⟩ := Option.isSome_iff_exists.mp hd
      obtain ⟨pr, hpr⟩ := Option.isSome_iff_exists.mp hpr
      simp only [hd, hpr]
      refine ⟨_, rfl, ?_, hp⟩
      cases hs : pr.sticky
      · simp only [Bool.not_false, if_true]
        exact ⟨a, _, hA, rfl, ⟨ha1, ha2, ha3⟩, fun _ => ⟨by simp, by simp⟩,
          fun h => by simp at h, fun h => by simp at h⟩
      · simp only [Bool.not_true, Bool.false_eq_true, if_false]
        exact ⟨a, b, hA, hB, ⟨ha1, ha2, ha3⟩, hb1, hb2, hb3⟩
    case ObjectTypeBouncer =>
      simp only [hb2 htb, if_true]
      exact ⟨_, rfl, ⟨a, b, hA, hB, ⟨ha1, ha2, ha3⟩, hb1, hb2, hb3⟩, hp⟩
    case ObjectTypeEnemy =>
      obtain ⟨d, hd⟩ := Option.isSome_iff_exists.mp (hb3 htb)
      simp only [hd]
      split <;> exact ⟨_, rfl, ⟨a, b, hA, hB, ⟨ha1, ha2, ha3⟩, hb1, hb2, hb3⟩, hp⟩
    case ObjectTypeSolidOneSided =>
      exact ⟨_, rfl, ⟨a, b, hA, hB, ⟨ha1, ha2, ha3⟩, hb1, hb2, hb3⟩, fun _ => rfl⟩
    all_goals
      first
        | exact ⟨_, rfl, ⟨a, b, hA, hB, ⟨ha1, ha2, ha3⟩, hb1, hb2, hb3⟩, hp⟩
        | (split <;> exact ⟨_, rfl, ⟨a, b, hA, hB, ⟨ha1, ha2, ha3⟩, hb1, hb2, hb3⟩, hp⟩)

/-- The one sided wall resolution completes when both fixtures are tagged and no platform is
recorded without a player fixture. -/
theorem processOneSidedWalls_completes (c : Contact) (player platform : Option Side)
    (hc : c.wellTagged) (hp : platform.isSome = true → player.isSome = true) :
    ∃ c1, processOneSidedWalls c player platform = .ok c1 := by
  obtain ⟨a, b, hA, hB, _, _⟩ := hc
  have hhead : ∃ c2, headCheck c player = .ok c2 := by
    cases player with
    | none => exact ⟨c, rfl⟩
    | some side =>
      cases side
      · simp only [headCheck, Contact.fixture, hA]
        cases a.headFlag
        · exact ⟨_, rfl⟩
        · exact ⟨_, rfl⟩
      · simp only [headCheck, Contact.fixture, hB]
        cases b.headFlag
        · exact ⟨_, rfl⟩
        · exact ⟨_, rfl⟩
  obtain ⟨c2, h2⟩ := hhead
  have hvel : ∃ c1, velocityCheck c2 player platform = .ok c1 := by
    cases platform with
    | none => exact ⟨c2, rfl⟩
    | some q =>
      cases player with
      | none => simp at hp
      | some side =>
        simp only [velocityCheck]
        split
        · exact ⟨_, rfl⟩
        · exact ⟨_, rfl⟩
  obtain ⟨c1, h1⟩ := hvel
  exact ⟨c1, by simp only [processOneSidedWalls, h2, h1]⟩

/-- The callback `BeginContact` completes on every well tagged contact. -/
theorem BeginContact_completes (w : World) (c : Contact) (hc : c.wellTagged) :
    ∃ r, BeginContact w c = .ok r := by
  obtain ⟨st1, h1, hc1, hp1⟩ := beginSide_completes .A ⟨w, c, none, none⟩ hc (by simp)
  obtain ⟨st2, h2, hc2, hp2⟩ := beginSide_completes .B st1 hc1 hp1
  obtain ⟨c1, h3⟩ := processOneSidedWalls_completes st2.contact st2.playerFixture
    st2.platformFixture hc2 hp2
  exact ⟨(st2.world, c1), by simp only [BeginContact, h1, h2, h3]⟩

/-- A sequence of events on well tagged contacts is processed without a fault. -/
theorem run_completes (evs : List Event) :
    ∀ w : World, (∀ ev ∈ evs, ev.contact.wellTagged) → ∃ wEnd, run w evs = .ok wEnd := by
  induction evs with
  | nil => intro w _; exact ⟨w, rfl⟩
  | cons ev evs ih =>
    intro w h
    have hrest : ∀ ev1 ∈ evs, ev1.contact.wellTagged :=
      fun ev1 h1 => h ev1 (List.mem_cons_of_mem _ h1)
    cases ev with
    | begin c =>
      obtain ⟨r, hr⟩ := BeginContact_completes w c (h _ (List.mem_cons_self _ _))
      obtain ⟨wEnd, hEnd⟩ := ih r.1 hrest
      exact ⟨wEnd, by simp only [run, handle, hr, hEnd]⟩
    | finish c =>
      obtain ⟨wEnd, hEnd⟩ := ih (EndContact w c).1 hrest
      exact ⟨wEnd, by simp only [run, handle, hEnd]⟩

/-! ## Claims on the contact counters -/

/-- C8, as stated, fails: one contact between two fixtures both classified as player is counted
twice. After its `BeginContact` the player counter is 2, while one open contact counts towards
it. -/
theorem C8_double_count_counterexample :
    ¬ (∀ (w : World) (evs : List Event) (wEnd : World), Paired evs →
        run ⟨reset w.listener, w.player, w.log⟩ evs = .ok wEnd →
        ∀ pre, pre <+: evs →
          ∃ wPre opened, run ⟨reset w.listener, w.player, w.log⟩ pre = .ok wPre ∧
            openAfter [] pre = some opened ∧
            ∀ ctr, 0 ≤ wPre.listener.count ctr ∧
              wPre.listener.count ctr = openContacts ctr opened) := by
  intro hall
  obtain ⟨wPre, opened, hrun, hopen, hcount⟩ :=
    hall freshWorld [.begin ⟨playerBodyFixture, playerBodyFixture, true⟩]
      ⟨⟨0, 0, 0, 0, 2, 0, 0, false⟩, ⟨none, none, false⟩, []⟩ (by decide) (by rfl)
      [.begin ⟨playerBodyFixture, playerBodyFixture, true⟩] (List.prefix_refl _)
  have hrun1 : run ⟨reset freshWorld.listener, freshWorld.player, freshWorld.log⟩
      [.begin ⟨playerBodyFixture, playerBodyFixture, true⟩]
      = .ok ⟨⟨0, 0, 0, 0, 2, 0, 0, false⟩, ⟨none, none, false⟩, []⟩ := by rfl
  have hopen1 : openAfter [] [.begin ⟨playerBodyFixture, playerBodyFixture, true⟩]
      = some [kindOf ⟨playerBodyFixture, playerBodyFixture, true⟩] := by rfl
  rw [hrun1] at hrun
  rw [hopen1] at hopen
  simp only [Except.ok.injEq] at hrun
  simp only [Option.some.injEq] at hopen
  subst hrun
  subst hopen
  have h := (hcount .player).2
  revert h
  decide

/-- C8, amended: starting from the reset state, for every sequence of `BeginContact` and
`EndContact` events in which every end is matched by an earlier begin of the same fixture pair
and no pair is ended twice, and which the listener processes without a fault, after every prefix
of the sequence each of the seven counters is `>= 0` and equals the number of sides (fixtures) of
the currently open contacts that count towards it; a contact of which both fixtures count towards
a counter is counted twice. -/
theorem counters_track_open_sides (w : World) (evs : List Event) (wEnd : World)
    (hpaired : Paired evs)
    (hrun : run ⟨reset w.listener, w.player, w.log⟩ evs = .ok wEnd) :
    ∀ pre, pre <+: evs →
      ∃ wPre opened, run ⟨reset w.listener, w.player, w.log⟩ pre = .ok wPre ∧
        openAfter [] pre = some opened ∧
        ∀ ctr, 0 ≤ wPre.listener.count ctr ∧ wPre.listener.count ctr = openSides ctr opened := by
  intro pre hpre
  obtain ⟨post, rfl⟩ := hpre
  rw [run_append] at hrun
  unfold Paired at hpaired
  rw [openAfter_append] at hpaired
  cases hr : run ⟨reset w.listener, w.player, w.log⟩ pre with
  | error e => rw [hr] at hrun; cases hrun
  | ok wPre =>
    cases ho : openAfter [] pre with
    | none => rw [ho] at hpaired; simp at hpaired
    | some opened =>
      have htrack := run_tracks pre ⟨reset w.listener, w.player, w.log⟩ wPre [] opened
        (by intro ctr; cases ctr <;> simp [reset, GameContactListener.count, openSides])
        ho hr
      refine ⟨wPre, opened, rfl, rfl, ?_⟩
      intro ctr
      rw [htrack ctr]
      exact ⟨Int.natCast_nonneg _, rfl⟩

/-- The foot sensor touches the ground, the player body touches the ground, the foot sensor
leaves: all three events are processed and the counters are the open sides. -/
theorem counters_track_open_sides_witness :
    ∃ wPre opened,
      run ⟨reset freshWorld.listener, freshWorld.player, freshWorld.log⟩
        [.begin ⟨footSensorFixture, groundFixture, true⟩,
         .begin ⟨groundFixture, playerBodyFixture, true⟩,
         .finish ⟨footSensorFixture, groundFixture, true⟩] = .ok wPre ∧
      openAfter []
        [.begin ⟨footSensorFixture, groundFixture, true⟩,
         .begin ⟨groundFixture, playerBodyFixture, true⟩,
         .finish ⟨footSensorFixture, groundFixture, true⟩] = some opened ∧
      ∀ ctr, 0 ≤ wPre.listener.count ctr ∧ wPre.listener.count ctr = openSides ctr opened :=
  counters_track_open_sides freshWorld
    [.begin ⟨footSensorFixture, groundFixture, true⟩,
     .begin ⟨groundFixture, playerBodyFixture, true⟩,
     .finish ⟨footSensorFixture, groundFixture, true⟩]
    ⟨⟨0, 0, 0, 0, 1, 0, 0, false⟩, ⟨some 2, none, false⟩, []⟩ (by decide) (by rfl)
    _ (List.prefix_refl _)

/-- C9: for every contact, `BeginContact` followed by `EndContact` of that contact (or of any
contact with the same classifications, sensor flags and player ownership) leaves each of the seven
counters at its value before the `BeginContact`; `BeginContact` completes whenever both fixtures
carry a consistent node; and `EndContact` of a contact with a one sided solid fixture leaves the
contact enabled. -/
theorem begin_end_restores (w : World) (c : Contact) :
    (c.wellTagged → ∃ r, BeginContact w c = .ok r) ∧
    (∀ r, BeginContact w c = .ok r →
      (∀ ctr, (EndContact r.1 r.2).1.listener.count ctr = w.listener.count ctr) ∧
      (∀ c1, kindOf c1 = kindOf c →
        ∀ ctr, (EndContact r.1 c1).1.listener.count ctr = w.listener.count ctr)) ∧
    (∀ (w1 : World) (side : Side),
      (c.fixture side).hasType ObjectTypeSolidOneSided → (EndContact w1 c).2.enabled = true) := by
  refine ⟨BeginContact_completes w c, ?_, ?_⟩
  · intro r h
    obtain ⟨hk, hn⟩ := BeginContact_count w c r h
    have hrestore : ∀ c1, kindOf c1 = kindOf c →
        ∀ ctr, (EndContact r.1 c1).1.listener.count ctr = w.listener.count ctr := by
      intro c1 hc1 ctr
      rw [(EndContact_count r.1 c1).2 ctr, hn ctr, hc1]
      ring
    exact ⟨hrestore r.2 hk, hrestore⟩
  · intro w1 side hside
    exact EndContact_enables w1 c side hside

/-- The foot sensor touching the ground: `BeginContact` completes and the following `EndContact`
brings the counters back; the end of a contact with a one sided platform enables it. -/
theorem begin_end_restores_witness :
    (∃ r, BeginContact freshWorld ⟨footSensorFixture, groundFixture, true⟩ = .ok r ∧
      ∀ ctr, (EndContact r.1 r.2).1.listener.count ctr = freshWorld.listener.count ctr) ∧
    (EndContact freshWorld ⟨oneSidedFixture, fallingHeadFixture, false⟩).2.enabled = true :=
  ⟨⟨(⟨⟨1, 0, 0, 0, 0, 0, 0, false⟩, ⟨some 2, none, false⟩, []⟩,
      ⟨footSensorFixture, groundFixture, true⟩), by rfl,
    ((begin_end_restores freshWorld ⟨footSensorFixture, groundFixture, true⟩).2.1
      (⟨⟨1, 0, 0, 0, 0, 0, 0, false⟩, ⟨some 2, none, false⟩, []⟩,
        ⟨footSensorFixture, groundFixture, true⟩) (by rfl)).1⟩,
   (begin_end_restores freshWorld ⟨oneSidedFixture, fallingHeadFixture, false⟩).2.2 freshWorld .A
      ⟨_, rfl, rfl⟩⟩

/-! ## Claims on one sided walls -/

/-- C10, as stated, fails: the player fixture carries the flag `head` and its body moves down
(`vy = 1 > 0`); the contact with the one sided platform is disabled by `BeginContact`. -/
theorem C10_head_counterexample :
    ¬ (∀ (w : World) (c : Contact) (r : World × Contact),
        c.fixtureA.hasType ObjectTypeSolidOneSided → c.fixtureB.isPlayerFixture →
        c.enabled = true → BeginContact w c = .ok r →
        (c.fixtureB.body.linearVelocityY > 0 → r.2.enabled = true) ∧
        (c.fixtureB.body.linearVelocityY ≤ 0 → r.2.enabled = false)) := by
  intro hall
  have h := hall freshWorld ⟨oneSidedFixture, fallingHeadFixture, true⟩
    (⟨⟨0, 0, 0, 0, 1, 0, 0, false⟩, ⟨none, none, false⟩, []⟩,
      ⟨oneSidedFixture, fallingHeadFixture, false⟩)
    ⟨_, rfl, rfl⟩ ⟨_, rfl, rfl⟩ rfl (by rfl)
  have h1 := h.1 (by decide)
  simp at h1

/-- C10, amended: for every `BeginContact` between a one sided solid fixture (on either side) and
a player fixture that does not carry the flag `head`, the callback completes, and if the vertical
velocity `vy` of the player body is `> 0` the enabled state of the contact is left as it was (a
contact enabled before the event is still enabled), while if `vy <= 0` the contact is disabled
after the event. -/
theorem oneSided_begin (w : World) (c : Contact) (side : Side) (node : FixtureNode)
    (hplatform : (c.fixture side).hasType ObjectTypeSolidOneSided)
    (hplayer : (c.fixture side.other).userData = some node)
    (htype : isPlayerType node.type = true) (hhead : node.headFlag = false) :
    ∃ r, BeginContact w c = .ok r ∧
      ((c.fixture side.other).body.linearVelocityY > 0 → r.2.enabled = c.enabled) ∧
      ((c.fixture side.other).body.linearVelocityY ≤ 0 → r.2.enabled = false) := by
  obtain ⟨pnode, hpnode, hptype⟩ := hplatform
  by_cases hv : (c.fixture side.other).body.linearVelocityY > 0
  · cases side <;>
      simp only [Side.other, Contact.fixture] at hpnode hplayer hv <;>
      cases hs : c.fixtureA.sensor <;> cases hs2 : c.fixtureB.sensor <;>
      cases hc1 : c.fixtureA.chain <;> cases hc2 : c.fixtureB.chain <;>
      cases hnt : node.type <;> simp [hnt, isPlayerType] at htype <;>
      simp [BeginContact, beginSide, beginSwitch, processOneSidedWalls, headCheck,
        velocityCheck, Contact.fixture, Side.other, Contact.SetEnabled, hpnode, hplayer, hptype,
        hnt, hhead, hv, hs, hs2, hc1, hc2, not_le.mpr hv]
  · have hle : (c.fixture side.other).body.linearVelocityY ≤ 0 := not_lt.mp hv
    cases side <;>
      simp only [Side.other, Contact.fixture] at hpnode hplayer hv hle <;>
      cases hs : c.fixtureA.sensor <;> cases hs2 : c.fixtureB.sensor <;>
      cases hc1 : c.fixtureA.chain <;> cases hc2 : c.fixtureB.chain <;>
      cases hnt : node.type <;> simp [hnt, isPlayerType] at htype <;>
      simp [BeginContact, beginSide, beginSwitch, processOneSidedWalls, headCheck,
        velocityCheck, Contact.fixture, Side.other, Contact.SetEnabled, hpnode, hplayer, hptype,
        hnt, hhead, hv, hle, hs, hs2, hc1, hc2]

/-- A player fixture without the flag `head` on a one sided platform: moving down (`vy = 1`) the
contact stays enabled, stationary (`vy = 0`, platform on side B) it is disabled. -/
theorem oneSided_begin_witness :
    (∃ r, BeginContact freshWorld ⟨oneSidedFixture, playerFixtureMoving 1, true⟩ = .ok r ∧
      ((playerFixtureMoving 1).body.linearVelocityY > 0 → r.2.enabled = true) ∧
      ((playerFixtureMoving 1).body.linearVelocityY ≤ 0 → r.2.enabled = false)) ∧
    (∃ r, BeginContact freshWorld ⟨playerFixtureMoving 0, oneSidedFixture, true⟩ = .ok r ∧
      ((playerFixtureMoving 0).body.linearVelocityY > 0 → r.2.enabled = true) ∧
      ((playerFixtureMoving 0).body.linearVelocityY ≤ 0 → r.2.enabled = false)) :=
  ⟨oneSided_begin freshWorld ⟨oneSidedFixture, playerFixtureMoving 1, true⟩ .A
      ⟨ObjectTypePlayer, true, false, false, none, none, false⟩ ⟨_, rfl, rfl⟩ rfl rfl rfl,
   oneSided_begin freshWorld ⟨playerFixtureMoving 0, oneSidedFixture, true⟩ .B
      ⟨ObjectTypePlayer, true, false, false, none, none, false⟩ ⟨_, rfl, rfl⟩ rfl rfl rfl⟩

/-! ## The callback `BeginContact` through the view of the contact -/

theorem view_setNode (c : Contact) (side : Side) (node node1 : FixtureNode)
    (h : (c.fixture side).userData = some node) (hv : node1.view = node.view) :
    (c.setNode side node1).view = c.view := by
  cases side <;>
    simp_all [Contact.view, Contact.setNode, Contact.fixture]

/-- One switch of `BeginContact` leaves the view of the contact and the answer of `isOnGround`
as they are, latches the smashed flag on a moving platform facing a grounded head sensor, and
records the platform and player fixtures on a one sided fixture. -/
theorem beginSide_flags (side : Side) (st st1 : BeginState) (h : beginSide side st = .ok st1) :
    st1.contact.view = st.contact.view ∧
    st1.world.listener.mSmashed
      = (st.world.listener.mSmashed || st.contact.view.sideSmash side st.world.player.onGround) ∧
    st1.world.player.onGround = st.world.player.onGround ∧
    (st1.platformFixture, st1.playerFixture)
      = (if st.contact.view.isType side ObjectTypeSolidOneSided then (some side, some side.other)
         else (st.platformFixture, st.playerFixture)) := by
  unfold beginSide at h
  cases hnode : (st.contact.fixture side).userData with
  | none =>
    rw [hnode] at h
    simp only [Except.ok.injEq] at h
    subst h
    cases side <;>
      simp_all [ContactView.sideSmash, ContactView.isType, ContactView.node, Contact.view,
        Contact.fixture]
  | some node =>
    rw [hnode] at h
    simp only [] at h
    cases hother : (st.contact.fixture side.other).userData <;>
      cases htype : node.type <;>
      simp only [beginSwitch, htype, hother] at h <;>
      (repeat' split at h) <;>
      cases h <;>
      refine ⟨?_, ?_, ?_, ?_⟩ <;>
      first
        | rfl
        | exact view_setNode _ _ _ _ hnode (by simp [FixtureNode.view, htype, *])
        | (cases side <;>
             simp_all [ContactView.sideSmash, ContactView.isType, ContactView.node, Contact.view,
               Contact.fixture, Side.other, FixtureNode.view])

theorem view_node_eq (c : Contact) (side : Side) :
    c.view.node side = (c.fixture side).userData.map FixtureNode.view := by
  cases side <;> rfl

theorem view_ownedByPlayer (c : Contact) (side : Side) :
    c.view.ownedByPlayer side = isPlayer (c.fixture side).userData := by
  unfold ContactView.ownedByPlayer
  rw [view_node_eq]
  cases (c.fixture side).userData <;> rfl

/-- One switch of `BeginContact` runs to its end exactly when the node it switches on is what its
classification promises. -/
theorem beginSide_ok_iff (side : Side) (st : BeginState) :
    (∃ st1, beginSide side st = .ok st1) ↔ st.contact.view.sideOk side = true := by
  unfold beginSide ContactView.sideOk
  rw [view_node_eq, view_ownedByPlayer]
  cases hnode : (st.contact.fixture side).userData with
  | none => simp
  | some node =>
    simp only [Option.map_some', FixtureNode.view]
    cases htype : node.type <;> simp only [beginSwitch, htype]
    case ObjectTypeProjectile =>
      cases hd : node.damage <;> cases hp : node.projectile <;> simp
    case ObjectTypeBouncer =>
      cases hb : node.bouncer <;> simp
    case ObjectTypeEnemy =>
      cases hd : node.damage <;> cases hpl : isPlayer (st.contact.fixture side.other).userData <;>
        simp
    all_goals
      constructor
      · intro _; simp
      · intro _
        first
          | exact ⟨_, rfl⟩
          | (split <;> exact ⟨_, rfl⟩)

/-- The one sided wall resolution without a recorded fixture does nothing. -/
theorem processOneSidedWalls_none (c : Contact) : processOneSidedWalls c none none = .ok c := rfl

/-- The one sided wall resolution with a recorded player fixture: a fault if that fixture has no
user data, otherwise the contact is disabled if the node has the flag `head` or the body does not
move down. -/
theorem processOneSidedWalls_some (c : Contact) (side platform : Side) :
    processOneSidedWalls c (some side) (some platform) =
      match (c.fixture side).userData with
      | none => .error .nullDereference
      | some n =>
        .ok ⟨c.fixtureA, c.fixtureB,
          if n.headFlag || !decide ((c.fixture side).body.linearVelocityY > 0) then false
          else c.enabled⟩ := by
  unfold processOneSidedWalls headCheck velocityCheck
  cases hnode : (c.fixture side).userData with
  | none => simp only [hnode]
  | some n =>
    simp only [hnode]
    cases hh : n.headFlag <;>
      by_cases hv : (c.fixture side).body.linearVelocityY > 0 <;>
      cases side <;>
      simp_all [Contact.SetEnabled, Contact.fixture]

/-- The fixtures recorded by the two switches of `BeginContact`. -/
theorem recorded_fixtures (st0 st1 st2 : BeginState) (h0 : st0.platformFixture = none)
    (h0p : st0.playerFixture = none)
    (h1 : beginSide .A st0 = .ok st1) (h2 : beginSide .B st1 = .ok st2) :
    st2.contact.view = st0.contact.view ∧
    ((st2.playerFixture = none ∧ st2.platformFixture = none ∧
        st0.contact.view.playerSide = none) ∨
     (∃ side, st2.playerFixture = some side ∧ st2.platformFixture = some side.other ∧
        st0.contact.view.playerSide = some side)) := by
  obtain ⟨v1, _, _, p1⟩ := beginSide_flags .A st0 st1 h1
  obtain ⟨v2, _, _, p2⟩ := beginSide_flags .B st1 st2 h2
  rw [v1] at p2 v2
  refine ⟨v2, ?_⟩
  rw [h0, h0p] at p1
  unfold ContactView.playerSide
  cases hB : st0.contact.view.isType .B ObjectTypeSolidOneSided <;>
    cases hA : st0.contact.view.isType .A ObjectTypeSolidOneSided <;>
    simp_all [Side.other]

theorem view_velocity (c : Contact) (side : Side) :
    c.view.velocity side = (c.fixture side).body.linearVelocityY := by
  cases side <;> rfl

/-- The enabled flag left by the one sided wall resolution, read off the view of the contact. -/
theorem walls_enabled (c c1 : Contact) (side platform : Side)
    (h : processOneSidedWalls c (some side) (some platform) = .ok c1) :
    ∃ n, c.view.node side = some n ∧
      c1.enabled = (if n.headFlag || !decide (c.view.velocity side > 0) then false
        else c.view.enabled) := by
  rw [processOneSidedWalls_some] at h
  rw [view_node_eq, view_velocity]
  cases hnode : (c.fixture side).userData with
  | none => rw [hnode] at h; cases h
  | some node =>
    rw [hnode] at h
    simp only [Except.ok.injEq] at h
    subst h
    exact ⟨node.view, rfl, rfl⟩

theorem walls_ok_iff (c : Contact) (side platform : Side) :
    (∃ c1, processOneSidedWalls c (some side) (some platform) = .ok c1)
      ↔ (c.view.node side).isSome = true := by
  rw [processOneSidedWalls_some, view_node_eq]
  cases (c.fixture side).userData <;> simp

/-- When `BeginContact` runs to its end: both switches do, and the fixture facing a one sided
fixture carries a node. -/
theorem BeginContact_ok_iff (w : World) (c : Contact) :
    (∃ r, BeginContact w c = .ok r) ↔
      (c.view.sideOk .A = true ∧ c.view.sideOk .B = true ∧ c.view.wallsOk = true) := by
  constructor
  · rintro ⟨r, h⟩
    unfold BeginContact at h
    cases h1 : beginSide .A ⟨w, c, none, none⟩ with
    | error e => rw [h1] at h; cases h
    | ok st1 =>
      rw [h1] at h
      simp only [] at h
      cases h2 : beginSide .B st1 with
      | error e => rw [h2] at h; cases h
      | ok st2 =>
        rw [h2] at h
        simp only [] at h
        cases h3 : processOneSidedWalls st2.contact st2.playerFixture st2.platformFixture with
        | error e => rw [h3] at h; cases h
        | ok c1 =>
          have okA := (beginSide_ok_iff .A ⟨w, c, none, none⟩).mp ⟨st1, h1⟩
          have okB := (beginSide_ok_iff .B st1).mp ⟨st2, h2⟩
          have v1 := (beginSide_flags .A _ _ h1).1
          obtain ⟨v2, hrec⟩ := recorded_fixtures ⟨w, c, none, none⟩ st1 st2 rfl rfl h1 h2
          simp only [] at okA v1 v2 hrec
          rw [v1] at okB
          refine ⟨okA, okB, ?_⟩
          unfold ContactView.wallsOk
          rcases hrec with ⟨_, _, hnone⟩ | ⟨side, hp, hq, hside⟩
          · rw [hnone]
          · rw [hside]
            simp only []
            rw [hp, hq] at h3
            have := (walls_ok_iff st2.contact side side.other).mp ⟨c1, h3⟩
            rw [v2] at this
            exact this
  · rintro ⟨okA, okB, hw⟩
    obtain ⟨st1, h1⟩ := (beginSide_ok_iff .A ⟨w, c, none, none⟩).mpr okA
    have v1 := (beginSide_flags .A _ _ h1).1
    simp only [] at v1
    obtain ⟨st2, h2⟩ := (beginSide_ok_iff .B st1).mpr (by rw [v1]; exact okB)
    obtain ⟨v2, hrec⟩ := recorded_fixtures ⟨w, c, none, none⟩ st1 st2 rfl rfl h1 h2
    simp only [] at v2 hrec
    have h3 : ∃ c1, processOneSidedWalls st2.contact st2.playerFixture st2.platformFixture
        = .ok c1 := by
      rcases hrec with ⟨hp, hq, _⟩ | ⟨side, hp, hq, hside⟩
      · rw [hp, hq]; exact ⟨_, rfl⟩
      · rw [hp, hq]
        apply (walls_ok_iff st2.contact side side.other).mpr
        rw [v2]
        unfold ContactView.wallsOk at hw
        rw [hside] at hw
        exact hw
    obtain ⟨c1, h3⟩ := h3
    exact ⟨(st2.world, c1), by simp only [BeginContact, h1, h2, h3]⟩

/-- What `BeginContact` leaves when it runs to its end: the smashed flag is latched by a moving
platform facing a head sensor while the player is on the ground, the enabled flag is the one of
the one sided wall resolution, the answer of `isOnGround` is as before. -/
theorem BeginContact_observe (w : World) (c : Contact) (r : World × Contact)
    (h : BeginContact w c = .ok r) :
    r.1.listener.mSmashed = (w.listener.mSmashed || c.view.sideSmash .A w.player.onGround
      || c.view.sideSmash .B w.player.onGround) ∧
    r.2.enabled = c.view.enabledAfter ∧
    r.1.player.onGround = w.player.onGround := by
  unfold BeginContact at h
  cases h1 : beginSide .A ⟨w, c, none, none⟩ with
  | error e => rw [h1] at h; cases h
  | ok st1 =>
    rw [h1] at h
    simp only [] at h
    cases h2 : beginSide .B st1 with
    | error e => rw [h2] at h; cases h
    | ok st2 =>
      rw [h2] at h
      simp only [] at h
      cases h3 : processOneSidedWalls st2.contact st2.playerFixture st2.platformFixture with
      | error e => rw [h3] at h; cases h
      | ok c1 =>
        rw [h3] at h
        cases h
        obtain ⟨v1, s1, g1, _⟩ := beginSide_flags .A _ _ h1
        obtain ⟨_, s2, g2, _⟩ := beginSide_flags .B _ _ h2
        obtain ⟨v2, hrec⟩ := recorded_fixtures ⟨w, c, none, none⟩ st1 st2 rfl rfl h1 h2
        simp only [] at v1 s1 g1 v2 hrec
        refine ⟨?_, ?_, ?_⟩
        · rw [s2, s1, v1, g1]
        · unfold ContactView.enabledAfter
          rcases hrec with ⟨hp, hq, hnone⟩ | ⟨side, hp, hq, hside⟩
          · rw [hp, hq] at h3
            rw [processOneSidedWalls_none] at h3
            cases h3
            rw [hnone]
            have : st2.contact.view.enabled = c.view.enabled := by rw [v2]
            exact this
          · rw [hp, hq] at h3
            obtain ⟨n, hn, he⟩ := walls_enabled _ _ _ _ h3
            rw [v2] at hn he
            rw [hside]
            simp only [hn]
            exact he
        · rw [g2, g1]

/-! ## The callbacks and the smashed flag -/

theorem endSide_smashed (side : Side) (l : GameContactListener) (c : Contact) :
    (endSide side l c).1.mSmashed = l.mSmashed := by
  unfold endSide
  cases hnode : (c.fixture side).userData with
  | none => rfl
  | some node =>
    simp only []
    cases htype : node.type <;> simp only [endSwitch, htype] <;> (repeat' split) <;> rfl

theorem EndContact_smashed (w : World) (c : Contact) :
    (EndContact w c).1.listener.mSmashed = w.listener.mSmashed := by
  simp only [EndContact]
  rw [endSide_smashed, endSide_smashed]

theorem postSolveSide_listener (side : Side) (impulse : Rat) (w : World) (c : Contact)
    (r : Bool × World × Contact) (h : postSolveSide side impulse w c = .ok r) :
    r.2.1.listener = w.listener := by
  unfold postSolveSide at h
  (repeat' split at h) <;> cases h <;> first | rfl | (unfold processImpulse; split <;> rfl)

theorem PostSolve_listener (w : World) (c : Contact) (impulse : Rat) (r : World × Contact)
    (h : PostSolve w c impulse = .ok r) : r.1.listener = w.listener := by
  unfold PostSolve at h
  split at h
  · cases h
  · rename_i w1 c1 h1
    cases h
    exact postSolveSide_listener _ _ _ _ _ h1
  · rename_i w1 c1 h1
    split at h
    · cases h
    · rename_i b w2 c2 h2
      cases h
      rw [postSolveSide_listener _ _ _ _ _ h2, postSolveSide_listener _ _ _ _ _ h1]

theorem isType_iff (c : Contact) (side : Side) (t : ObjectType) :
    c.view.isType side t = true ↔ (c.fixture side).hasType t := by
  unfold ContactView.isType Fixture.hasType
  rw [view_node_eq]
  cases (c.fixture side).userData <;> simp [FixtureNode.view]

theorem sideSmash_iff (c : Contact) (onGround : Bool) :
    (c.view.sideSmash .A onGround || c.view.sideSmash .B onGround) = true
      ↔ smashPair c ∧ onGround = true := by
  unfold ContactView.sideSmash smashPair
  simp only [Bool.or_eq_true, Bool.and_eq_true, isType_iff, Side.other, Contact.fixture]
  tauto

/-- Claim C11: in every state of the world (so in every state an event sequence reaches from the
reset state), after a callback that runs to its end the smashed flag is true if and only if it
was true before or the callback is a `BeginContact` whose contact pairs a moving platform fixture
with a player head sensor fixture while the player is on the ground. `EndContact`, `PreSolve`,
`PostSolve` and every other `BeginContact` leave the flag as it is. -/
theorem smashed_latch (processContact : Player → Contact → Player × Contact) (w w1 : World)
    (cb : Callback) (h : dispatch processContact w cb = .ok w1) :
    w1.listener.mSmashed = true ↔
      (w.listener.mSmashed = true ∨
        ∃ c, cb = .beginContact c ∧ smashPair c ∧ w.player.onGround = true) := by
  cases cb with
  | beginContact c =>
    simp only [dispatch] at h
    cases hb : BeginContact w c with
    | error e => rw [hb] at h; cases h
    | ok r =>
      rw [hb] at h
      cases h
      rw [(BeginContact_observe w c r hb).1, Bool.or_assoc, Bool.or_eq_true, sideSmash_iff]
      constructor
      · rintro (h1 | h2)
        · exact Or.inl h1
        · exact Or.inr ⟨c, rfl, h2⟩
      · rintro (h1 | ⟨c1, hc, h2⟩)
        · exact Or.inl h1
        · cases hc
          exact Or.inr h2
  | endContact c =>
    simp only [dispatch] at h
    cases h
    rw [EndContact_smashed]
    constructor
    · exact Or.inl
    · rintro (h1 | ⟨c1, hc, _⟩)
      · exact h1
      · cases hc
  | preSolve c =>
    simp only [dispatch] at h
    cases h
    constructor
    · exact Or.inl
    · rintro (h1 | ⟨c1, hc, _⟩)
      · exact h1
      · cases hc
  | postSolve c impulse =>
    simp only [dispatch] at h
    cases hp : PostSolve w c impulse with
    | error e => rw [hp] at h; cases h
    | ok r =>
      rw [hp] at h
      cases h
      rw [PostSolve_listener w c impulse r hp]
      constructor
      · exact Or.inl
      · rintro (h1 | ⟨c1, hc, _⟩)
        · exact h1
        · cases hc

/-- The moving platform comes down on the head sensor of the player standing on the ground: the
flag is latched. -/
theorem smashed_latch_witness :
    dispatch (fun p c => (p, c)) groundedWorld
        (.beginContact ⟨movingPlatformFixture, headSensorFixture, true⟩)
      = .ok ⟨⟨0, 1, 0, 0, 0, 0, 1, true⟩, ⟨some 2, some 6, true⟩, []⟩ ∧
    ((⟨⟨0, 1, 0, 0, 0, 0, 1, true⟩, ⟨some 2, some 6, true⟩, []⟩ : World).listener.mSmashed = true ↔
      (groundedWorld.listener.mSmashed = true ∨
        ∃ c, Callback.beginContact ⟨movingPlatformFixture, headSensorFixture, true⟩
            = .beginContact c ∧ smashPair c ∧ groundedWorld.player.onGround = true)) :=
  ⟨rfl, smashed_latch (fun p c => (p, c)) _ _ _ rfl⟩

/-! ## Fixtures without user data -/

/-- A contact of two fixtures without user data: the three callbacks that look at user data
leave the world and the contact as they are. -/
theorem untagged_both_unchanged (w : World) (c : Contact) (impulse : Rat)
    (hA : c.fixtureA.userData = none) (hB : c.fixtureB.userData = none) :
    BeginContact w c = .ok (w, c) ∧ EndContact w c = (w, c) ∧
      PostSolve w c impulse = .ok (w, c) := by
  refine ⟨?_, ?_, ?_⟩
  · simp [BeginContact, beginSide, Contact.fixture, hA, hB, processOneSidedWalls, headCheck,
      velocityCheck]
  · simp [EndContact, endSide, Contact.fixture, hA, hB]
  · simp [PostSolve, postSolveSide, Contact.fixture, hA, hB]

/-- Claim C12, the failing case: a `BeginContact` in which one fixture is classified as one
sided solid and the other fixture carries no user data does not run to its end. The switch of
the one sided fixture stores the untagged fixture in `playerFixture`, and `processOneSidedWalls`
(line 70) calls `hasFlag` through its null user data. -/
theorem untagged_oneSided_faults (w : World) (c : Contact) (side : Side)
    (hplatform : (c.fixture side).hasType ObjectTypeSolidOneSided)
    (huntagged : (c.fixture side.other).userData = none) :
    BeginContact w c = .error .nullDereference := by
  obtain ⟨pnode, hpnode, hptype⟩ := hplatform
  cases side <;>
    simp only [Side.other, Contact.fixture] at hpnode huntagged <;>
    simp [BeginContact, beginSide, beginSwitch, processOneSidedWalls, headCheck,
      velocityCheck, Contact.fixture, Side.other, hpnode, huntagged, hptype]

/-- A one sided platform touched by a fixture without user data, in either order. -/
theorem untagged_oneSided_faults_witness :
    BeginContact freshWorld ⟨oneSidedFixture, untaggedFixture, true⟩ = .error .nullDereference ∧
    BeginContact freshWorld ⟨untaggedFixture, oneSidedFixture, true⟩ = .error .nullDereference :=
  ⟨untagged_oneSided_faults freshWorld ⟨oneSidedFixture, untaggedFixture, true⟩ .A
      ⟨_, rfl, rfl⟩ rfl,
   untagged_oneSided_faults freshWorld ⟨untaggedFixture, oneSidedFixture, true⟩ .B
      ⟨_, rfl, rfl⟩ rfl⟩

/-! ## The head of the player under a one sided platform -/

/-- Claim C18: for every `BeginContact` between a one sided solid fixture (on either side) and a
player fixture that carries the flag `head`, the callback runs to its end and the contact is
disabled afterwards, whatever the vertical velocity of the player body. -/
theorem head_disables (w : World) (c : Contact) (side : Side) (node : FixtureNode)
    (hplatform : (c.fixture side).hasType ObjectTypeSolidOneSided)
    (hplayer : (c.fixture side.other).userData = some node)
    (htype : isPlayerType node.type = true) (hhead : node.headFlag = true) :
    ∃ r, BeginContact w c = .ok r ∧ r.2.enabled = false := by
  obtain ⟨pnode, hpnode, hptype⟩ := hplatform
  have hok : ∃ r, BeginContact w c = .ok r := by
    rw [BeginContact_ok_iff]
    cases side <;>
      simp only [Side.other, Contact.fixture] at hpnode hplayer <;>
      cases hnt : node.type <;> simp [hnt, isPlayerType] at htype <;>
      simp [ContactView.sideOk, ContactView.wallsOk, ContactView.playerSide, ContactView.isType,
        ContactView.node, ContactView.ownedByPlayer, Contact.view, FixtureNode.view, Side.other,
        hpnode, hplayer, hptype, hnt]
  obtain ⟨r, hr⟩ := hok
  refine ⟨r, hr, ?_⟩
  rw [(BeginContact_observe w c r hr).2.1]
  cases side <;>
    simp only [Side.other, Contact.fixture] at hpnode hplayer <;>
    cases hnt : node.type <;> simp [hnt, isPlayerType] at htype <;>
    simp [ContactView.enabledAfter, ContactView.playerSide, ContactView.isType,
      ContactView.node, Contact.view, FixtureNode.view, hpnode, hplayer, hptype, hnt, hhead]

/-- The head of the falling player (`vy = 1 > 0`) under a one sided platform, on either side of
the contact. -/
theorem head_disables_witness :
    (∃ r, BeginContact freshWorld ⟨oneSidedFixture, fallingHeadFixture, true⟩ = .ok r ∧
      r.2.enabled = false) ∧
    (∃ r, BeginContact freshWorld ⟨fallingHeadFixture, oneSidedFixture, true⟩ = .ok r ∧
      r.2.enabled = false) :=
  ⟨head_disables freshWorld ⟨oneSidedFixture, fallingHeadFixture, true⟩ .A
      ⟨ObjectTypePlayer, true, false, true, none, none, false⟩ ⟨_, rfl, rfl⟩ rfl rfl rfl,
   head_disables freshWorld ⟨fallingHeadFixture, oneSidedFixture, true⟩ .B
      ⟨ObjectTypePlayer, true, false, true, none, none, false⟩ ⟨_, rfl, rfl⟩ rfl rfl rfl⟩

/-! ## The impulse of the solver -/

/-- The player on side A: the block of side A hands every impulse of at least `0.03f` to the
player, whatever fixture B is. -/
theorem PostSolve_player_first (w : World) (c : Contact) (impulse : Rat) (node : FixtureNode)
    (r : World × Contact)
    (hA : c.fixtureA.userData = some node) (ht : node.type = ObjectTypePlayer)
    (hi : f32 (3 / 100) ≤ impulse) (h : PostSolve w c impulse = .ok r) :
    Effect.playerImpulse impulse ∈ r.1.log := by
  have hlog : ∀ (w0 : World) (c0 : Contact) (r0 : Bool × World × Contact),
      postSolveSide .B impulse w0 c0 = .ok r0 → ∀ e, e ∈ w0.log → e ∈ r0.2.1.log := by
    intro w0 c0 r0 h0 e he
    unfold postSolveSide at h0
    (repeat' split at h0) <;> cases h0 <;>
      first
        | exact he
        | (unfold processImpulse; split <;> simp [he])
        | simp [he]
  have hfirst : postSolveSide .A impulse w c
      = .ok (false, ⟨w.listener, w.player, w.log ++ [Effect.playerImpulse impulse]⟩, c) := by
    simp [postSolveSide, Contact.fixture, hA, ht, processImpulse, not_lt.mpr hi]
  unfold PostSolve at h
  rw [hfirst] at h
  simp only [] at h
  cases h2 : postSolveSide .B impulse
      ⟨w.listener, w.player, w.log ++ [Effect.playerImpulse impulse]⟩ c with
  | error e => rw [h2] at h; cases h
  | ok r0 =>
    rw [h2] at h
    cases h
    exact hlog _ _ _ h2 _ (by simp)

/-- Claim C19, the failing case: when fixture A is a sticky projectile that has already hit
something, `PostSolve` returns from the block of side A (line 644) and never reaches the block of
side B: the world is as before, no impulse is handed to the player, whatever fixture B is and
however large the impulse. -/
theorem stuck_projectile_first (w : World) (c : Contact) (impulse : Rat) (node : FixtureNode)
    (projectile : Projectile)
    (hA : c.fixtureA.userData = some node) (ht : node.type = ObjectTypeProjectile)
    (hp : node.projectile = some projectile) (hs : projectile.sticky = true)
    (hh : projectile.hitSomething = true) :
    PostSolve w c impulse = .ok (w, c) := by
  simp [PostSolve, postSolveSide, Contact.fixture, hA, ht, hp, hs, hh]

/-- An arrow stuck in a wall on side A, the player on side B, impulse `0.05`: nothing is handed
to the player. -/
theorem stuck_projectile_first_witness :
    PostSolve freshWorld ⟨stuckArrowFixture, playerBodyFixture, true⟩ (1 / 20)
      = .ok (freshWorld, ⟨stuckArrowFixture, playerBodyFixture, true⟩) :=
  stuck_projectile_first freshWorld ⟨stuckArrowFixture, playerBodyFixture, true⟩ (1 / 20)
    ⟨ObjectTypeProjectile, false, false, false, some 20, some ⟨true, false, true, true⟩, false⟩
    ⟨true, false, true, true⟩ rfl rfl rfl rfl rfl

/-- The same two fixtures in the other order: the impulse `0.05` is handed to the player. -/
theorem stuck_projectile_second :
    PostSolve freshWorld ⟨playerBodyFixture, stuckArrowFixture, true⟩ (1 / 20)
      = .ok (⟨freshWorld.listener, freshWorld.player, [Effect.playerImpulse (1 / 20)]⟩,
          ⟨playerBodyFixture, stuckArrowFixture, true⟩) := by
  simp [PostSolve, postSolveSide, Contact.fixture, playerBodyFixture, stuckArrowFixture,
    processImpulse, freshWorld, f32_impulse_threshold]
  norm_num

/-! ## Exchanging the two fixtures -/

/-- The view with the two sides exchanged. -/
theorem view_swap (c : Contact) :
    c.swap.view = ⟨c.view.nodeB, c.view.nodeA, c.view.sensorB, c.view.sensorA, c.view.velocityB,
      c.view.velocityA, c.view.enabled⟩ := rfl

theorem kindOf_swap_weight (ctr : Counter) (c : Contact) :
    weight ctr (kindOf c.swap) = weight ctr (kindOf c) := by
  simp only [weight, kindOf, Contact.swap]
  exact Nat.add_comm _ _

theorem sideOk_swap (c : Contact) (side : Side) :
    c.swap.view.sideOk side = c.view.sideOk side.other := by
  rw [view_swap]
  cases side <;> rfl

theorem sideSmash_swap (c : Contact) (side : Side) (onGround : Bool) :
    c.swap.view.sideSmash side onGround = c.view.sideSmash side.other onGround := by
  rw [view_swap]
  cases side <;> rfl

theorem playerSide_swap (c : Contact)
    (h : ¬ (c.fixtureA.hasType ObjectTypeSolidOneSided ∧
      c.fixtureB.hasType ObjectTypeSolidOneSided)) :
    c.swap.view.playerSide = c.view.playerSide.map Side.other := by
  have hA := isType_iff c .A ObjectTypeSolidOneSided
  have hB := isType_iff c .B ObjectTypeSolidOneSided
  simp only [Contact.fixture] at hA hB
  rw [← hA, ← hB] at h
  rw [view_swap]
  unfold ContactView.playerSide
  have e1 : ContactView.isType ⟨c.view.nodeB, c.view.nodeA, c.view.sensorB, c.view.sensorA,
      c.view.velocityB, c.view.velocityA, c.view.enabled⟩ .B ObjectTypeSolidOneSided
      = c.view.isType .A ObjectTypeSolidOneSided := rfl
  have e2 : ContactView.isType ⟨c.view.nodeB, c.view.nodeA, c.view.sensorB, c.view.sensorA,
      c.view.velocityB, c.view.velocityA, c.view.enabled⟩ .A ObjectTypeSolidOneSided
      = c.view.isType .B ObjectTypeSolidOneSided := rfl
  rw [e1, e2]
  cases hA1 : c.view.isType .A ObjectTypeSolidOneSided <;>
    cases hB1 : c.view.isType .B ObjectTypeSolidOneSided <;> simp_all [Side.other]

theorem wallsOk_swap (c : Contact)
    (h : ¬ (c.fixtureA.hasType ObjectTypeSolidOneSided ∧
      c.fixtureB.hasType ObjectTypeSolidOneSided)) :
    c.swap.view.wallsOk = c.view.wallsOk := by
  unfold ContactView.wallsOk
  rw [playerSide_swap c h]
  cases c.view.playerSide with
  | none => rfl
  | some side => cases side <;> rfl

theorem enabledAfter_swap (c : Contact)
    (h : ¬ (c.fixtureA.hasType ObjectTypeSolidOneSided ∧
      c.fixtureB.hasType ObjectTypeSolidOneSided)) :
    c.swap.view.enabledAfter = c.view.enabledAfter := by
  unfold ContactView.enabledAfter
  rw [playerSide_swap c h]
  cases c.view.playerSide with
  | none => rfl
  | some side => cases side <;> rfl

/-- C20, as stated, fails: both fixtures are one sided platforms, the body of fixture A moves
down, the body of fixture B rests. Side B is switched on last and makes fixture A the
`playerFixture`: in the order (A, B) the contact stays enabled, in the order (B, A) it is
disabled. -/
theorem C20_both_oneSided_counterexample :
    ¬ (∀ (w : World) (c : Contact) (r r1 : World × Contact),
        BeginContact w c = .ok r → BeginContact w c.swap = .ok r1 →
        (∀ ctr, r.1.listener.count ctr = r1.1.listener.count ctr) ∧
        r.1.listener.mSmashed = r1.1.listener.mSmashed ∧
        r.2.enabled = r1.2.enabled) := by
  intro hall
  have h := hall freshWorld ⟨oneSidedFixtureMoving 1, oneSidedFixtureMoving 0, true⟩
    (freshWorld, ⟨oneSidedFixtureMoving 1, oneSidedFixtureMoving 0, true⟩)
    (freshWorld, ⟨oneSidedFixtureMoving 0, oneSidedFixtureMoving 1, false⟩)
    (by simp [BeginContact, beginSide, beginSwitch, processOneSidedWalls, headCheck,
          velocityCheck, Contact.fixture, Side.other, oneSidedFixtureMoving, Contact.SetEnabled])
    (by simp [BeginContact, beginSide, beginSwitch, processOneSidedWalls, headCheck,
          velocityCheck, Contact.fixture, Side.other, oneSidedFixtureMoving, Contact.SetEnabled,
          Contact.swap])
  have h1 := h.2.2
  simp at h1

/-- C20, amended: for every contact whose two fixtures are not both classified as one sided solid
and every state of the world, `BeginContact` on the fixtures (A, B) runs to its end if and only
if it does on (B, A), and then both leave the same seven counters, the same smashed flag and the
same enabled state of the contact. -/
theorem BeginContact_symmetric (w : World) (c : Contact)
    (h : ¬ (c.fixtureA.hasType ObjectTypeSolidOneSided ∧
      c.fixtureB.hasType ObjectTypeSolidOneSided)) :
    ((∃ r, BeginContact w c = .ok r) ↔ (∃ r1, BeginContact w c.swap = .ok r1)) ∧
    ∀ r r1, BeginContact w c = .ok r → BeginContact w c.swap = .ok r1 →
      (∀ ctr, r.1.listener.count ctr = r1.1.listener.count ctr) ∧
      r.1.listener.mSmashed = r1.1.listener.mSmashed ∧
      r.2.enabled = r1.2.enabled := by
  refine ⟨?_, ?_⟩
  · rw [BeginContact_ok_iff, BeginContact_ok_iff, sideOk_swap, sideOk_swap, wallsOk_swap c h]
    simp only [Side.other]
    tauto
  · intro r r1 hr hr1
    obtain ⟨s, e, _⟩ := BeginContact_observe w c r hr
    obtain ⟨s1, e1, _⟩ := BeginContact_observe w c.swap r1 hr1
    refine ⟨?_, ?_, ?_⟩
    · intro ctr
      rw [(BeginContact_count w c r hr).2 ctr, (BeginContact_count w c.swap r1 hr1).2 ctr,
        kindOf_swap_weight]
    · rw [s, s1, sideSmash_swap, sideSmash_swap]
      simp only [Side.other]
      rw [Bool.or_assoc, Bool.or_assoc,
        Bool.or_comm (c.view.sideSmash .A w.player.onGround)]
    · rw [e, e1, enabledAfter_swap c h]

/-- A player fixture moving down onto a one sided platform, in both orders: the callback runs
to its end and leaves the same counters, the same smashed flag, the same enabled state. -/
theorem BeginContact_symmetric_witness :
    ¬ ((Contact.mk oneSidedFixture (playerFixtureMoving 1) true).fixtureA.hasType
          ObjectTypeSolidOneSided ∧
        (Contact.mk oneSidedFixture (playerFixtureMoving 1) true).fixtureB.hasType
          ObjectTypeSolidOneSided) ∧
    (((∃ r, BeginContact freshWorld ⟨oneSidedFixture, playerFixtureMoving 1, true⟩ = .ok r) ↔
        (∃ r1, BeginContact freshWorld
          (Contact.mk oneSidedFixture (playerFixtureMoving 1) true).swap = .ok r1)) ∧
      ∀ r r1, BeginContact freshWorld ⟨oneSidedFixture, playerFixtureMoving 1, true⟩ = .ok r →
        BeginContact freshWorld (Contact.mk oneSidedFixture (playerFixtureMoving 1) true).swap
          = .ok r1 →
        (∀ ctr, r.1.listener.count ctr = r1.1.listener.count ctr) ∧
        r.1.listener.mSmashed = r1.1.listener.mSmashed ∧
        r.2.enabled = r1.2.enabled) := by
  refine ⟨?_, BeginContact_symmetric freshWorld
    ⟨oneSidedFixture, playerFixtureMoving 1, true⟩ ?_⟩ <;>
    (rintro ⟨_, node, hnode, htype⟩; cases hnode; cases htype)

/-! ## The smashed flag latches -/

/-- No callback clears the smashed flag. -/
theorem dispatch_smashed (processContact : Player → Contact → Player × Contact) (w w1 : World)
    (cb : Callback) (h : dispatch processContact w cb = .ok w1)
    (hs : w.listener.mSmashed = true) : w1.listener.mSmashed = true := by
  cases cb with
  | beginContact c =>
    simp only [dispatch] at h
    cases hb : BeginContact w c with
    | error e => rw [hb] at h; cases h
    | ok r =>
      rw [hb] at h
      cases h
      rw [(BeginContact_observe w c r hb).1, hs]
      rfl
  | endContact c =>
    simp only [dispatch] at h
    cases h
    rw [EndContact_smashed]
    exact hs
  | preSolve c =>
    simp only [dispatch] at h
    cases h
    exact hs
  | postSolve c impulse =>
    simp only [dispatch] at h
    cases hp : PostSolve w c impulse with
    | error e => rw [hp] at h; cases h
    | ok r =>
      rw [hp] at h
      cases h
      rw [PostSolve_listener w c impulse r hp]
      exact hs

/-- Claim C21: once the smashed flag is true it is true after every `BeginContact`, `EndContact`,
`PreSolve` and `PostSolve` that runs to its end, in every state of the world; `reset()` clears
it: in whatever state the listener is, after `reset()` the flag is false and each of the seven
counters is 0. -/
theorem smashed_stays (processContact : Player → Contact → Player × Contact) (w w1 : World)
    (cb : Callback) (h : dispatch processContact w cb = .ok w1)
    (hs : w.listener.mSmashed = true) :
    w1.listener.mSmashed = true ∧
    ∀ l : GameContactListener, (reset l).mSmashed = false ∧ ∀ ctr, (reset l).count ctr = 0 := by
  refine ⟨dispatch_smashed processContact w w1 cb h hs, ?_⟩
  intro l
  refine ⟨rfl, ?_⟩
  intro ctr
  cases ctr <;> rfl

/-- The player has been smashed under a moving platform; the contact ends: the flag stays, and
a reset of the listener clears it. -/
theorem smashed_stays_witness :
    dispatch (fun p c => (p, c)) ⟨⟨0, 1, 0, 0, 0, 0, 1, true⟩, ⟨some 2, some 6, true⟩, []⟩
        (.endContact ⟨movingPlatformFixture, headSensorFixture, true⟩)
      = .ok ⟨⟨0, 0, 0, 0, 0, 0, 0, true⟩, ⟨some 2, some 6, true⟩, []⟩ ∧
    (⟨⟨0, 0, 0, 0, 0, 0, 0, true⟩, ⟨some 2, some 6, true⟩, []⟩ : World).listener.mSmashed = true ∧
    (reset ⟨0, 0, 0, 0, 0, 0, 0, true⟩).mSmashed = false :=
  ⟨rfl,
   (smashed_stays (fun p c => (p, c))
      ⟨⟨0, 1, 0, 0, 0, 0, 1, true⟩, ⟨some 2, some 6, true⟩, []⟩ _
      (.endContact ⟨movingPlatformFixture, headSensorFixture, true⟩) rfl rfl).1,
   ((smashed_stays (fun p c => (p, c))
      ⟨⟨0, 1, 0, 0, 0, 0, 1, true⟩, ⟨some 2, some 6, true⟩, []⟩ _
      (.endContact ⟨movingPlatformFixture, headSensorFixture, true⟩) rfl rfl).2 _).1⟩

/-! ## Sticky projectiles -/

/-- A block of `PostSolve` leaves the fixture of the other side as it is. -/
theorem postSolveSide_other (side : Side) (impulse : Rat) (w : World) (c : Contact)
    (r : Bool × World × Contact) (h : postSolveSide side impulse w c = .ok r) :
    r.2.2.fixture side.other = c.fixture side.other := by
  unfold postSolveSide at h
  (repeat' split at h) <;> cases h <;> first | rfl | (cases side <;> rfl)

/-- A block of `PostSolve` leaves a projectile that is not sticky as it is. -/
theorem postSolveSide_nonsticky (side : Side) (impulse : Rat) (w : World) (c : Contact)
    (r : Bool × World × Contact) (node : FixtureNode) (projectile : Projectile)
    (hnode : (c.fixture side).userData = some node) (ht : node.type = ObjectTypeProjectile)
    (hp : node.projectile = some projectile) (hs : projectile.sticky = false)
    (h : postSolveSide side impulse w c = .ok r) : r.2.2 = c := by
  simp [postSolveSide, hnode, ht, hp, hs] at h
  rw [← h]

/-- A projectile that is not sticky is left as it is by `PostSolve`. -/
theorem PostSolve_nonsticky (w : World) (c : Contact) (impulse : Rat) (r : World × Contact)
    (side : Side) (node : FixtureNode) (projectile : Projectile)
    (hnode : (c.fixture side).userData = some node) (ht : node.type = ObjectTypeProjectile)
    (hp : node.projectile = some projectile) (hs : projectile.sticky = false)
    (h : PostSolve w c impulse = .ok r) : (r.2.fixture side).userData = some node := by
  unfold PostSolve at h
  cases h1 : postSolveSide .A impulse w c with
  | error e => rw [h1] at h; cases h
  | ok r1 =>
    obtain ⟨flag, w1, c1⟩ := r1
    rw [h1] at h
    have hA := postSolveSide_other .A impulse w c _ h1
    simp only [Side.other] at hA
    cases flag with
    | true =>
      simp only [] at h
      cases h
      cases side with
      | A =>
        have hc1 : c1 = c :=
          postSolveSide_nonsticky .A impulse w c _ node projectile hnode ht hp hs h1
        show (c1.fixture .A).userData = some node
        rw [hc1]
        exact hnode
      | B =>
        have hA1 : c1.fixture .B = c.fixture .B := hA
        show (c1.fixture .B).userData = some node
        rw [hA1]
        exact hnode
    | false =>
      simp only [] at h
      cases h2 : postSolveSide .B impulse w1 c1 with
      | error e => rw [h2] at h; cases h
      | ok r2 =>
        obtain ⟨flag2, w2, c2⟩ := r2
        rw [h2] at h
        cases h
        have hB := postSolveSide_other .B impulse w1 c1 _ h2
        simp only [Side.other] at hB
        cases side with
        | A =>
          have hc1 : c1 = c :=
            postSolveSide_nonsticky .A impulse w c _ node projectile hnode ht hp hs h1
          have hB1 : c2.fixture .A = c1.fixture .A := hB
          show (c2.fixture .A).userData = some node
          rw [hB1, hc1]
          exact hnode
        | B =>
          have hA1 : c1.fixture .B = c.fixture .B := hA
          have hnode1 : (c1.fixture .B).userData = some node := by rw [hA1]; exact hnode
          have hc2 : c2 = c1 :=
            postSolveSide_nonsticky .B impulse w1 c1 _ node projectile hnode1 ht hp hs h2
          show (c2.fixture .B).userData = some node
          rw [hc2]
          exact hnode1

/-- Claim C22, the failing case: fixture A is a sticky projectile that has already hit
something, fixture B a sticky projectile that has not. `PostSolve` returns from the block of
side A (line 644) and never reaches the block of side B (lines 673-699): the projectile of
fixture B takes part in a `PostSolve` and is not marked as having hit, no timer is added. -/
theorem fresh_projectile_second (w : World) (c : Contact) (impulse : Rat)
    (nodeA nodeB : FixtureNode) (projectileA projectileB : Projectile)
    (hA : c.fixtureA.userData = some nodeA) (htA : nodeA.type = ObjectTypeProjectile)
    (hpA : nodeA.projectile = some projectileA) (hsA : projectileA.sticky = true)
    (hhA : projectileA.hitSomething = true)
    (hB : c.fixtureB.userData = some nodeB) (htB : nodeB.type = ObjectTypeProjectile)
    (hpB : nodeB.projectile = some projectileB) (hsB : projectileB.sticky = true)
    (hhB : projectileB.hitSomething = false) :
    ∃ r, PostSolve w c impulse = .ok r ∧ r.2.fixtureB.userData = some nodeB ∧
      nodeB.type = ObjectTypeProjectile ∧ nodeB.projectile = some projectileB ∧
      projectileB.sticky = true ∧ projectileB.hitSomething = false ∧
      r.1.log = w.log := by
  refine ⟨(w, c), ?_, hB, htB, hpB, hsB, hhB, rfl⟩
  simp [PostSolve, postSolveSide, Contact.fixture, hA, htA, hpA, hsA, hhA]

/-- An arrow stuck in the wall on side A and a flying arrow on side B, impulse `0.05`: the
flying arrow is not marked, no removal is scheduled. -/
theorem fresh_projectile_second_witness :
    ∃ r, PostSolve freshWorld ⟨stuckArrowFixture, freshArrowFixture, true⟩ (1 / 20) = .ok r ∧
      r.2.fixtureB.userData = some ⟨ObjectTypeProjectile, false, false, false, some 20,
        some ⟨true, false, false, false⟩, false⟩ ∧
      (⟨ObjectTypeProjectile, false, false, false, some 20,
        some ⟨true, false, false, false⟩, false⟩ : FixtureNode).type = ObjectTypeProjectile ∧
      (⟨ObjectTypeProjectile, false, false, false, some 20,
        some ⟨true, false, false, false⟩, false⟩ : FixtureNode).projectile
          = some ⟨true, false, false, false⟩ ∧
      (⟨true, false, false, false⟩ : Projectile).sticky = true ∧
      (⟨true, false, false, false⟩ : Projectile).hitSomething = false ∧
      r.1.log = freshWorld.log :=
  fresh_projectile_second freshWorld ⟨stuckArrowFixture, freshArrowFixture, true⟩ (1 / 20)
    ⟨ObjectTypeProjectile, false, false, false, some 20, some ⟨true, false, true, true⟩, false⟩
    ⟨ObjectTypeProjectile, false, false, false, some 20, some ⟨true, false, false, false⟩, false⟩
    ⟨true, false, true, true⟩ ⟨true, false, false, false⟩ rfl rfl rfl rfl rfl rfl rfl rfl rfl rfl

/-- The same two arrows in the other order: the flying arrow, now on side A, is marked as having
hit and as inactive, and its removal is scheduled. -/
theorem fresh_projectile_first :
    PostSolve freshWorld ⟨freshArrowFixture, stuckArrowFixture, true⟩ (1 / 20)
      = .ok (⟨freshWorld.listener, freshWorld.player, [Effect.timerAdded 1000]⟩,
          ⟨⟨some ⟨ObjectTypeProjectile, false, false, false, some 20,
              some ⟨true, false, true, true⟩, false⟩, false, false, ⟨8, 0⟩⟩,
            stuckArrowFixture, true⟩) := by
  simp [PostSolve, postSolveSide, Contact.fixture, freshArrowFixture, stuckArrowFixture,
    freshWorld, Contact.setNode, f32_inactive_threshold]
  norm_num

/-! ## PreSolve and the one sided walls -/

/-- The switch of a side leaves the bodies of the two fixtures alone; the platform body of the
player is the body of the fixture of the side when that fixture is a moving platform, and is
left as it was otherwise. -/
theorem beginSide_platform (side : Side) (st st1 : BeginState)
    (h : beginSide side st = .ok st1) :
    st1.contact.fixtureA.body = st.contact.fixtureA.body ∧
    st1.contact.fixtureB.body = st.contact.fixtureB.body ∧
    st1.world.player.platformBody
      = (if st.contact.view.isType side ObjectTypeMovingPlatform
          then some (st.contact.fixture side).body.id else st.world.player.platformBody) := by
  unfold beginSide at h
  cases hnode : (st.contact.fixture side).userData with
  | none =>
    rw [hnode] at h; simp only [Except.ok.injEq] at h; subst h
    cases side <;> simp_all [ContactView.isType, ContactView.node, Contact.view, Contact.fixture]
  | some node =>
    rw [hnode] at h; simp only [] at h
    cases hother : (st.contact.fixture side.other).userData <;>
      cases htype : node.type <;>
      simp only [beginSwitch, htype, hother] at h <;>
      (repeat' split at h) <;> cases h <;> refine ⟨?_, ?_, ?_⟩ <;>
      first
        | rfl
        | (cases side <;> simp_all [ContactView.isType, ContactView.node, Contact.view,
             Contact.fixture, Side.other, FixtureNode.view, Contact.setNode])

theorem movingPlatformSides_weight (c : Contact) :
    weight .movingPlatform (kindOf c) = c.movingPlatformSides := by
  obtain ⟨⟨uA, sA, chA, bA⟩, ⟨uB, sB, chB, bB⟩, en⟩ := c
  cases uA <;> cases uB <;>
    simp [weight, sideCounts, kindOf, Contact.movingPlatformSides, ContactView.isType,
      ContactView.node, Contact.view, FixtureNode.view]

theorem sideOk_consistent (c : Contact) (side : Side)
    (h : ∀ n, (c.fixture side).userData = some n → n.consistent) :
    c.view.sideOk side = true := by
  unfold ContactView.sideOk
  rw [view_node_eq]
  cases hnode : (c.fixture side).userData with
  | none => rfl
  | some n =>
    obtain ⟨h1, h2, h3⟩ := h n hnode
    simp only [Option.map_some', FixtureNode.view]
    cases htype : n.type <;> simp_all

/-- Claim C30: for every `BeginContact` of a contact in which the fixture of a side is
classified as moving platform, whatever the other fixture is (untagged, or with any node of the
class its classification promises), the callback runs to its end; the moving platform counter
has grown by one for each side classified as moving platform; the platform body of the player
is the body of the moving platform (of fixture B when both are moving platforms, side B being
switched on last); and `EndContact` takes the same number from the counter. -/
theorem movingPlatform_counted (w : World) (c : Contact) (side : Side) (node : FixtureNode)
    (hnode : (c.fixture side).userData = some node)
    (htype : node.type = ObjectTypeMovingPlatform)
    (hother : ∀ n, (c.fixture side.other).userData = some n → n.consistent) :
    ∃ r, BeginContact w c = .ok r ∧
      1 ≤ c.movingPlatformSides ∧
      r.1.listener.count .movingPlatform
        = w.listener.count .movingPlatform + c.movingPlatformSides ∧
      r.1.player.platformBody
        = some (if c.view.isType .B ObjectTypeMovingPlatform then c.fixtureB.body.id
            else c.fixtureA.body.id) ∧
      (c.view.isType side.other ObjectTypeMovingPlatform = false →
        r.1.player.platformBody = some (c.fixture side).body.id) ∧
      (EndContact r.1 r.2).1.listener.count .movingPlatform
        = w.listener.count .movingPlatform ∧
      ∀ w1 : World, (EndContact w1 c).1.listener.count .movingPlatform
        = w1.listener.count .movingPlatform - c.movingPlatformSides := by
  have hself : c.view.isType side ObjectTypeMovingPlatform = true :=
    (isType_iff c side ObjectTypeMovingPlatform).mpr ⟨node, hnode, htype⟩
  have hok : ∃ r, BeginContact w c = .ok r := by
    rw [BeginContact_ok_iff]
    have hs : c.view.sideOk side = true := by
      apply sideOk_consistent
      intro n hn
      rw [hnode] at hn
      cases hn
      simp [FixtureNode.consistent, htype]
    have ho : c.view.sideOk side.other = true := sideOk_consistent c side.other hother
    have hnone : c.view.isType side ObjectTypeSolidOneSided = false := by
      unfold ContactView.isType
      rw [view_node_eq, hnode]
      simp [FixtureNode.view, htype]
    have hsome : (c.view.node side).isSome = true := by
      rw [view_node_eq, hnode]; rfl
    cases side with
    | A =>
      refine ⟨hs, ho, ?_⟩
      simp only [ContactView.wallsOk, ContactView.playerSide, hnone]
      split <;> simp_all
    | B =>
      refine ⟨ho, hs, ?_⟩
      simp only [ContactView.wallsOk, ContactView.playerSide, hnone]
      split <;> simp_all
  obtain ⟨r, hr⟩ := hok
  have hcount := (BeginContact_count w c r hr).2 Counter.movingPlatform
  have hkind := (BeginContact_count w c r hr).1
  rw [movingPlatformSides_weight] at hcount
  have hone : 1 ≤ c.movingPlatformSides := by
    unfold Contact.movingPlatformSides
    cases side <;> simp only [hself] <;> simp
  have hend : ∀ (w1 : World) (c1 : Contact), kindOf c1 = kindOf c →
      (EndContact w1 c1).1.listener.count .movingPlatform
        = w1.listener.count .movingPlatform - c.movingPlatformSides := by
    intro w1 c1 hk
    rw [(EndContact_count w1 c1).2 Counter.movingPlatform, hk, movingPlatformSides_weight]
  have hbody : r.1.player.platformBody
      = some (if c.view.isType .B ObjectTypeMovingPlatform then c.fixtureB.body.id
          else c.fixtureA.body.id) := by
    unfold BeginContact at hr
    cases h1 : beginSide .A ⟨w, c, none, none⟩ with
    | error e => rw [h1] at hr; cases hr
    | ok st1 =>
      rw [h1] at hr
      simp only [] at hr
      cases h2 : beginSide .B st1 with
      | error e => rw [h2] at hr; cases hr
      | ok st2 =>
        rw [h2] at hr
        simp only [] at hr
        cases h3 : processOneSidedWalls st2.contact st2.playerFixture st2.platformFixture with
        | error e => rw [h3] at hr; cases hr
        | ok c1 =>
          rw [h3] at hr
          cases hr
          obtain ⟨_, b1, p1⟩ := beginSide_platform .A _ _ h1
          obtain ⟨_, _, p2⟩ := beginSide_platform .B _ _ h2
          have v1 := (beginSide_flags .A _ _ h1).1
          simp only [] at b1 p1 v1
          rw [v1] at p2
          show st2.world.player.platformBody = _
          rw [p2, p1]
          simp only [Contact.fixture, b1]
          cases side with
          | A => simp only [hself, if_true]; split <;> rfl
          | B => simp only [hself, if_true]
  refine ⟨r, hr, hone, hcount, hbody, ?_, ?_, fun w1 => hend w1 c rfl⟩
  · intro hnot
    rw [hbody]
    cases side with
    | A =>
      simp only [Side.other] at hnot
      simp [hnot, Contact.fixture]
    | B => simp [hself, Contact.fixture]
  · rw [hend r.1 r.2 hkind, hcount]
    ring

/-- A moving platform touching a fixture without user data, from the reset state: the counter
is 1 and the platform body of the player is the body of the platform; after `EndContact` the
counter is 0 again. -/
theorem movingPlatform_counted_witness :
    ∃ r, BeginContact freshWorld ⟨movingPlatformFixture, untaggedFixture, true⟩ = .ok r ∧
      r.1.listener.count .movingPlatform = 0 + 1 ∧
      r.1.player.platformBody = some 6 ∧
      (EndContact r.1 r.2).1.listener.count .movingPlatform = 0 := by
  obtain ⟨r, hr, _, hcount, hbody, _, hend, _⟩ :=
    movingPlatform_counted freshWorld ⟨movingPlatformFixture, untaggedFixture, true⟩ .A
      ⟨ObjectTypeMovingPlatform, false, false, false, none, none, false⟩ rfl rfl
      (by intro n hn; cases hn)
  exact ⟨r, hr, hcount, hbody, hend⟩

end Game

namespace Script

/-! ## The gravity scale -/

/-- C13, as stated, fails: the node has a body of gravity scale 1; the script calls
`setGravityScale("not_a_number")`; the call returns and the gravity scale is 0. -/
theorem C13_gravity_counterexample :
    ¬ (∀ (env : Env) (st : State) (slot : Slot) (node : LuaNode) (body : Body),
        st.stack = [slot] → isnumber env slot.scalar = false →
        st.node = some node → node.mBody = some body →
        ∃ st1 node1 body1, setGravityScale env st = .returned 0 st1 ∧ st1.node = some node1 ∧
          node1.mBody = some body1 ∧ body1.gravityScale = body.gravityScale) := by
  intro hall
  obtain ⟨st1, node1, body1, hcall, hnode, hbody, hscale⟩ :=
    hall exampleEnv (exampleState [.value (.string "not_a_number")])
      (.value (.string "not_a_number")) exampleNode exampleBody rfl (by decide) rfl rfl
  have heval : setGravityScale exampleEnv (exampleState [.value (.string "not_a_number")])
      = .returned 0 ⟨[.value (.string "not_a_number")], .nil,
          some ⟨some ⟨7, 0, true, true, ⟨0, 0⟩, ⟨0, 0⟩, 0, [.tagged (some 3)]⟩,
            [("sprite", .string "bat.png")], 0, [], [], [], [], none⟩, ⟨120, 100⟩, [], []⟩ := by
    decide
  rw [heval] at hcall
  cases hcall
  cases hnode
  cases hbody
  simp [exampleBody] at hscale

/-- C13, amended: a script call `setGravityScale(v)` with exactly one argument `v` that is not a
number, nor a string convertible to a number, on a node with a body, returns without a result
and sets the gravity scale of the body to 0, the value `lua_tonumber` gives for such an
argument; nothing else changes. -/
theorem setGravityScale_not_number (env : Env) (st : State) (slot : Slot) (node : LuaNode)
    (body : Body) (hstack : st.stack = [slot]) (hslot : isnumber env slot.scalar = false)
    (hnode : st.node = some node) (hbody : node.mBody = some body) :
    setGravityScale env st = .returned 0
      (st.setNode (node.setBody (some ⟨body.id, 0, body.active, body.dynamic,
        body.linearVelocity, body.position, body.angle, body.fixtures⟩))) := by
  have hzero : lua_tonumber env st 1 = 0 := by
    simp only [lua_tonumber, valueAt, hstack]
    simp only [one_ne_zero, if_false, List.getElem?_cons_zero, Nat.sub_self]
    cases hv : slot.scalar <;> simp [hv, isnumber] at hslot <;> simp [tonumber, hslot]
  simp only [setGravityScale, lua_gettop, hstack, hnode, LuaNode.setGravityScale, hbody,
    returnNode, List.length_singleton, if_true]
  rw [hzero, f32_zero]

/-- The call `setGravityScale("not_a_number")` on a body of gravity scale 1. -/
theorem setGravityScale_not_number_witness :
    setGravityScale exampleEnv (exampleState [.value (.string "not_a_number")])
      = .returned 0 ((exampleState [.value (.string "not_a_number")]).setNode
          (exampleNode.setBody (some ⟨7, 0, true, true, ⟨0, 0⟩, ⟨0, 0⟩, 0,
            [.tagged (some 3)]⟩))) :=
  setGravityScale_not_number exampleEnv (exampleState [.value (.string "not_a_number")])
    (.value (.string "not_a_number")) exampleNode exampleBody rfl (by decide) rfl rfl

/-! ## Calls with a wrong number of arguments -/

/-- C14, as stated, fails, for three operations of the catalog. `addWeapon` called with two
arguments ends the process with `exit(1)`. `die`, written for a call without arguments, does not
look at their number: called with three arguments it destroys the body of the node.
`updateProperties`, written for one table, does not look at the number either: called without
an argument it faults. -/
theorem C14_wrong_count_counterexample :
    ¬ (∀ (env : Env) (op : Native) (st : State), accepts op (lua_gettop st) = false →
        ∃ results, call env op st = .returned results st) ∧
    (accepts .die 3 = false ∧
      call exampleEnv .die
          (exampleState [.value (.integer 1), .value (.integer 2), .value (.integer 3)])
        = .returned 0 ⟨[.value (.integer 1), .value (.integer 2), .value (.integer 3)], .nil,
            some (exampleNode.setBody none), ⟨120, 100⟩, [], [Effect.destroyBody 7]⟩) ∧
    (accepts .updateProperties 0 = false ∧
      call exampleEnv .updateProperties (exampleState []) = .fault .invalidTable) := by
  refine ⟨?_, ⟨by decide, by decide⟩, ⟨by decide, by decide⟩⟩
  intro hall
  obtain ⟨results, h⟩ := hall exampleEnv .addWeapon
    (exampleState [.value (.integer 1), .value (.integer 250)]) (by decide)
  have heval : call exampleEnv .addWeapon
      (exampleState [.value (.integer 1), .value (.integer 250)]) = .exited 1 := by decide
  rw [heval] at h
  cases h

/-- C14, amended: for every operation of the catalog that tests the number of its arguments,
other than `addWeapon`, and every call whose number of arguments is not one the operation
accepts, the call returns to the script and leaves the state as it was: the node, the player, the
world, the log of the other subsystems and the stack, so nothing is pushed. It declares no
result, except `isPhsyicsPathClear`, which declares one result without pushing it. The operation
`addWeapon` called with fewer than 3 arguments ends the process with `exit(1)`. The operations
`addSprite`, `die`, `getLinearVelocity`, `makeDynamic` and `makeStatic` do not test the number of
their arguments: a call with arguments does what the call without arguments does, the arguments
staying on the stack below. The operation `updateProperties` does not test it either: without an
argument it faults, with several arguments it takes the last one for its table. -/
theorem wrong_count_ignored (env : Env) (op : Native) (st : State)
    (h : accepts op (lua_gettop st) = false) :
    (guarded op = true → op ≠ .addWeapon →
      call env op st = .returned (if op = .isPhsyicsPathClear then 1 else 0) st) ∧
    (op = .addWeapon → lua_gettop st < 3 ∧ call env op st = .exited 1) ∧
    (guarded op = false → op ≠ .updateProperties →
      call env op st = (call env op (st.withStack [])).above st.stack) ∧
    (op = .updateProperties →
      (lua_gettop st = 0 → call env op st = .fault .invalidTable) ∧
      ∀ (below : List Slot) (top : Slot), st.stack = below ++ [top] →
        call env op st = (call env op (st.withStack [top])).above below) := by
  refine ⟨?_, ?_, ?_, ?_⟩
  · intro hg hop
    cases op <;> simp [guarded] at hg <;> simp [accepts] at h <;>
      first
        | exact absurd rfl hop
        | simp [call, addSample, addShapeCircle, addShapeRect, boom, damage, damageRadius, debug,
            fireWeapon, isPhsyicsPathClear, playDetonationAnimation, playSample, queryAABB,
            queryRayCast, registerHitAnimation, setActive, setDamage, setGravityScale,
            setLinearVelocity, setSpriteOffset, setSpriteOrigin, setTransform, setZ, timer,
            updateKeysPressed, updateProjectileAnimation, updateProjectileTexture,
            updateSpriteRect, h]
  · intro hop
    subst hop
    simp [accepts] at h
    exact ⟨h, by simp [call, addWeapon, h]⟩
  · intro hg hop
    obtain ⟨stack, beyond, node, playerPosition, world, log⟩ := st
    cases op <;> simp [guarded] at hg <;>
      first
        | exact absurd rfl hop
        | (cases node with
            | none => simp [call, addSprite, die, getLinearVelocity, makeDynamic, makeStatic,
                State.withStack, Outcome.above]
            | some n =>
              simp only [call, addSprite, die, getLinearVelocity, makeDynamic, makeStatic,
                State.withStack, LuaNode.luaDie, returnNode, LuaNode.setType, State.setNode,
                State.push]
              cases n.mBody <;> simp [Outcome.above, State.withStack])
  · intro hop
    subst hop
    obtain ⟨stack, beyond, node, playerPosition, world, log⟩ := st
    constructor
    · intro h0
      have hnil : stack = [] := List.length_eq_zero.mp h0
      subst hnil
      rfl
    · intro below top hst
      simp only at hst
      subst hst
      have hlast : (below ++ [top]).getLast? = some top := by simp
      simp only [call, updateProperties, State.withStack, hlast, List.getLast?_singleton]
      cases top with
      | value v => rfl
      | table entries =>
        cases node with
        | none => rfl
        | some n =>
          simp only []
          generalize updateEntries env entries n = e
          cases e with
          | error f => rfl
          | ok node1 =>
            simp only []
            generalize node1.synchronizeProperties env = e1
            cases e1 with
            | error f => rfl
            | ok r => rfl
      | sequence items =>
        cases items with
        | nil =>
          cases node with
          | none => rfl
          | some n =>
            simp only []
            generalize updateEntries env [] n = e
            cases e with
            | error f => rfl
            | ok node1 =>
              simp only []
              generalize node1.synchronizeProperties env = e1
              cases e1 with
              | error f => rfl
              | ok r => rfl
        | cons item items => rfl

/-- The operation `timer` called with one argument is ignored; `addWeapon` called with two
arguments ends the process; `makeStatic` called with one argument makes the body static, as it
does without arguments; `updateProperties` called without an argument faults. -/
theorem wrong_count_ignored_witness :
    call exampleEnv .timer (exampleState [.value (.integer 500)])
      = .returned 0 (exampleState [.value (.integer 500)]) ∧
    call exampleEnv .addWeapon (exampleState [.value (.integer 1), .value (.integer 250)])
      = .exited 1 ∧
    call exampleEnv .makeStatic (exampleState [.value (.integer 1)])
      = (call exampleEnv .makeStatic ((exampleState [.value (.integer 1)]).withStack [])).above
          [.value (.integer 1)] ∧
    call exampleEnv .updateProperties (exampleState []) = .fault .invalidTable :=
  ⟨(wrong_count_ignored exampleEnv .timer (exampleState [.value (.integer 500)])
      (by decide)).1 (by decide) (by decide),
   ((wrong_count_ignored exampleEnv .addWeapon
      (exampleState [.value (.integer 1), .value (.integer 250)]) (by decide)).2.1 rfl).2,
   (wrong_count_ignored exampleEnv .makeStatic (exampleState [.value (.integer 1)])
      (by decide)).2.2.1 (by decide) (by decide),
   ((wrong_count_ignored exampleEnv .updateProperties (exampleState [])
      (by decide)).2.2.2 rfl).1 rfl⟩

/-! ## Damage within a radius -/

theorem reportAll_query (fixtures : List WorldFixture) (mBodies : List Nat) :
    reportAll LuaQueryCallback.ReportFixture mBodies fixtures
      = mBodies ++ fixtures.map WorldFixture.body := by
  induction fixtures generalizing mBodies with
  | nil => simp [reportAll]
  | cons fixture rest ih =>
    simp [reportAll, LuaQueryCallback.ReportFixture, ih]

/-- C16, as stated, fails: two fixtures of the same body lie in the query box; `queryAABB`
returns 2, the number of distinct bodies is 1. -/
theorem C16_same_body_counterexample :
    ¬ (∀ (st : State) (aabb : AABB),
        LuaNode.queryAABB st aabb
          = ((((QueryAABB st.world aabb).map WorldFixture.body).dedup.length : Nat) : Int)) := by
  intro hall
  have h := hall twoFixtureWorld ⟨⟨0, 0⟩, ⟨5, 5⟩⟩
  have hq : QueryAABB twoFixtureWorld.world ⟨⟨0, 0⟩, ⟨5, 5⟩⟩
      = [⟨1, ⟨⟨0, 0⟩, ⟨1, 1⟩⟩⟩, ⟨1, ⟨⟨1, 0⟩, ⟨2, 1⟩⟩⟩] := by
    simp [QueryAABB, twoFixtureWorld, testOverlap]
  have h2 : LuaNode.queryAABB twoFixtureWorld ⟨⟨0, 0⟩, ⟨5, 5⟩⟩ = 2 := by
    simp only [LuaNode.queryAABB, hq]
    rfl
  rw [h2, hq] at h
  revert h
  decide

/-- C16, amended: for every physics world and every query box, `LuaNode::queryAABB` returns the
number of fixtures the world query reports, so a body is counted once for each of its reported
fixtures; the result is the number of distinct bodies exactly when no body has more than one
reported fixture. -/
theorem queryAABB_counts_fixtures (st : State) (aabb : AABB) :
    LuaNode.queryAABB st aabb = ((QueryAABB st.world aabb).length : Int) ∧
    (LuaNode.queryAABB st aabb
        = ((((QueryAABB st.world aabb).map WorldFixture.body).dedup.length : Nat) : Int)
      ↔ ((QueryAABB st.world aabb).map WorldFixture.body).Nodup) := by
  have hlen : LuaNode.queryAABB st aabb = ((QueryAABB st.world aabb).length : Int) := by
    simp [LuaNode.queryAABB, reportAll_query]
  refine ⟨hlen, ?_⟩
  rw [hlen]
  constructor
  · intro h
    have h1 : ((QueryAABB st.world aabb).map WorldFixture.body).dedup.length
        = ((QueryAABB st.world aabb).map WorldFixture.body).length := by
      have : (QueryAABB st.world aabb).length
          = ((QueryAABB st.world aabb).map WorldFixture.body).dedup.length := by exact_mod_cast h
      rw [← this, List.length_map]
    exact List.dedup_eq_self.mp ((List.dedup_sublist _).eq_of_length h1)
  · intro h
    rw [List.dedup_eq_self.mpr h, List.length_map]

/-! ## The property bag -/

theorem getProperty_filter (key other : String) (bag : List (String × Property))
    (h : key ≠ other) :
    getProperty key (bag.filter (fun entry => !decide (entry.1 = other)))
      = getProperty key bag := by
  induction bag with
  | nil => rfl
  | cons entry rest ih =>
    obtain ⟨k, p⟩ := entry
    unfold getProperty at ih ⊢
    by_cases h1 : k = other
    · have h2 : ¬ k = key := fun h3 => h (h3.symm.trans h1)
      rw [List.filter_cons_of_neg (by simp [h1]), List.find?_cons_of_neg _ (by simp [h2])]
      exact ih
    · by_cases h2 : k = key
      · rw [List.filter_cons_of_pos (by simp [h1]), List.find?_cons_of_pos _ (by simp [h2]),
          List.find?_cons_of_pos _ (by simp [h2])]
      · rw [List.filter_cons_of_pos (by simp [h1]), List.find?_cons_of_neg _ (by simp [h2]),
          List.find?_cons_of_neg _ (by simp [h2])]
        exact ih

theorem getProperty_setProperty (key other : String) (p : Property)
    (bag : List (String × Property)) :
    getProperty key (setProperty other p bag)
      = if key = other then some p else getProperty key bag := by
  by_cases h : key = other
  · subst h
    simp [getProperty, setProperty]
  · have h1 : ¬ other = key := fun h2 => h h2.symm
    rw [if_neg h, ← getProperty_filter key other bag h]
    simp [getProperty, setProperty, List.find?_cons, h1]

/-- The body of the loop writes what the coercion of the claim gives, and nothing for a value
the coercion has no property for. -/
theorem updateProperty_eq (env : Env) (key : String) (v : LuaValue) (node : LuaNode) :
    updateProperty env key v node = .ok
      (match coercion env v with
        | some p => node.setProperties (setProperty key p node.mProperties)
        | none => node) := by
  cases v with
  | string s =>
    cases hs : env.str2number s <;>
      simp [updateProperty, coercion, isboolean, isnumber, isinteger, isstring, tostring,
        tonumber, hs]
  | _ =>
    simp [updateProperty, coercion, isboolean, isnumber, isinteger, isstring, tostring,
      toboolean, tonumber, tointeger]

/-- The loop over the entries of a table without a repeated key. -/
theorem updateEntries_spec (env : Env) (entries : List (String × LuaValue)) :
    ∀ node : LuaNode, (entries.map Prod.fst).Nodup →
    ∃ node1, updateEntries env entries node = .ok node1 ∧
      node1.mBody = node.mBody ∧ node1.mZ = node.mZ ∧ node1.mShapes = node.mShapes ∧
      node1.mWeapons = node.mWeapons ∧ node1.mSprites = node.mSprites ∧
      node1.mSpriteOffsets = node.mSpriteOffsets ∧ node1.mTexture = node.mTexture ∧
      (∀ key v p, (key, v) ∈ entries → coercion env v = some p →
        getProperty key node1.mProperties = some p) ∧
      (∀ key v, (key, v) ∈ entries → coercion env v = none →
        getProperty key node1.mProperties = getProperty key node.mProperties) ∧
      (∀ key, key ∉ entries.map Prod.fst →
        getProperty key node1.mProperties = getProperty key node.mProperties) := by
  induction entries with
  | nil =>
    intro node _
    exact ⟨node, rfl, rfl, rfl, rfl, rfl, rfl, rfl, rfl, by simp, by simp, by simp⟩
  | cons entry rest ih =>
    intro node hnodup
    rw [List.map_cons, List.nodup_cons] at hnodup
    obtain ⟨hfresh, hrest⟩ := hnodup
    obtain ⟨node1, hrun, hb, hz, hsh, hw, hsp, hso, ht, hwritten, hskipped, huntouched⟩ :=
      ih (match coercion env entry.2 with
          | some p => node.setProperties (setProperty entry.1 p node.mProperties)
          | none => node) hrest
    have hstep : ∀ key, key ≠ entry.1 →
        getProperty key (match coercion env entry.2 with
          | some p => node.setProperties (setProperty entry.1 p node.mProperties)
          | none => node).mProperties = getProperty key node.mProperties := by
      intro key hkey
      cases coercion env entry.2 with
      | none => rfl
      | some p => simp [LuaNode.setProperties, getProperty_setProperty, hkey]
    have hne : ∀ key v, (key, v) ∈ rest → key ≠ entry.1 := by
      intro key v hmem heq
      exact hfresh (heq ▸ List.mem_map_of_mem Prod.fst hmem)
    refine ⟨node1, ?_, ?_, ?_, ?_, ?_, ?_, ?_, ?_, ?_, ?_, ?_⟩
    · simp only [updateEntries, updateProperty_eq]
      exact hrun
    · rw [hb]; cases coercion env entry.2 <;> rfl
    · rw [hz]; cases coercion env entry.2 <;> rfl
    · rw [hsh]; cases coercion env entry.2 <;> rfl
    · rw [hw]; cases coercion env entry.2 <;> rfl
    · rw [hsp]; cases coercion env entry.2 <;> rfl
    · rw [hso]; cases coercion env entry.2 <;> rfl
    · rw [ht]; cases coercion env entry.2 <;> rfl
    · intro key v p hmem hp
      rcases List.mem_cons.mp hmem with heq | hmem1
      · obtain ⟨k, w⟩ := entry
        cases heq
        rw [huntouched _ hfresh]
        simp only [hp]
        simp [LuaNode.setProperties, getProperty_setProperty]
      · exact hwritten key v p hmem1 hp
    · intro key v hmem hp
      rcases List.mem_cons.mp hmem with heq | hmem1
      · obtain ⟨k, w⟩ := entry
        cases heq
        rw [huntouched _ hfresh]
        simp only [hp]
      · rw [hskipped key v hmem1 hp]
        exact hstep key (hne key v hmem1)
    · intro key hkey
      rw [List.map_cons, List.mem_cons, not_or] at hkey
      rw [huntouched key hkey.2]
      exact hstep key hkey.1

/-- C17, as stated, fails, whatever value `operator[]` inserts for a missing key: the node has
no property and the table is empty. Then `setupTexture` inserts the key `sprite`, which is not a
key of the table, and throws unless the inserted value is a string. -/
theorem C17_sprite_counterexample :
    ¬ (∃ env : Env, ∀ (st : State) (entries : List (String × LuaValue)) (node : LuaNode),
        st.stack.getLast? = some (.table entries) → (entries.map Prod.fst).Nodup →
        st.node = some node →
        ∃ st1 node1, updateProperties env st = .returned 0 st1 ∧ st1.node = some node1 ∧
          (∀ key v p, (key, v) ∈ entries → coercion env v = some p →
            getProperty key node1.mProperties = some p) ∧
          (∀ key v, (key, v) ∈ entries → coercion env v = none →
            getProperty key node1.mProperties = getProperty key node.mProperties) ∧
          (∀ key, key ∉ entries.map Prod.fst →
            getProperty key node1.mProperties = getProperty key node.mProperties)) := by
  rintro ⟨env, hall⟩
  obtain ⟨st1, node1, hcall, hnode, _, _, huntouched⟩ :=
    hall ⟨[.table []], .nil, some bareNode, ⟨0, 0⟩, [], []⟩ [] bareNode rfl (by simp) rfl
  have hsprite := huntouched "sprite" (by simp)
  cases hd : env.defaultProperty <;>
    simp [updateProperties, updateEntries, LuaNode.synchronizeProperties, LuaNode.setupTexture,
      getProperty, bareNode, hd, State.setNode, State.addLog] at hcall
  subst hcall
  cases hnode
  simp [getProperty, bareNode] at hsprite

/-- C17, amended: for every table with string keys passed to `updateProperties` on a node whose
property `sprite` is a string once the table is written (the table gives `sprite` a string, or
it does not write `sprite` and the bag holds a string there), the call returns, and for every
key of the table the bag afterwards maps the key to a Bool if the value is a boolean, otherwise
an Int64 if it is an integer number, otherwise a Double if it is a number or convertible to one,
otherwise a String if it is a string; a key whose value has any other type is not written, and
the properties whose keys are not in the table are unchanged. -/
theorem updateProperties_coerces (env : Env) (st : State) (entries : List (String × LuaValue))
    (node : LuaNode)
    (htable : st.stack.getLast? = some (.table entries))
    (hkeys : (entries.map Prod.fst).Nodup)
    (hnode : st.node = some node)
    (hsprite : (∃ v name, ("sprite", v) ∈ entries ∧ coercion env v = some (.string name)) ∨
      ((∀ v, ("sprite", v) ∈ entries → coercion env v = none) ∧
        ∃ name, getProperty "sprite" node.mProperties = some (.string name))) :
    ∃ st1 node1, updateProperties env st = .returned 0 st1 ∧ st1.node = some node1 ∧
      (∀ key v p, (key, v) ∈ entries → coercion env v = some p →
        getProperty key node1.mProperties = some p) ∧
      (∀ key v, (key, v) ∈ entries → coercion env v = none →
        getProperty key node1.mProperties = getProperty key node.mProperties) ∧
      (∀ key, key ∉ entries.map Prod.fst →
        getProperty key node1.mProperties = getProperty key node.mProperties) := by
  obtain ⟨node1, hrun, _, _, _, _, _, _, _, hwritten, hskipped, huntouched⟩ :=
    updateEntries_spec env entries node hkeys
  have hname : ∃ name, getProperty "sprite" node1.mProperties = some (.string name) := by
    rcases hsprite with ⟨v, name, hmem, hp⟩ | ⟨hnot, name, hbag⟩
    · exact ⟨name, hwritten "sprite" v _ hmem hp⟩
    · refine ⟨name, ?_⟩
      by_cases hin : "sprite" ∈ entries.map Prod.fst
      · obtain ⟨⟨k, v⟩, hmem, hk⟩ := List.mem_map.mp hin
        simp only at hk
        subst hk
        rw [hskipped _ v hmem (hnot v hmem), hbag]
      · rw [huntouched _ hin, hbag]
  obtain ⟨name, hname⟩ := hname
  have hcall : updateProperties env st = .returned 0
      ((st.setNode (⟨node1.mBody, node1.mProperties, node1.mZ, node1.mShapes, node1.mWeapons,
        node1.mSprites.map (fun sprite : Sprite =>
          (⟨some name, sprite.origin, sprite.rect⟩ : Sprite)),
        node1.mSpriteOffsets, some name⟩ : LuaNode)).addLog [Effect.textureGet name]) := by
    simp [updateProperties, htable, hnode, hrun, LuaNode.synchronizeProperties,
      LuaNode.setupTexture, hname]
  exact ⟨_, _, hcall, rfl, hwritten, hskipped, huntouched⟩

/-- A table with a boolean, an integer, a string that reads as a number, a string that does not
and a function, written to the node of the examples, whose property `sprite` is a string. -/
theorem updateProperties_coerces_witness :
    ∃ st1 node1,
      updateProperties exampleEnv (exampleState [.table [("staticBody", .boolean true),
        ("damage", .integer 3), ("speed", .string "12"), ("name", .string "bat"),
        ("hook", .other)]]) = .returned 0 st1 ∧ st1.node = some node1 ∧
      (∀ key v p, (key, v) ∈ [("staticBody", LuaValue.boolean true), ("damage", .integer 3),
          ("speed", .string "12"), ("name", .string "bat"), ("hook", .other)] →
        coercion exampleEnv v = some p → getProperty key node1.mProperties = some p) ∧
      (∀ key v, (key, v) ∈ [("staticBody", LuaValue.boolean true), ("damage", .integer 3),
          ("speed", .string "12"), ("name", .string "bat"), ("hook", .other)] →
        coercion exampleEnv v = none →
        getProperty key node1.mProperties = getProperty key exampleNode.mProperties) ∧
      (∀ key, key ∉ ([("staticBody", LuaValue.boolean true), ("damage", .integer 3),
          ("speed", .string "12"), ("name", .string "bat"), ("hook", .other)].map Prod.fst) →
        getProperty key node1.mProperties = getProperty key exampleNode.mProperties) :=
  updateProperties_coerces exampleEnv _ _ exampleNode rfl (by decide) rfl
    (Or.inr ⟨by simp, "bat.png", by decide⟩)

/-! ## The force of the damage within a radius -/

/-- The indices of a loop that starts at `start`, advances by two and stops below
`start + 2 * k`. -/
theorem steps_eq (start k : Nat) :
    steps start (start + 2 * k) = (List.range k).map (fun j => start + 2 * j) := by
  induction k with
  | zero =>
    simp only [steps, Nat.mul_zero, Nat.add_zero, List.range_zero, List.map_nil]
    apply List.filter_eq_nil_iff.mpr
    intro i hi
    have := List.mem_range.mp hi
    simp
    omega
  | succ k ih =>
    have e : start + 2 * (k + 1) = (start + 2 * k + 1) + 1 := by ring
    unfold steps at ih ⊢
    rw [e, List.range_succ, List.range_succ, List.filter_append, List.filter_append, ih,
      List.range_succ, List.map_append]
    simp
    omega

/-- A call of `addWeapon` with exactly 4 arguments builds a circle whose radius is the fourth
argument. -/
theorem addWeapon_circle (env : Env) (st : State) (node : LuaNode) (hnode : st.node = some node)
    (hargc : lua_gettop st = 4) :
    addWeapon env st = .returned 0 (st.setNode (node.addWeapon
      (WeaponFactory.create node.mBody (lua_tointeger env st 1)
        (some (.circle (lua_tonumber env st 4) ⟨0, 0⟩))
        (lua_tointeger env st 2) (lua_tointeger env st 3)))) := by
  simp [addWeapon, hargc, hnode]

/-- Claim C25, the failing case: a call of `addWeapon` with `5 + 2 * m` arguments builds a
polygon of `m` points, the point `j` (counted from 0) being the arguments `3 + 2 * j` and
`4 + 2 * j`: the loop of lines 880-886 starts at the third argument, the damage, and stops two
arguments before the last, where the comment of the function and the claim have the points in
the arguments `4 .. n`. -/
theorem addWeapon_polygon (env : Env) (st : State) (node : LuaNode) (m : Nat)
    (hnode : st.node = some node) (hargc : lua_gettop st = 5 + 2 * m) :
    addWeapon env st = .returned 0 (st.setNode (node.addWeapon
      (WeaponFactory.create node.mBody (lua_tointeger env st 1)
        (some (.polygon ((List.range m).map
          (fun j => ⟨lua_tonumber env st (3 + 2 * j), lua_tonumber env st (3 + 2 * j + 1)⟩))))
        (lua_tointeger env st 2) (lua_tointeger env st 3)))) := by
  have hsteps : steps 3 (5 + 2 * m - 2) = (List.range m).map (fun j => 3 + 2 * j) := by
    rw [show 5 + 2 * m - 2 = 3 + 2 * m by omega, steps_eq]
  have h3 : ¬ (5 + 2 * m < 3) := by omega
  have h5 : 5 + 2 * m ≥ 5 ∧ (5 + 2 * m - 5) % 2 = 0 := by
    constructor
    · omega
    · rw [show 5 + 2 * m - 5 = 2 * m by omega]; exact Nat.mul_mod_right 2 m
  simp only [addWeapon, hargc, hnode, h3, if_false, h5, and_self, if_true, hsteps, List.map_map]
  rfl

/-- The call `addWeapon(1, 250, 10, 4, 5, 6, 7)`: the polygon has the single point `(10, 4)`,
made of the damage and the fourth argument, where the claim has the points `(4, 5)` and
`(6, 7)`. -/
theorem addWeapon_polygon_witness :
    addWeapon exampleEnv (exampleState [.value (.integer 1), .value (.integer 250),
        .value (.integer 10), .value (.integer 4), .value (.integer 5), .value (.integer 6),
        .value (.integer 7)])
      = .returned 0 ((exampleState [.value (.integer 1), .value (.integer 250),
          .value (.integer 10), .value (.integer 4), .value (.integer 5), .value (.integer 6),
          .value (.integer 7)]).setNode
        (exampleNode.addWeapon ⟨some 7, 1, some (.polygon [⟨10, 4⟩]), 250, 10, []⟩)) := by
  have h := addWeapon_polygon exampleEnv (exampleState [.value (.integer 1),
    .value (.integer 250), .value (.integer 10), .value (.integer 4), .value (.integer 5),
    .value (.integer 6), .value (.integer 7)]) exampleNode 1 rfl rfl
  rw [h]
  simp [lua_tonumber, lua_tointeger, valueAt, exampleState, tonumber, tointeger, Slot.scalar,
    WeaponFactory.create, exampleNode, exampleBody, List.range_succ]

end Script
